import Mathlib

/-!
# BNO055 register-level driver: embedding and verified properties

The driver (`src/bno055.c`, `src/bno055_priv.h`, `include/bno055.h`) is embedded as pure
functions over an explicit world: the cached device record `bno055_t` together with the
chronological log of everything the driver asked of the platform (bus writes, bus reads,
delays, GPIO calls).  The platform answers through a `Hal` value whose replies may depend on
the whole history, so a statement quantified over every `Hal` covers every bus behaviour.

Conventions
* `uint8_t` values are natural numbers below 256; a store into a `uint8_t` is `% 256`.
* `int16_t` values are integers in `[-32768, 32767]`; the cast `(int16_t)` is `int16_cast`.
* C enumerations are natural numbers (their values are listed with the source names).
* `esp_err_t` is an integer, `ESP_OK = 0`.
* `float` is an abstract type `F` with the operations of `FloatOps`; nothing is assumed
  about rounding unless a theorem says so explicitly.
* The `imu == NULL` guards are not represented: the record is always present.
* Logging calls (`ESP_LOGx`) have no effect on the device record or on the platform.
-/

namespace BNO055

/-! ## Platform: floating point -/

/-- Operations on the C type `float` used by the driver: the value of a literal or of an
integer conversion (`ofRat`), the product `*`, the quotient `/`, and the libm function
`lrintf`, whose `long` result is returned as an integer. -/
class FloatOps (F : Type) where
  ofRat : ℚ → F
  mul : F → F → F
  div : F → F → F
  lrintf : F → Int

/-- Conversion `(float)n` of an integer `n`. -/
def FloatOps.ofInt {F : Type} [FloatOps F] (n : Int) : F := FloatOps.ofRat (n : ℚ)

/-- Exactness of division on small integers with a positive divisor: when `a`, `b > 0` and
the quotient `q = a / b` are integers of magnitude at most `2^24`, the quotient of the
floats `a` and `b` is the float `q`.  IEEE 754 binary32 division has this property, since
all three numbers are representable, the operation is correctly rounded and, the divisor
being positive, a zero quotient is the positive zero that `(float)0` is.  (With a negative
divisor the quotient of zero is the negative zero, which is why the divisor is required to
be positive.) -/
def FloatOps.DivExact (F : Type) [FloatOps F] : Prop :=
  ∀ a b q : Int, 0 < b → a = q * b → |a| ≤ 2 ^ 24 → |b| ≤ 2 ^ 24 →
    FloatOps.div (FloatOps.ofInt a : F) (FloatOps.ofInt b) = FloatOps.ofInt q

/-- Rounding of a rational to the nearest integer, ties to the even neighbour. -/
def roundHalfEven (q : ℚ) : Int :=
  if q - ⌊q⌋ < 1 / 2 then ⌊q⌋
  else if 1 / 2 < q - ⌊q⌋ then ⌊q⌋ + 1
  else if ⌊q⌋ % 2 = 0 then ⌊q⌋ else ⌊q⌋ + 1

/-- Exact arithmetic on the rationals, a model of `FloatOps` without rounding error. -/
instance exactFloatOps : FloatOps ℚ where
  ofRat := fun q => q
  mul := fun a b => a * b
  div := fun a b => a / b
  lrintf := roundHalfEven

/-- Exact arithmetic with a sign bit, a model of `FloatOps` with two zeros: a value is a
rational together with its sign bit, a literal or an integer conversion has the sign of its
value (zero is positive), and the sign of a product or a quotient is the exclusive or of the
signs of its operands, so `0.0 / -1.0` is the negative zero. -/
instance signedZeroFloatOps : FloatOps (ℚ × Bool) where
  ofRat := fun q => (q, decide (q < 0))
  mul := fun a b => (a.1 * b.1, xor a.2 b.2)
  div := fun a b => (a.1 / b.1, xor a.2 b.2)
  lrintf := fun a => roundHalfEven a.1

abbrev esp_err_t := Int

@[simp] def ESP_OK : esp_err_t := 0
@[simp] def ESP_ERR_INVALID_ARG : esp_err_t := 0x102
@[simp] def ESP_ERR_INVALID_STATE : esp_err_t := 0x103
@[simp] def ESP_ERR_INVALID_MAC : esp_err_t := 0x10B

/-! ## Constants of `bno055.h` and `bno055_priv.h` -/

-- bno055_reg_t (page 0)
@[simp] def CHIP_ID : Nat := 0x00
@[simp] def PAGE_ID : Nat := 0x07
@[simp] def CALIB_STAT : Nat := 0x35
@[simp] def ST_RESULT : Nat := 0x36
@[simp] def UNIT_SEL : Nat := 0x3B
@[simp] def OPR_MODE : Nat := 0x3D
@[simp] def SYS_TRIGGER : Nat := 0x3F
@[simp] def AXIS_MAP_CONFIG : Nat := 0x41
@[simp] def AXIS_MAP_SIGN : Nat := 0x42
@[simp] def ACC_OFFSET_X_LSB : Nat := 0x55

-- bno055_operation_mode_t
@[simp] def CONFIG_MODE : Nat := 0x00
@[simp] def ACC_ONLY_MODE : Nat := 0x01
@[simp] def MAG_ONLY_MODE : Nat := 0x02
@[simp] def GYRO_ONLY_MODE : Nat := 0x03
@[simp] def ACC_MAG_MODE : Nat := 0x04
@[simp] def ACC_GYRO_MODE : Nat := 0x05
@[simp] def MAG_GYRO_MODE : Nat := 0x06
@[simp] def AMG_MODE : Nat := 0x07
@[simp] def IMU_MODE : Nat := 0x08
@[simp] def COMPASS_MODE : Nat := 0x09
@[simp] def M4G_MODE : Nat := 0x0A
@[simp] def NDOF_FMC_OFF_MODE : Nat := 0x0B
@[simp] def NDOF_MODE : Nat := 0x0C

-- bno055_units_t
@[simp] def ACC_M_S2 : Nat := 0x00
@[simp] def ACC_MG : Nat := 0x01
@[simp] def GY_DPS : Nat := 0x00
@[simp] def GY_RPS : Nat := 0x02
@[simp] def EUL_DEG : Nat := 0x00
@[simp] def EUL_RAD : Nat := 0x04
@[simp] def TEMP_C : Nat := 0x00
@[simp] def TEMP_F : Nat := 0x10

-- bno055_sensor_t
@[simp] def ACCELEROMETER : Nat := 0x08
@[simp] def MAGNETOMETER : Nat := 0x0e
@[simp] def GYROSCOPE : Nat := 0x14
@[simp] def EULER_ANGLE : Nat := 0x1a
@[simp] def QUATERNION : Nat := 0x20
@[simp] def LINEAR_ACCELERATION : Nat := 0x28
@[simp] def GRAVITY : Nat := 0x2e
@[simp] def TEMPERATURE : Nat := 0x34

-- bno055_reset_method_t
@[simp] def RESET_SW : Nat := 0x00
@[simp] def RESET_HW : Nat := 0x01

-- axis_t
@[simp] def POSITIVE_X : Nat := 0x00
@[simp] def NEGATIVE_X : Nat := 0x04
@[simp] def POSITIVE_Y : Nat := 0x01
@[simp] def NEGATIVE_Y : Nat := 0x05
@[simp] def POSITIVE_Z : Nat := 0x02
@[simp] def NEGATIVE_Z : Nat := 0x06

-- stdint.h
@[simp] def INT16_MAX : Int := 32767
@[simp] def INT16_MIN : Int := -32768

/-! ## Register codec (`bno055_priv.h`) -/

/-- The cast `(int16_t)x`: reduction modulo `2^16` into `[-32768, 32767]`. -/
def int16_cast (x : Int) : Int := (x + 32768) % 65536 - 32768

/-- The cast `(int8_t)x` of a byte. -/
def int8_cast (x : Int) : Int := (x + 128) % 256 - 128

/-- The cast `(uint16_t)v`: the 16-bit two's-complement pattern of `v`. -/
def uint16_cast (v : Int) : Nat := (v % 65536).toNat

/-- Source: `return (int16_t)((uint16_t)msb << 8 | (uint16_t)lsb);`. -/
def u8_to_i16 (msb lsb : Nat) : Int :=
  int16_cast (((msb <<< 8) ||| lsb : Nat) : Int)

/-- Source: `return (float)u8_to_i16(msb, lsb) / scale;`. -/
def u8_to_f {F : Type} [FloatOps F] (msb lsb : Nat) (scale : F) : F :=
  FloatOps.div (FloatOps.ofInt (u8_to_i16 msb lsb)) scale

/-- Source: `*lsb = (uint8_t)(v & 0xFF); *msb = (uint8_t)((uint16_t)v >> 8);`.
The result is the pair `(lsb, msb)`.  The low byte of `v & 0xFF` is taken on the
two's-complement pattern of `v`. -/
def i16_to_u8 (v : Int) : Nat × Nat :=
  ((uint16_cast v &&& 0xFF) % 256, (uint16_cast v >>> 8) % 256)

/-- The two clamps of `f_to_i16` applied to the `long` value `r`. -/
def clamp_i16 (r : Int) : Int :=
  let r1 := if r > INT16_MAX then INT16_MAX else r
  let r2 := if r1 < INT16_MIN then INT16_MIN else r1
  int16_cast r2

/-- Source: `long r = lrintf(val * scale); if (r > INT16_MAX) r = INT16_MAX;
if (r < INT16_MIN) r = INT16_MIN; return (int16_t)r;`. -/
def f_to_i16 {F : Type} [FloatOps F] (val scale : F) : Int :=
  clamp_i16 (FloatOps.lrintf (FloatOps.mul val scale))

/-! ## Data model (`bno055.h`) -/

structure vec3_t (F : Type) where
  x : F
  y : F
  z : F
deriving DecidableEq

structure euler_t (F : Type) where
  roll : F
  pitch : F
  yaw : F
deriving DecidableEq

structure quaternion_t (F : Type) where
  x : F
  y : F
  z : F
  w : F
deriving DecidableEq

structure sensor_offset_t (F : Type) where
  accelerometer : vec3_t F
  gyroscope : vec3_t F
  magnetometer : vec3_t F
  accelerometer_radius : Int
  magnetometer_radius : Int
deriving DecidableEq

structure scale_t (F : Type) where
  accelerometer : F
  gyroscope : F
  euler_angle : F
  magnetometer : F
  temperature : F
  quaternion : F
deriving DecidableEq

structure reset_t where
  method : Nat
  pin : Int
deriving DecidableEq

structure state_t where
  mode : Nat
  units : Nat
  page : Nat
  external_crystal : Bool
deriving DecidableEq

structure calibration_t where
  xl : Nat
  gyro : Nat
  mag : Nat
  sys : Nat
deriving DecidableEq

/-- The record `sensor_config_t`; the bus handle and the interrupt pin are never read or
written by the functions embedded here and are left out. -/
structure sensor_config_t (F : Type) where
  offsets : sensor_offset_t F
  sensor_scale : scale_t F
  reset : reset_t
  state : state_t
  calibration : calibration_t
  is_calibrated : Bool
deriving DecidableEq

structure bno055_t (F : Type) where
  raw_acceleration : vec3_t F
  linear_acceleration : vec3_t F
  gravity : vec3_t F
  gyroscope : vec3_t F
  magnetometer : vec3_t F
  euler_angle : euler_t F
  quaternion : quaternion_t F
  temperature : F
  config : sensor_config_t F
deriving DecidableEq

structure bno055_axes_t where
  x : Nat
  y : Nat
  z : Nat
deriving DecidableEq

/-! ## Platform: bus, delay and GPIO -/

/-- One request of the driver to the platform.
* `transmit buf`: `i2c_master_transmit(handle, buf, sizeof buf, 100)`;
* `transmit_receive reg n`: `i2c_master_transmit_receive(handle, &reg, 1, out, n, 100)`;
* `delay ms`: `vTaskDelay(pdMS_TO_TICKS(ms))`;
* the three GPIO calls on the reset pin. -/
inductive Event where
  | transmit (write_buffer : List Nat)
  | transmit_receive (register_address : Nat) (read_size : Nat)
  | delay (ms : Nat)
  | gpio_set_direction (pin : Int)
  | gpio_set_pull_mode (pin : Int)
  | gpio_set_level (pin : Int) (level : Nat)
deriving DecidableEq

/-- Behaviour of the platform: the status of a bus write, the status and the bytes of a bus
read, and the status of a GPIO call, each as a function of the history so far. -/
structure Hal where
  transmit : List Event → List Nat → esp_err_t
  transmit_receive : List Event → Nat → Nat → esp_err_t × List Nat
  gpio : List Event → Event → esp_err_t

/-- The device record together with the chronological log of platform requests. -/
structure World (F : Type) where
  imu : bno055_t F
  log : List Event
deriving DecidableEq

/-- Byte `i` of a receive buffer. -/
def byte (buf : List Nat) (i : Nat) : Nat := buf.getD i 0 % 256

def i2c_master_transmit {F : Type} (hal : Hal) (w : World F) (write_buffer : List Nat) :
    esp_err_t × World F :=
  (hal.transmit w.log write_buffer, { w with log := w.log ++ [Event.transmit write_buffer] })

def i2c_master_transmit_receive {F : Type} (hal : Hal) (w : World F) (register_address : Nat)
    (read_size : Nat) : esp_err_t × List Nat × World F :=
  ((hal.transmit_receive w.log register_address read_size).1,
   (hal.transmit_receive w.log register_address read_size).2,
   { w with log := w.log ++ [Event.transmit_receive register_address read_size] })

def vTaskDelay {F : Type} (w : World F) (ms : Nat) : World F :=
  { w with log := w.log ++ [Event.delay ms] }

def gpio_call {F : Type} (hal : Hal) (w : World F) (e : Event) : esp_err_t × World F :=
  (hal.gpio w.log e, { w with log := w.log ++ [e] })

/-- The status with which the platform answers request `e` after history `pre`
(a delay always completes). -/
def Hal.status (hal : Hal) (pre : List Event) (e : Event) : esp_err_t :=
  match e with
  | Event.transmit buf => hal.transmit pre buf
  | Event.transmit_receive reg n => (hal.transmit_receive pre reg n).1
  | Event.delay _ => ESP_OK
  | g => hal.gpio pre g

/-- A bus transaction: a write or a read (not a delay, not a GPIO call). -/
def Event.isBus : Event → Bool
  | Event.transmit _ => true
  | Event.transmit_receive _ _ => true
  | _ => false

/-- Every request of the list, issued in this order after the history `pre`, is answered
with `ESP_OK`. -/
def Hal.accepts (hal : Hal) (pre : List Event) : List Event → Bool
  | [] => true
  | e :: rest => decide (hal.status pre e = ESP_OK) && hal.accepts (pre ++ [e]) rest

/-! ## Driver (`bno055.c`) -/

/-- Source: `bno055_set_page`, lines 14-40. -/
def bno055_set_page {F : Type} (hal : Hal) (w : World F) (page : Nat) : esp_err_t × World F :=
  if page > 1 then (ESP_ERR_INVALID_ARG, w)
  else
    let tx := i2c_master_transmit hal w [PAGE_ID, page]
    if tx.1 ≠ ESP_OK then (tx.1, tx.2)
    else (ESP_OK, { tx.2 with imu.config.state.page := page })

/-- Source: `bno055_set_external_crystal_use`, lines 51-103. -/
def bno055_set_external_crystal_use {F : Type} (hal : Hal) (w : World F) (state : Bool) :
    esp_err_t × World F :=
  if w.imu.config.state.mode ≠ CONFIG_MODE then (ESP_ERR_INVALID_STATE, w)
  else
    let pg := if w.imu.config.state.page ≠ 0 then bno055_set_page hal w 0 else (ESP_OK, w)
    if pg.1 ≠ ESP_OK then (pg.1, pg.2)
    else
      let rd := i2c_master_transmit_receive hal pg.2 SYS_TRIGGER 1
      if rd.1 ≠ ESP_OK then (rd.1, rd.2.2)
      else
        let register_content :=
          ((byte rd.2.1 0 &&& 0x7F) ||| (if state then 0x80 else 0x00)) % 256
        let tx := i2c_master_transmit hal rd.2.2 [SYS_TRIGGER, register_content]
        if tx.1 ≠ ESP_OK then (tx.1, tx.2)
        else
          let w1 := vTaskDelay tx.2 650
          (ESP_OK, { w1 with imu.config.state.external_crystal := state })

/-- Source: `bno055_set_operation_mode`, lines 113-167. -/
def bno055_set_operation_mode {F : Type} (hal : Hal) (w : World F) (operation_mode : Nat) :
    esp_err_t × World F :=
  if operation_mode < 0x00 ∨ operation_mode > 0x0c then (ESP_ERR_INVALID_ARG, w)
  else if w.imu.config.state.mode = operation_mode then (ESP_OK, w)
  else
    let pg := if w.imu.config.state.page ≠ 0 then bno055_set_page hal w 0 else (ESP_OK, w)
    if pg.1 ≠ ESP_OK then (pg.1, pg.2)
    else
      let rd := i2c_master_transmit_receive hal pg.2 OPR_MODE 1
      if rd.1 ≠ ESP_OK then (rd.1, rd.2.2)
      else
        let register_content := ((byte rd.2.1 0 &&& 0xF0) ||| operation_mode) % 256
        let tx := i2c_master_transmit hal rd.2.2 [OPR_MODE, register_content]
        if tx.1 ≠ ESP_OK then (tx.1, tx.2)
        else
          let w1 := vTaskDelay tx.2 30
          (ESP_OK, { w1 with imu.config.state.mode := operation_mode })

/-- The scale factors selected by a units byte (the four `switch` statements and the two
constant assignments of `bno055_set_units`, lines 248-290). -/
def set_scaling_factors {F : Type} [FloatOps F] (sensor_scale : scale_t F)
    (units_selected : Nat) : scale_t F :=
  let s1 : scale_t F :=
    if units_selected &&& 0x01 = ACC_MG then
      { sensor_scale with accelerometer := FloatOps.ofRat 1 }
    else if units_selected &&& 0x01 = ACC_M_S2 then
      { sensor_scale with accelerometer := FloatOps.ofRat 100 }
    else sensor_scale
  let s2 : scale_t F :=
    if units_selected &&& 0x02 = GY_RPS then { s1 with gyroscope := FloatOps.ofRat 900 }
    else if units_selected &&& 0x02 = GY_DPS then { s1 with gyroscope := FloatOps.ofRat 16 }
    else s1
  let s3 : scale_t F :=
    if units_selected &&& 0x04 = EUL_RAD then { s2 with euler_angle := FloatOps.ofRat 900 }
    else if units_selected &&& 0x04 = EUL_DEG then { s2 with euler_angle := FloatOps.ofRat 16 }
    else s2
  let s4 : scale_t F :=
    if units_selected &&& 0x10 = TEMP_F then { s3 with temperature := FloatOps.ofRat (1 / 2) }
    else if units_selected &&& 0x10 = TEMP_C then { s3 with temperature := FloatOps.ofRat 1 }
    else s3
  { s4 with magnetometer := FloatOps.ofRat 16, quaternion := FloatOps.ofRat 16384 }

/-- Source: `bno055_set_units`, lines 179-299.  The guard `units_selected & ~0x97` on a
byte tests the bits `0x68`. -/
def bno055_set_units {F : Type} [FloatOps F] (hal : Hal) (w : World F) (units_selected : Nat) :
    esp_err_t × World F :=
  if units_selected &&& 0x68 ≠ 0 then (ESP_ERR_INVALID_ARG, w)
  else
    let temp_mode := w.imu.config.state.mode
    let md := if temp_mode ≠ CONFIG_MODE then bno055_set_operation_mode hal w CONFIG_MODE
      else (ESP_OK, w)
    if md.1 ≠ ESP_OK then (md.1, md.2)
    else
      let pg := if md.2.imu.config.state.page ≠ 0 then bno055_set_page hal md.2 0
        else (ESP_OK, md.2)
      if pg.1 ≠ ESP_OK then (pg.1, pg.2)
      else
        let un : esp_err_t × World F :=
          if pg.2.imu.config.state.units = units_selected then (ESP_OK, pg.2)
          else
            let rd := i2c_master_transmit_receive hal pg.2 UNIT_SEL 1
            if rd.1 ≠ ESP_OK then (rd.1, rd.2.2)
            else
              let register_content := ((byte rd.2.1 0 &&& 0x60) ||| units_selected) % 256
              let tx := i2c_master_transmit hal rd.2.2 [UNIT_SEL, register_content]
              if tx.1 ≠ ESP_OK then (tx.1, tx.2) else (ESP_OK, tx.2)
        if un.1 ≠ ESP_OK then (un.1, un.2)
        else
          let w1 : World F := { un.2 with
            imu.config.sensor_scale :=
              set_scaling_factors un.2.imu.config.sensor_scale units_selected }
          let w2 : World F := { w1 with imu.config.state.units := units_selected }
          let rs := bno055_set_operation_mode hal w2 temp_mode
          if rs.1 ≠ ESP_OK then (rs.1, rs.2) else (ESP_OK, rs.2)

/-- Source: `bno055_initialize`, lines 310-392. -/
def bno055_initialize {F : Type} [FloatOps F] (hal : Hal) (w : World F) : esp_err_t × World F :=
  if w.imu.config.reset.method ≠ RESET_SW ∧ w.imu.config.reset.method ≠ RESET_HW then
    (ESP_ERR_INVALID_ARG, w)
  else
    let pg := bno055_set_page hal w 0
    if pg.1 ≠ ESP_OK then (pg.1, pg.2)
    else
      let rd := i2c_master_transmit_receive hal pg.2 CHIP_ID 1
      if rd.1 ≠ ESP_OK then (rd.1, rd.2.2)
      else if byte rd.2.1 0 ≠ 0xA0 then (ESP_ERR_INVALID_MAC, rd.2.2)
      else
        let w1 := rd.2.2
        let rst : esp_err_t × World F :=
          if w1.imu.config.reset.method = RESET_SW then
            (ESP_OK, { w1 with imu.config.reset.pin := -1 })
          else if w1.imu.config.reset.method = RESET_HW then
            let g1 := gpio_call hal w1 (Event.gpio_set_direction w1.imu.config.reset.pin)
            if g1.1 ≠ ESP_OK then (g1.1, g1.2)
            else
              let g2 := gpio_call hal g1.2 (Event.gpio_set_pull_mode w1.imu.config.reset.pin)
              if g2.1 ≠ ESP_OK then (g2.1, g2.2)
              else
                let g3 := gpio_call hal g2.2 (Event.gpio_set_level w1.imu.config.reset.pin 1)
                if g3.1 ≠ ESP_OK then (g3.1, g3.2) else (ESP_OK, g3.2)
          else (ESP_ERR_INVALID_ARG, w1)
        if rst.1 ≠ ESP_OK then (rst.1, rst.2)
        else
          let md := if rst.2.imu.config.state.mode ≠ CONFIG_MODE then
              bno055_set_operation_mode hal rst.2 CONFIG_MODE
            else (ESP_OK, rst.2)
          if md.1 ≠ ESP_OK then (md.1, md.2)
          else
            let w2 : World F := { md.2 with imu.config.state.mode := CONFIG_MODE }
            let un := bno055_set_units hal w2 w2.imu.config.state.units
            if un.1 ≠ ESP_OK then (un.1, un.2) else (ESP_OK, un.2)

/-- Source: `bno055_configure`, lines 403-457. -/
def bno055_configure {F : Type} [FloatOps F] (hal : Hal) (w : World F) (operation_mode : Nat)
    (units_selected : Nat) : esp_err_t × World F :=
  if operation_mode < 0 ∨ operation_mode > 0x0c then (ESP_ERR_INVALID_ARG, w)
  else if units_selected &&& 0x68 ≠ 0 then (ESP_ERR_INVALID_ARG, w)
  else
    let md := if w.imu.config.state.mode ≠ CONFIG_MODE then
        bno055_set_operation_mode hal w CONFIG_MODE
      else (ESP_OK, w)
    if md.1 ≠ ESP_OK then (md.1, md.2)
    else
      let xt := if md.2.imu.config.state.external_crystal ≠ true then
          bno055_set_external_crystal_use hal md.2 true
        else (ESP_OK, md.2)
      if xt.1 ≠ ESP_OK then (xt.1, xt.2)
      else
        let un := if xt.2.imu.config.state.units ≠ units_selected then
            bno055_set_units hal xt.2 units_selected
          else (ESP_OK, xt.2)
        if un.1 ≠ ESP_OK then (un.1, un.2)
        else
          let fin := bno055_set_operation_mode hal un.2 operation_mode
          if fin.1 ≠ ESP_OK then (fin.1, fin.2) else (ESP_OK, fin.2)

/-- Source: `bno055_get_calibration_status`, lines 468-509. -/
def bno055_get_calibration_status {F : Type} (hal : Hal) (w : World F) : esp_err_t × World F :=
  let pg := if w.imu.config.state.page ≠ 0 then bno055_set_page hal w 0 else (ESP_OK, w)
  if pg.1 ≠ ESP_OK then (pg.1, pg.2)
  else
    let rd := i2c_master_transmit_receive hal pg.2 CALIB_STAT 1
    if rd.1 ≠ ESP_OK then (rd.1, rd.2.2)
    else
      let register_content := byte rd.2.1 0
      let cal : calibration_t :=
        { xl := (register_content &&& 0x0c) >>> 2,
          gyro := (register_content &&& 0x30) >>> 4,
          mag := register_content &&& 0x03,
          sys := (register_content &&& 0xc0) >>> 6 }
      let w1 : World F := { rd.2.2 with imu.config.calibration := cal }
      (ESP_OK, { w1 with
        imu.config.is_calibrated :=
          decide (cal.xl = 3) && decide (cal.gyro = 3) && decide (cal.mag = 3)
            && decide (cal.sys = 3) })

/-- The first `switch` of `bno055_get_readings` (lines 536-558): the byte count of a sensor
kind, `none` for the `default` branch. -/
def reg_count_of (sensor : Nat) : Option Nat :=
  if sensor = QUATERNION then some 8
  else if sensor = TEMPERATURE then some 1
  else if sensor = ACCELEROMETER ∨ sensor = MAGNETOMETER ∨ sensor = GYROSCOPE
      ∨ sensor = EULER_ANGLE ∨ sensor = LINEAR_ACCELERATION ∨ sensor = GRAVITY then some 6
  else none

/-- The second `switch` of `bno055_get_readings` (lines 581-637): decoding of the receive
buffer `rc` into the record of the sensor kind. -/
def process_sensor_data {F : Type} [FloatOps F] (imu : bno055_t F) (sensor : Nat)
    (rc : List Nat) : bno055_t F :=
  let sc := imu.config.sensor_scale
  if sensor = ACCELEROMETER then
    { imu with raw_acceleration :=
        { x := u8_to_f (byte rc 1) (byte rc 0) sc.accelerometer,
          y := u8_to_f (byte rc 3) (byte rc 2) sc.accelerometer,
          z := u8_to_f (byte rc 5) (byte rc 4) sc.accelerometer } }
  else if sensor = MAGNETOMETER then
    { imu with magnetometer :=
        { x := u8_to_f (byte rc 1) (byte rc 0) sc.magnetometer,
          y := u8_to_f (byte rc 3) (byte rc 2) sc.magnetometer,
          z := u8_to_f (byte rc 5) (byte rc 4) sc.magnetometer } }
  else if sensor = GYROSCOPE then
    { imu with gyroscope :=
        { x := u8_to_f (byte rc 1) (byte rc 0) sc.gyroscope,
          y := u8_to_f (byte rc 3) (byte rc 2) sc.gyroscope,
          z := u8_to_f (byte rc 5) (byte rc 4) sc.gyroscope } }
  else if sensor = EULER_ANGLE then
    { imu with euler_angle :=
        { yaw := u8_to_f (byte rc 1) (byte rc 0) sc.euler_angle,
          roll := u8_to_f (byte rc 3) (byte rc 2) sc.euler_angle,
          pitch := u8_to_f (byte rc 5) (byte rc 4) sc.euler_angle } }
  else if sensor = QUATERNION then
    { imu with quaternion :=
        { w := u8_to_f (byte rc 1) (byte rc 0) sc.quaternion,
          x := u8_to_f (byte rc 3) (byte rc 2) sc.quaternion,
          y := u8_to_f (byte rc 5) (byte rc 4) sc.quaternion,
          z := u8_to_f (byte rc 7) (byte rc 6) sc.quaternion } }
  else if sensor = LINEAR_ACCELERATION then
    { imu with linear_acceleration :=
        { x := u8_to_f (byte rc 1) (byte rc 0) sc.accelerometer,
          y := u8_to_f (byte rc 3) (byte rc 2) sc.accelerometer,
          z := u8_to_f (byte rc 5) (byte rc 4) sc.accelerometer } }
  else if sensor = GRAVITY then
    { imu with gravity :=
        { x := u8_to_f (byte rc 1) (byte rc 0) sc.accelerometer,
          y := u8_to_f (byte rc 3) (byte rc 2) sc.accelerometer,
          z := u8_to_f (byte rc 5) (byte rc 4) sc.accelerometer } }
  else if sensor = TEMPERATURE then
    { imu with temperature :=
        FloatOps.div (FloatOps.ofInt (int8_cast (byte rc 0))) sc.temperature }
  else imu

/-- Source: `bno055_get_readings`, lines 523-640. -/
def bno055_get_readings {F : Type} [FloatOps F] (hal : Hal) (w : World F) (sensor : Nat) :
    esp_err_t × World F :=
  match reg_count_of sensor with
  | none => (ESP_ERR_INVALID_ARG, w)
  | some reg_count =>
    let pg := if w.imu.config.state.page ≠ 0 then bno055_set_page hal w 0 else (ESP_OK, w)
    if pg.1 ≠ ESP_OK then (pg.1, pg.2)
    else
      let rd := i2c_master_transmit_receive hal pg.2 sensor reg_count
      if rd.1 ≠ ESP_OK then (rd.1, rd.2.2)
      else (ESP_OK, { rd.2.2 with imu := process_sensor_data rd.2.2.imu sensor rd.2.1 })

/-- The assignments of `bno055_get_offsets` (lines 698-716): decoding of the 22-byte
receive buffer `rc` into the offsets record. -/
def assign_offsets {F : Type} [FloatOps F] (imu : bno055_t F) (rc : List Nat) : bno055_t F :=
  let sc := imu.config.sensor_scale
  { imu with
    config.offsets :=
      { accelerometer :=
          { x := u8_to_f (byte rc 1) (byte rc 0) sc.accelerometer,
            y := u8_to_f (byte rc 3) (byte rc 2) sc.accelerometer,
            z := u8_to_f (byte rc 5) (byte rc 4) sc.accelerometer },
        magnetometer :=
          { x := u8_to_f (byte rc 7) (byte rc 6) sc.magnetometer,
            y := u8_to_f (byte rc 9) (byte rc 8) sc.magnetometer,
            z := u8_to_f (byte rc 11) (byte rc 10) sc.magnetometer },
        gyroscope :=
          { x := u8_to_f (byte rc 13) (byte rc 12) sc.gyroscope,
            y := u8_to_f (byte rc 15) (byte rc 14) sc.gyroscope,
            z := u8_to_f (byte rc 17) (byte rc 16) sc.gyroscope },
        accelerometer_radius := u8_to_i16 (byte rc 19) (byte rc 18),
        magnetometer_radius := u8_to_i16 (byte rc 21) (byte rc 20) } }

/-- Source: `bno055_get_offsets`, lines 655-723. -/
def bno055_get_offsets {F : Type} [FloatOps F] (hal : Hal) (w : World F) : esp_err_t × World F :=
  let pg := if w.imu.config.state.page ≠ 0 then bno055_set_page hal w 0 else (ESP_OK, w)
  if pg.1 ≠ ESP_OK then (pg.1, pg.2)
  else
    let temp_mode := pg.2.imu.config.state.mode
    let md : esp_err_t × World F :=
      if temp_mode ≠ CONFIG_MODE then
        let sm := bno055_set_operation_mode hal pg.2 CONFIG_MODE
        if sm.1 ≠ ESP_OK then (sm.1, sm.2) else (ESP_OK, vTaskDelay sm.2 25)
      else (ESP_OK, pg.2)
    if md.1 ≠ ESP_OK then (md.1, md.2)
    else
      let rd := i2c_master_transmit_receive hal md.2 ACC_OFFSET_X_LSB 22
      if rd.1 ≠ ESP_OK then (rd.1, rd.2.2)
      else
        let w1 : World F := { rd.2.2 with imu := assign_offsets rd.2.2.imu rd.2.1 }
        let rs := bno055_set_operation_mode hal w1 temp_mode
        if rs.1 ≠ ESP_OK then (rs.1, rs.2) else (ESP_OK, rs.2)

/-- The conversions of `bno055_set_offsets` (lines 771-791): the 18 bytes
`register_content[0..17]`. -/
def convert_offsets {F : Type} [FloatOps F] (imu : bno055_t F) : List Nat :=
  let o := imu.config.offsets
  let sc := imu.config.sensor_scale
  let ax := i16_to_u8 (f_to_i16 o.accelerometer.x sc.accelerometer)
  let ay := i16_to_u8 (f_to_i16 o.accelerometer.y sc.accelerometer)
  let az := i16_to_u8 (f_to_i16 o.accelerometer.z sc.accelerometer)
  let mx := i16_to_u8 (f_to_i16 o.magnetometer.x sc.magnetometer)
  let my := i16_to_u8 (f_to_i16 o.magnetometer.y sc.magnetometer)
  let mz := i16_to_u8 (f_to_i16 o.magnetometer.z sc.magnetometer)
  let gx := i16_to_u8 (f_to_i16 o.gyroscope.x sc.gyroscope)
  let gy := i16_to_u8 (f_to_i16 o.gyroscope.y sc.gyroscope)
  let gz := i16_to_u8 (f_to_i16 o.gyroscope.z sc.gyroscope)
  [ax.1, ax.2, ay.1, ay.2, az.1, az.2, mx.1, mx.2, my.1, my.2, mz.1, mz.2,
   gx.1, gx.2, gy.1, gy.2, gz.1, gz.2]

/-- The write loop of `bno055_set_offsets` (lines 795-805) over the remaining bytes of
`register_content`; `addr` is the value of `write_buffer[0]` before the iteration. -/
def write_offsets {F : Type} (hal : Hal) (w : World F) (addr : Nat) :
    List Nat → esp_err_t × World F
  | [] => (ESP_OK, w)
  | b :: rest =>
    let tx := i2c_master_transmit hal w [(addr + 1) % 256, b]
    if tx.1 ≠ ESP_OK then (tx.1, tx.2)
    else write_offsets hal tx.2 ((addr + 1) % 256) rest

/-- Source: `bno055_set_offsets`, lines 735-815. -/
def bno055_set_offsets {F : Type} [FloatOps F] (hal : Hal) (w : World F) : esp_err_t × World F :=
  let pg := if w.imu.config.state.page ≠ 0 then bno055_set_page hal w 0 else (ESP_OK, w)
  if pg.1 ≠ ESP_OK then (pg.1, pg.2)
  else
    let temp_mode := pg.2.imu.config.state.mode
    let md : esp_err_t × World F :=
      if temp_mode ≠ CONFIG_MODE then
        let sm := bno055_set_operation_mode hal pg.2 CONFIG_MODE
        if sm.1 ≠ ESP_OK then (sm.1, sm.2) else (ESP_OK, vTaskDelay sm.2 25)
      else (ESP_OK, pg.2)
    if md.1 ≠ ESP_OK then (md.1, md.2)
    else
      let wr := write_offsets hal md.2 (ACC_OFFSET_X_LSB - 1) (convert_offsets md.2.imu)
      if wr.1 ≠ ESP_OK then (wr.1, wr.2)
      else
        let rs := bno055_set_operation_mode hal wr.2 temp_mode
        if rs.1 ≠ ESP_OK then (rs.1, rs.2) else (ESP_OK, rs.2)

/-- The four reads with which `bno055_reset_chip` (lines 877-914) and
`bno055_start_self_test` (lines 980-1017) refresh the cached state. -/
def get_values {F : Type} (hal : Hal) (w : World F) : esp_err_t × World F :=
  let r1 := i2c_master_transmit_receive hal w SYS_TRIGGER 1
  if r1.1 ≠ ESP_OK then (r1.1, r1.2.2)
  else
    let w1 : World F :=
      { r1.2.2 with imu.config.state.external_crystal := decide (byte r1.2.1 0 >>> 7 ≠ 0) }
    let r2 := i2c_master_transmit_receive hal w1 OPR_MODE 1
    if r2.1 ≠ ESP_OK then (r2.1, r2.2.2)
    else
      let w2 : World F := { r2.2.2 with imu.config.state.mode := byte r2.2.1 0 &&& 0x0c }
      let r3 := i2c_master_transmit_receive hal w2 PAGE_ID 1
      if r3.1 ≠ ESP_OK then (r3.1, r3.2.2)
      else
        let w3 : World F := { r3.2.2 with imu.config.state.page := byte r3.2.1 0 }
        let r4 := i2c_master_transmit_receive hal w3 UNIT_SEL 1
        if r4.1 ≠ ESP_OK then (r4.1, r4.2.2)
        else (ESP_OK, { r4.2.2 with imu.config.state.units := byte r4.2.1 0 })

/-- Source: `bno055_reset_chip`, lines 824-915. -/
def bno055_reset_chip {F : Type} (hal : Hal) (w : World F) : esp_err_t × World F :=
  let rst : esp_err_t × World F :=
    if w.imu.config.reset.method = RESET_SW then
      let pg := if w.imu.config.state.page ≠ 0 then bno055_set_page hal w 0 else (ESP_OK, w)
      if pg.1 ≠ ESP_OK then (pg.1, pg.2)
      else
        let tx := i2c_master_transmit hal pg.2 [SYS_TRIGGER, 0x20]
        if tx.1 ≠ ESP_OK then (tx.1, tx.2) else (ESP_OK, tx.2)
    else if w.imu.config.reset.method = RESET_HW then
      let g1 := gpio_call hal w (Event.gpio_set_level w.imu.config.reset.pin 0)
      if g1.1 ≠ ESP_OK then (g1.1, g1.2)
      else
        let w1 := vTaskDelay g1.2 10
        let g2 := gpio_call hal w1 (Event.gpio_set_level w.imu.config.reset.pin 1)
        if g2.1 ≠ ESP_OK then (g2.1, g2.2) else (ESP_OK, g2.2)
    else (ESP_ERR_INVALID_ARG, w)
  if rst.1 ≠ ESP_OK then (rst.1, rst.2)
  else get_values hal (vTaskDelay rst.2 650)

/-- Source: `bno055_start_self_test`, lines 926-1018. -/
def bno055_start_self_test {F : Type} (hal : Hal) (w : World F) : esp_err_t × World F :=
  let pg := if w.imu.config.state.page ≠ 0 then bno055_set_page hal w 0 else (ESP_OK, w)
  if pg.1 ≠ ESP_OK then (pg.1, pg.2)
  else
    let rd := i2c_master_transmit_receive hal pg.2 SYS_TRIGGER 1
    if rd.1 ≠ ESP_OK then (rd.1, rd.2.2)
    else
      let tx := i2c_master_transmit hal rd.2.2 [SYS_TRIGGER, (byte rd.2.1 0 ||| 0x01) % 256]
      if tx.1 ≠ ESP_OK then (tx.1, tx.2)
      else
        let w1 := vTaskDelay tx.2 200
        let st := i2c_master_transmit_receive hal w1 ST_RESULT 1
        if st.1 ≠ ESP_OK then (st.1, st.2.2)
        else if byte st.2.1 0 &&& 0x0f ≠ 0x0f then (ESP_ERR_INVALID_STATE, st.2.2)
        else get_values hal st.2.2

/-- Source: `bno055_remap_axis`, lines 1028-1096. -/
def bno055_remap_axis {F : Type} (hal : Hal) (w : World F) (axes_config : bno055_axes_t) :
    esp_err_t × World F :=
  if (axes_config.x < 0x00 ∨ axes_config.x > 0x06 ∨ axes_config.x = 0x03)
      ∨ (axes_config.y < 0x00 ∨ axes_config.y > 0x06 ∨ axes_config.y = 0x03)
      ∨ (axes_config.z < 0x00 ∨ axes_config.z > 0x06 ∨ axes_config.z = 0x03) then
    (ESP_ERR_INVALID_ARG, w)
  else if axes_config.x = axes_config.y ∨ axes_config.x = axes_config.z
      ∨ axes_config.y = axes_config.z then
    (ESP_ERR_INVALID_ARG, w)
  else
    let pg := if w.imu.config.state.page ≠ 0 then bno055_set_page hal w 0 else (ESP_OK, w)
    if pg.1 ≠ ESP_OK then (pg.1, pg.2)
    else
      let temp_mode := pg.2.imu.config.state.mode
      let md : esp_err_t × World F :=
        if temp_mode ≠ CONFIG_MODE then
          let sm := bno055_set_operation_mode hal pg.2 CONFIG_MODE
          if sm.1 ≠ ESP_OK then (sm.1, sm.2) else (ESP_OK, vTaskDelay sm.2 25)
        else (ESP_OK, pg.2)
      if md.1 ≠ ESP_OK then (md.1, md.2)
      else
        let t1 := i2c_master_transmit hal md.2
          [AXIS_MAP_CONFIG,
           ((((axes_config.z &&& 0x03) <<< 4) ||| ((axes_config.y &&& 0x03) <<< 2))
              ||| (axes_config.x &&& 0x03)) % 256]
        if t1.1 ≠ ESP_OK then (t1.1, t1.2)
        else
          let w1 := vTaskDelay t1.2 10
          let t2 := i2c_master_transmit hal w1
            [AXIS_MAP_SIGN,
             (((axes_config.x >>> 2) ||| (axes_config.y >>> 2)) ||| (axes_config.z >>> 2)) % 256]
          if t2.1 ≠ ESP_OK then (t2.1, t2.2)
          else
            let w2 := vTaskDelay t2.2 10
            let rs := bno055_set_operation_mode hal w2 temp_mode
            if rs.1 ≠ ESP_OK then (rs.1, rs.2) else (ESP_OK, vTaskDelay rs.2 20)

/-! ## Sample inputs -/

/-- A platform on which every request succeeds and every read returns the bytes `rc`. -/
def okHal (rc : List Nat) : Hal where
  transmit := fun _ _ => ESP_OK
  transmit_receive := fun _ _ _ => (ESP_OK, rc)
  gpio := fun _ _ => ESP_OK

/-- A platform on which every bus transaction fails with the status `err`. -/
def failingHal (err : esp_err_t) : Hal where
  transmit := fun _ _ => err
  transmit_receive := fun _ _ _ => (err, [])
  gpio := fun _ _ => ESP_OK

/-- The zero-initialised record of the sample application (`bno055_t bno055 = {0};`),
over exact arithmetic. -/
def zero_imu : bno055_t ℚ where
  raw_acceleration := ⟨0, 0, 0⟩
  linear_acceleration := ⟨0, 0, 0⟩
  gravity := ⟨0, 0, 0⟩
  gyroscope := ⟨0, 0, 0⟩
  magnetometer := ⟨0, 0, 0⟩
  euler_angle := ⟨0, 0, 0⟩
  quaternion := ⟨0, 0, 0, 0⟩
  temperature := 0
  config :=
    { offsets := ⟨⟨0, 0, 0⟩, ⟨0, 0, 0⟩, ⟨0, 0, 0⟩, 0, 0⟩
      sensor_scale := ⟨0, 0, 0, 0, 0, 0⟩
      reset := ⟨0, 0⟩
      state := ⟨0, 0, 0, false⟩
      calibration := ⟨0, 0, 0, 0⟩
      is_calibrated := false }

/-- A world with an empty log whose cached mode and page are the given ones. -/
def sample_world (mode page : Nat) : World ℚ where
  imu := { zero_imu with config.state.mode := mode, config.state.page := page }
  log := []

/-- The log at the moment a function has made sure the chip is on page 0
(`if (imu->config.state.page != 0) bno055_set_page(imu, 0);`). -/
def log_on_page0 {F : Type} (w : World F) : List Event :=
  if w.imu.config.state.page ≠ 0 then w.log ++ [Event.transmit [PAGE_ID, 0]] else w.log

/-- The six legal axis codes of `axis_t`. -/
def legal_axis (a : Nat) : Prop :=
  a = POSITIVE_X ∨ a = POSITIVE_Y ∨ a = POSITIVE_Z ∨ a = NEGATIVE_X ∨ a = NEGATIVE_Y
    ∨ a = NEGATIVE_Z

instance (a : Nat) : Decidable (legal_axis a) := by
  unfold legal_axis; infer_instance

/-- The two's-complement reading of a 16-bit pattern `u` (`0 ≤ u < 65536`) as a signed
integer. -/
def twos_complement16 (u : Nat) : Int :=
  if u < 32768 then (u : Int) else (u : Int) - 65536

/-- A world over exact arithmetic with an empty log, cached mode `NDOF_MODE`, the given
cached page and the accelerometer scale `100.0` (m/s²). -/
def accel_world (page : Nat) : World ℚ where
  imu := { zero_imu with
    config.state.mode := NDOF_MODE, config.state.page := page,
    config.sensor_scale.accelerometer := 100 }
  log := []

/-- A platform backed by a register file: every request succeeds and a read of `n` bytes at
address `reg` returns `regs reg, regs (reg + 1), ...`. -/
def registerHal (regs : Nat → Nat) : Hal where
  transmit := fun _ _ => ESP_OK
  transmit_receive := fun _ reg n => (ESP_OK, (List.range n).map (fun i => regs (reg + i)))
  gpio := fun _ _ => ESP_OK

/-- A units byte has no bits outside `0x97`. -/
def valid_units (u : Nat) : Prop := u < 256 ∧ u &&& 0x97 = u

instance (u : Nat) : Decidable (valid_units u) := by
  unfold valid_units; infer_instance

/-- The fixed table of scale factors of a units byte: accelerometer `1.0` for mg and `100.0`
for m/s², gyroscope `900.0` for rad/s and `16.0` for deg/s, Euler angles `900.0` for rad and
`16.0` for deg, temperature `0.5` for Fahrenheit and `1.0` for Celsius, magnetometer `16.0`,
quaternion `16384.0`. -/
def scale_table {F : Type} [FloatOps F] (u : Nat) : scale_t F where
  accelerometer := if u &&& 0x01 ≠ 0 then FloatOps.ofRat 1 else FloatOps.ofRat 100
  gyroscope := if u &&& 0x02 ≠ 0 then FloatOps.ofRat 900 else FloatOps.ofRat 16
  euler_angle := if u &&& 0x04 ≠ 0 then FloatOps.ofRat 900 else FloatOps.ofRat 16
  magnetometer := FloatOps.ofRat 16
  temperature := if u &&& 0x10 ≠ 0 then FloatOps.ofRat (1 / 2) else FloatOps.ofRat 1
  quaternion := FloatOps.ofRat 16384

/-- A read-modify-write of the register `reg` issued after the history `pre`: the 1-byte
read and the write-back of `f` applied to the byte the platform returns. -/
def rmw_events (hal : Hal) (pre : List Event) (reg : Nat) (f : Nat → Nat) : List Event :=
  [Event.transmit_receive reg 1,
   Event.transmit [reg, f (byte (hal.transmit_receive pre reg 1).2 0)]]

/-- The request log expected of `bno055_configure` from `CONFIG_MODE` on page 0 when every
transaction succeeds: the `SYS_TRIGGER` read-modify-write and the 650 ms delay unless the
crystal is cached as set, then the `UNIT_SEL` read-modify-write unless the units are already
cached, then the `OPR_MODE` read-modify-write and the 30 ms delay unless the target is
`CONFIG_MODE`. -/
def configure_log {F : Type} (hal : Hal) (w : World F) (m u : Nat) : List Event :=
  let l1 := w.log ++
    (if w.imu.config.state.external_crystal = true then []
     else rmw_events hal w.log SYS_TRIGGER (fun b => ((b &&& 0x7F) ||| 0x80) % 256)
       ++ [Event.delay 650])
  let l2 := l1 ++
    (if w.imu.config.state.units = u then []
     else rmw_events hal l1 UNIT_SEL (fun b => ((b &&& 0x60) ||| u) % 256))
  l2 ++
    (if m = CONFIG_MODE then []
     else rmw_events hal l2 OPR_MODE (fun b => ((b &&& 0xF0) ||| m) % 256) ++ [Event.delay 30])

/-- The device record at the moment a function has made sure the chip is on page 0 with a
successful page write: the cached page is 0. -/
def imu_on_page0 {F : Type} (w : World F) : bno055_t F :=
  if w.imu.config.state.page ≠ 0 then { w.imu with config.state.page := 0 } else w.imu

/-- The eight sensor kinds of `bno055_sensor_t`. -/
def sensor_kind (s : Nat) : Prop :=
  s = ACCELEROMETER ∨ s = MAGNETOMETER ∨ s = GYROSCOPE ∨ s = EULER_ANGLE ∨ s = QUATERNION
    ∨ s = LINEAR_ACCELERATION ∨ s = GRAVITY ∨ s = TEMPERATURE

instance (s : Nat) : Decidable (sensor_kind s) := by
  unfold sensor_kind; infer_instance

/-- The eight live-reading records of `bno055_t`. -/
structure readings_t (F : Type) where
  raw_acceleration : vec3_t F
  linear_acceleration : vec3_t F
  gravity : vec3_t F
  gyroscope : vec3_t F
  magnetometer : vec3_t F
  euler_angle : euler_t F
  quaternion : quaternion_t F
  temperature : F
deriving DecidableEq

/-- The live readings held in a device record. -/
def live_readings {F : Type} (imu : bno055_t F) : readings_t F where
  raw_acceleration := imu.raw_acceleration
  linear_acceleration := imu.linear_acceleration
  gravity := imu.gravity
  gyroscope := imu.gyroscope
  magnetometer := imu.magnetometer
  euler_angle := imu.euler_angle
  quaternion := imu.quaternion
  temperature := imu.temperature

/-- The bytes the platform returns to the read of `n` bytes at `reg` that follows the page
switch of a function. -/
def read_bytes {F : Type} (hal : Hal) (w : World F) (reg n : Nat) : List Nat :=
  (hal.transmit_receive (log_on_page0 w) reg n).2

/-- Three little-endian 16-bit values (bytes 0-1, 2-3, 4-5) divided by `scale`. -/
def decode_vec3 {F : Type} [FloatOps F] (rc : List Nat) (scale : F) : vec3_t F where
  x := u8_to_f (byte rc 1) (byte rc 0) scale
  y := u8_to_f (byte rc 3) (byte rc 2) scale
  z := u8_to_f (byte rc 5) (byte rc 4) scale

/-- A register file holding the given bytes in `SYS_TRIGGER`, `OPR_MODE`, `PAGE_ID`,
`UNIT_SEL` and `ST_RESULT`, and 0 elsewhere. -/
def register_file (sys_trigger opr_mode page_id unit_sel st_result : Nat) : Nat → Nat :=
  fun reg =>
    if reg = SYS_TRIGGER then sys_trigger
    else if reg = OPR_MODE then opr_mode
    else if reg = PAGE_ID then page_id
    else if reg = UNIT_SEL then unit_sel
    else if reg = ST_RESULT then st_result
    else 0

/-- A world over exact arithmetic in `CONFIG_MODE` on page 0 whose cached units are `ACC_MG`
(`0x01`) and whose scale factors are those of the table for these units. -/
def coupled_world : World ℚ where
  imu := { zero_imu with
    config.state.units := ACC_MG, config.sensor_scale := scale_table ACC_MG }
  log := []

/-- A world over exact arithmetic with an empty log, in `CONFIG_MODE` on page 0, whose reset
method is the given one. -/
def reset_world (method : Nat) : World ℚ where
  imu := { zero_imu with config.reset.method := method }
  log := []

/-- The nine offsets, each with the scale factor of its sensor, in the order of the offset
registers: accelerometer x, y, z, magnetometer x, y, z, gyroscope x, y, z. -/
def offset_fields {F : Type} (imu : bno055_t F) : List (F × F) :=
  [(imu.config.offsets.accelerometer.x, imu.config.sensor_scale.accelerometer),
   (imu.config.offsets.accelerometer.y, imu.config.sensor_scale.accelerometer),
   (imu.config.offsets.accelerometer.z, imu.config.sensor_scale.accelerometer),
   (imu.config.offsets.magnetometer.x, imu.config.sensor_scale.magnetometer),
   (imu.config.offsets.magnetometer.y, imu.config.sensor_scale.magnetometer),
   (imu.config.offsets.magnetometer.z, imu.config.sensor_scale.magnetometer),
   (imu.config.offsets.gyroscope.x, imu.config.sensor_scale.gyroscope),
   (imu.config.offsets.gyroscope.y, imu.config.sensor_scale.gyroscope),
   (imu.config.offsets.gyroscope.z, imu.config.sensor_scale.gyroscope)]

/-- Two single-register writes per field, starting at `addr`: the low byte of the encoded
value at the even position, the high byte at the following address. -/
def offset_writes_from {F : Type} [FloatOps F] (addr : Nat) : List (F × F) → List Event
  | [] => []
  | vs :: rest =>
    Event.transmit [addr, (i16_to_u8 (f_to_i16 vs.1 vs.2)).1]
      :: Event.transmit [addr + 1, (i16_to_u8 (f_to_i16 vs.1 vs.2)).2]
      :: offset_writes_from (addr + 2) rest

/-- The 18 writes expected of `bno055_set_offsets`: for the `k`-th field of `offset_fields`
the low and the high byte of its encoded value at `0x55 + 2k` and `0x55 + 2k + 1`. -/
def offset_writes {F : Type} [FloatOps F] (imu : bno055_t F) : List Event :=
  offset_writes_from ACC_OFFSET_X_LSB (offset_fields imu)

/-- The requests of the write loop of `bno055_set_offsets` when no write fails. -/
def write_offsets_events (addr : Nat) : List Nat → List Event
  | [] => []
  | b :: rest =>
    Event.transmit [(addr + 1) % 256, b] :: write_offsets_events ((addr + 1) % 256) rest

/-- The request reads or writes the register `reg`: a write `[a, d0, d1, ...]` stores at
`a, a + 1, ...` and a read of `n` bytes at `a` covers `a, ..., a + n - 1`. -/
def Event.accesses (reg : Nat) : Event → Bool
  | Event.transmit (a :: data) => decide (a ≤ reg ∧ reg < a + data.length)
  | Event.transmit_receive a n => decide (a ≤ reg ∧ reg < a + n)
  | _ => false

/-- A world over exact arithmetic in `CONFIG_MODE` on page 0 with an empty log whose cached
radii are 1000 and 500 (the other offsets are 0). -/
def radius_world : World ℚ where
  imu := { zero_imu with
    config.offsets.accelerometer_radius := 1000, config.offsets.magnetometer_radius := 500 }
  log := []

/-- A world over exact arithmetic in `CONFIG_MODE` on page 0 with an empty log, the scale
factors of the units byte `0x00` and the magnetometer x offset `1000.0` (the other offsets
are 0). -/
def offsets_world : World ℚ where
  imu := { zero_imu with
    config.sensor_scale := scale_table 0x00, config.offsets.magnetometer.x := 1000 }
  log := []

/-- A platform that refuses every bus transaction satisfying `bad` with the status `err`,
accepts every other request and returns the bytes `rc` to every read. -/
def refusingHal (bad : Event → Bool) (err : esp_err_t) (rc : List Nat) : Hal where
  transmit := fun _ buf => if bad (Event.transmit buf) then err else ESP_OK
  transmit_receive := fun _ reg n =>
    (if bad (Event.transmit_receive reg n) then err else ESP_OK, rc)
  gpio := fun _ _ => ESP_OK

/-- The log `l2` continues the log `l1`, and every request added satisfies `Q`. -/
def log_grows (Q : Event → Prop) (l1 l2 : List Event) : Prop :=
  ∃ new, l2 = l1 ++ new ∧ ∀ e ∈ new, Q e

/-- The request reads or writes only registers that satisfy `P`. -/
def Event.within (P : Nat → Prop) (e : Event) : Prop :=
  ∀ reg, e.accesses reg = true → P reg

/-- The axis code names a negative direction (bit 2 of `axis_t` is set). -/
def axis_negative (a : Nat) : Prop :=
  a = NEGATIVE_X ∨ a = NEGATIVE_Y ∨ a = NEGATIVE_Z

instance (a : Nat) : Decidable (axis_negative a) := by
  unfold axis_negative; infer_instance

/-- A request `bno055_remap_axis` may issue for the configuration `a`: one that accesses only
`PAGE_ID` or `OPR_MODE` (page switch, mode switches, delays), the write of the map byte to
`AXIS_MAP_CONFIG`, or the write of the sign byte to `AXIS_MAP_SIGN`. -/
def remap_axis_event (a : bno055_axes_t) (e : Event) : Prop :=
  e.within (fun r => r = PAGE_ID ∨ r = OPR_MODE)
    ∨ e = Event.transmit [AXIS_MAP_CONFIG,
        ((((a.z &&& 0x03) <<< 4) ||| ((a.y &&& 0x03) <<< 2)) ||| (a.x &&& 0x03)) % 256]
    ∨ e = Event.transmit [AXIS_MAP_SIGN, (((a.x >>> 2) ||| (a.y >>> 2)) ||| (a.z >>> 2)) % 256]

/-- The requests of `bno055_reset_chip` that precede its resynchronisation reads when each
of them is accepted: on the software path the page write (if the cached page is not 0), the
write of `0x20` to `SYS_TRIGGER` and the 650 ms delay; on the hardware path the reset pin
low, 10 ms, the reset pin high and the 650 ms delay. -/
def reset_events {F : Type} (w : World F) : List Event :=
  if w.imu.config.reset.method = RESET_SW then
    (if w.imu.config.state.page ≠ 0 then [Event.transmit [PAGE_ID, 0]] else [])
      ++ [Event.transmit [SYS_TRIGGER, 0x20], Event.delay 650]
  else
    [Event.gpio_set_level w.imu.config.reset.pin 0, Event.delay 10,
     Event.gpio_set_level w.imu.config.reset.pin 1, Event.delay 650]

/-- The four resynchronisation reads in the order of the source; they refresh the cached
crystal flag, mode, page and units in this order. -/
def resync_reads : List Event :=
  [Event.transmit_receive SYS_TRIGGER 1, Event.transmit_receive OPR_MODE 1,
   Event.transmit_receive PAGE_ID 1, Event.transmit_receive UNIT_SEL 1]

/-- The device record at the moment the resynchronisation reads of `bno055_reset_chip`
start: on the software path the page has been switched to 0. -/
def imu_before_resync {F : Type} (w : World F) : bno055_t F :=
  if w.imu.config.reset.method = RESET_SW then imu_on_page0 w else w.imu

/-- What a scoped operation entered with the prior mode `p` has done when it returns the
status `s` and the world `r`: on `ESP_OK` the cached mode is `p` again and the last bus
transaction of the log is a write to `OPR_MODE` whose low four bits are `p`; on an error
the cached mode is `CONFIG_MODE` and the last request of the log is the bus transaction that
the platform answered with this error. -/
def restores_or_aborts {F : Type} (hal : Hal) (p : Nat) (s : esp_err_t) (r : World F) : Prop :=
  (s = ESP_OK → r.imu.config.state.mode = p ∧
    ∃ pre b tail, r.log = pre ++ Event.transmit [OPR_MODE, b] :: tail ∧ b % 16 = p ∧
      ∀ e ∈ tail, e.isBus = false) ∧
  (s ≠ ESP_OK → r.imu.config.state.mode = CONFIG_MODE ∧
    ∃ pre e, r.log = pre ++ [e] ∧ e.isBus = true ∧ hal.status pre e = s)

/-- The cached page of `r` is the cached page of `w` or 0. -/
def page_stays {F : Type} (w r : World F) : Prop :=
  r.imu.config.state.page = w.imu.config.state.page ∨ r.imu.config.state.page = 0

/-- On bytes, `(h << 8) | l` is `256 * h + l`. -/
theorem shl8_or_eq (h l : Nat) (hl : l < 256) : (h <<< 8) ||| l = 256 * h + l := by
  have e := Nat.mul_add_lt_is_or (show l < 2 ^ 8 by omega) h
  rw [Nat.shiftLeft_eq, ← Nat.mul_comm 256 h]
  simpa using e.symm

/-- Masking with `0xFF` is reduction modulo 256. -/
theorem and_0xFF_eq (u : Nat) : u &&& 0xFF = u % 256 :=
  Nat.and_pow_two_sub_one_eq_mod u 8

set_option maxRecDepth 100000 in
/-- The four masks of the calibration byte in terms of division and remainder. -/
theorem calib_bits (b : Nat) (hb : b < 256) :
    b &&& 0x0c = 4 * (b / 4 % 4) ∧ b &&& 0x30 = 16 * (b / 16 % 4) ∧ b &&& 0x03 = b % 4
      ∧ b &&& 0xc0 = 64 * (b / 64) := by
  revert b
  decide

/-- A byte of a receive buffer is below 256. -/
theorem byte_lt (buf : List Nat) (i : Nat) : byte buf i < 256 :=
  Nat.mod_lt _ (by norm_num)

/-- On bytes, `u8_to_i16` is the two's-complement reading of `256 * msb + lsb`. -/
theorem u8_to_i16_eq (msb lsb : Nat) (hm : msb < 256) (hl : lsb < 256) :
    u8_to_i16 msb lsb = twos_complement16 (256 * msb + lsb) := by
  unfold u8_to_i16 int16_cast twos_complement16
  rw [shl8_or_eq msb lsb hl]
  split <;> omega

/-- Exact rational arithmetic satisfies `FloatOps.DivExact`. -/
theorem divExact_rat : FloatOps.DivExact ℚ := by
  intro a b q hb hab _ _
  have hb' : (b : ℚ) ≠ 0 := by exact_mod_cast hb.ne'
  show ((a : ℚ) / (b : ℚ)) = (q : ℚ)
  rw [hab]
  push_cast
  field_simp

/-- What the integer part of `f_to_i16` guarantees whatever `lrintf` returns: the result is
the `long` value clamped to `[-32768, 32767]`. -/
theorem clamp_i16_spec (r : Int) :
    -32768 ≤ clamp_i16 r ∧ clamp_i16 r ≤ 32767 ∧
    (32767 < r → clamp_i16 r = 32767) ∧ (r < -32768 → clamp_i16 r = -32768) ∧
    (-32768 ≤ r → r ≤ 32767 → clamp_i16 r = r) := by
  unfold clamp_i16 int16_cast
  simp only [INT16_MAX, INT16_MIN]
  split_ifs <;> omega

/-! ## Driver lemmas -/

/-- `bno055_set_page` changes at most the cached page. -/
theorem set_page_frame {F : Type} (hal : Hal) (w : World F) (p : Nat) :
    (bno055_set_page hal w p).2.imu
      = { w.imu with config.state.page := (bno055_set_page hal w p).2.imu.config.state.page } := by
  by_cases hp : 1 < p
  · simp [bno055_set_page, hp]
  · by_cases hq : hal.transmit w.log [7, p] = 0
    · simp [bno055_set_page, hp, hq, i2c_master_transmit]
    · simp [bno055_set_page, hp, hq, i2c_master_transmit]

/-- After a successful `bno055_set_page` the cached page is the requested one. -/
theorem set_page_ok {F : Type} (hal : Hal) (w : World F) (p : Nat)
    (h : (bno055_set_page hal w p).1 = ESP_OK) :
    (bno055_set_page hal w p).2.imu.config.state.page = p := by
  by_cases hp : 1 < p
  · simp [bno055_set_page, hp] at h
  · by_cases hq : hal.transmit w.log [7, p] = 0
    · simp [bno055_set_page, hp, hq, i2c_master_transmit]
    · simp [bno055_set_page, hp, hq, i2c_master_transmit] at h

/-- `bno055_set_operation_mode` changes at most the cached mode and page. -/
theorem set_operation_mode_frame {F : Type} (hal : Hal) (w : World F) (m : Nat) :
    (bno055_set_operation_mode hal w m).2.imu
      = { w.imu with
          config.state.mode := (bno055_set_operation_mode hal w m).2.imu.config.state.mode,
          config.state.page := (bno055_set_operation_mode hal w m).2.imu.config.state.page } := by
  rcases w with
    ⟨⟨ra, la, g, gy, mg, eu, q, t, ⟨off, sc, rst, ⟨mode, units, page, xt⟩, cal, ic⟩⟩,
      log⟩
  simp only [] at *
  by_cases ht : 12 < m
  · simp [bno055_set_operation_mode, ht]
  · by_cases hm : mode = m
    · simp [bno055_set_operation_mode, ht, hm]
    · by_cases hp : page = 0
      · by_cases hr : (hal.transmit_receive log 61 1).1 = 0
        · by_cases hw : hal.transmit (log ++ [Event.transmit_receive 61 1])
              [61, ((byte (hal.transmit_receive log 61 1).2 0 &&& 240) ||| m) % 256] = 0
          · simp [bno055_set_operation_mode, ht, hm, hp, hr, hw, i2c_master_transmit,
              i2c_master_transmit_receive, vTaskDelay]
          · simp [bno055_set_operation_mode, ht, hm, hp, hr, hw, i2c_master_transmit,
              i2c_master_transmit_receive, vTaskDelay]
        · simp [bno055_set_operation_mode, ht, hm, hp, hr, i2c_master_transmit,
              i2c_master_transmit_receive, vTaskDelay]
      · by_cases hq : hal.transmit log [7, 0] = 0
        · by_cases hr : (hal.transmit_receive (log ++ [Event.transmit [7, 0]]) 61 1).1 = 0
          · by_cases hw : hal.transmit
                (log ++ [Event.transmit [7, 0], Event.transmit_receive 61 1])
                [61, ((byte (hal.transmit_receive (log ++ [Event.transmit [7, 0]]) 61 1).2 0
                  &&& 240) ||| m) % 256] = 0
            · simp [bno055_set_operation_mode, bno055_set_page, ht, hm, hp, hq, hr, hw,
                i2c_master_transmit, i2c_master_transmit_receive, vTaskDelay]
            · simp [bno055_set_operation_mode, bno055_set_page, ht, hm, hp, hq, hr, hw,
                i2c_master_transmit, i2c_master_transmit_receive, vTaskDelay]
          · simp [bno055_set_operation_mode, bno055_set_page, ht, hm, hp, hq, hr,
              i2c_master_transmit, i2c_master_transmit_receive, vTaskDelay]
        · simp [bno055_set_operation_mode, bno055_set_page, ht, hm, hp, hq,
            i2c_master_transmit, i2c_master_transmit_receive, vTaskDelay]

/-- After a successful `bno055_set_operation_mode` the cached mode is the requested one,
which is in range. -/
theorem set_operation_mode_ok {F : Type} (hal : Hal) (w : World F) (m : Nat)
    (h : (bno055_set_operation_mode hal w m).1 = ESP_OK) :
    (bno055_set_operation_mode hal w m).2.imu.config.state.mode = m ∧ m ≤ 12 := by
  by_cases ht : 12 < m
  · simp [bno055_set_operation_mode, ht] at h
  · by_cases hm : w.imu.config.state.mode = m
    · simp [bno055_set_operation_mode, ht, hm]
      omega
    · by_cases hp : w.imu.config.state.page = 0
      · by_cases hr : (hal.transmit_receive w.log 61 1).1 = 0
        · by_cases hw : hal.transmit (w.log ++ [Event.transmit_receive 61 1])
              [61, ((byte (hal.transmit_receive w.log 61 1).2 0 &&& 240) ||| m) % 256] = 0
          · simp [bno055_set_operation_mode, ht, hm, hp, hr, hw, i2c_master_transmit,
              i2c_master_transmit_receive, vTaskDelay]
            omega
          · simp [bno055_set_operation_mode, ht, hm, hp, hr, hw, i2c_master_transmit,
              i2c_master_transmit_receive, vTaskDelay] at h
        · simp [bno055_set_operation_mode, ht, hm, hp, hr, i2c_master_transmit,
              i2c_master_transmit_receive, vTaskDelay] at h
      · by_cases hq : hal.transmit w.log [7, 0] = 0
        · by_cases hr : (hal.transmit_receive (w.log ++ [Event.transmit [7, 0]]) 61 1).1 = 0
          · by_cases hw : hal.transmit
                (w.log ++ [Event.transmit [7, 0], Event.transmit_receive 61 1])
                [61, ((byte (hal.transmit_receive (w.log ++ [Event.transmit [7, 0]]) 61 1).2 0
                  &&& 240) ||| m) % 256] = 0
            · simp [bno055_set_operation_mode, bno055_set_page, ht, hm, hp, hq, hr, hw,
                i2c_master_transmit, i2c_master_transmit_receive, vTaskDelay]
              omega
            · simp [bno055_set_operation_mode, bno055_set_page, ht, hm, hp, hq, hr, hw,
                i2c_master_transmit, i2c_master_transmit_receive, vTaskDelay] at h
          · simp [bno055_set_operation_mode, bno055_set_page, ht, hm, hp, hq, hr,
              i2c_master_transmit, i2c_master_transmit_receive, vTaskDelay] at h
        · simp [bno055_set_operation_mode, bno055_set_page, ht, hm, hp, hq,
            i2c_master_transmit, i2c_master_transmit_receive, vTaskDelay] at h

set_option maxRecDepth 100000 in
/-- On a byte, having no bits outside `0x97` is the guard `units_selected & ~0x97` being 0,
and each unit bit is either clear or equal to its mask. -/
theorem units_bits (u : Nat) (hu : u < 256) :
    (u &&& 0x97 = u ↔ u &&& 0x68 = 0) ∧ (u &&& 0x01 = 0 ∨ u &&& 0x01 = 1)
      ∧ (u &&& 0x02 = 0 ∨ u &&& 0x02 = 2) ∧ (u &&& 0x04 = 0 ∨ u &&& 0x04 = 4)
      ∧ (u &&& 0x10 = 0 ∨ u &&& 0x10 = 16) := by
  revert u
  decide

/-- The four `switch` statements of `bno055_set_units` overwrite all six scale factors with
the entries of the fixed table. -/
theorem set_scaling_factors_eq {F : Type} [FloatOps F] (s : scale_t F) (u : Nat)
    (hu : u < 256) : set_scaling_factors s u = scale_table u := by
  obtain ⟨_, h1, h2, h4, h16⟩ := units_bits u hu
  rcases h1 with h1 | h1 <;> rcases h2 with h2 | h2 <;> rcases h4 with h4 | h4 <;>
    rcases h16 with h16 | h16 <;>
    simp [set_scaling_factors, scale_table, h1, h2, h4, h16]

/-- The page switch at the head of a function changes at most the cached page. -/
theorem page0_frame {F : Type} (hal : Hal) (w : World F) :
    (if w.imu.config.state.page ≠ 0 then bno055_set_page hal w 0 else (ESP_OK, w)).2.imu
      = { w.imu with config.state.page :=
          (if w.imu.config.state.page ≠ 0 then bno055_set_page hal w 0
            else (ESP_OK, w)).2.imu.config.state.page } := by
  split_ifs
  · exact set_page_frame hal w 0
  · rfl

/-- After a successful `bno055_set_units` the cached mode is the one on entry. -/
theorem set_units_ok_mode {F : Type} [FloatOps F] (hal : Hal) (w : World F) (u : Nat)
    (h : (bno055_set_units hal w u).1 = ESP_OK) :
    (bno055_set_units hal w u).2.imu.config.state.mode = w.imu.config.state.mode := by
  have key : ∀ r, bno055_set_units hal w u = r → r.1 = ESP_OK →
      r.2.imu.config.state.mode = w.imu.config.state.mode := by
    intro r hr h
    unfold bno055_set_units at hr
    lift_lets at hr
    extract_lets temp_mode md pg rd rc tx un s0 s1 s2 w1 s3 s4 s5 w2 rs at hr
    split_ifs at hr with h1 h2 h3 h4 h5 <;> subst hr
    · simp at h
    · exact absurd h h2
    · exact absurd h h3
    · exact absurd h h4
    · exact absurd h h5
    · exact (set_operation_mode_ok hal w2 temp_mode (not_not.mp h5)).1
  exact key _ rfl h

/-- After a successful `bno055_get_offsets` the cached mode is the one on entry. -/
theorem get_offsets_ok_mode {F : Type} [FloatOps F] (hal : Hal) (w : World F)
    (h : (bno055_get_offsets hal w).1 = ESP_OK) :
    (bno055_get_offsets hal w).2.imu.config.state.mode = w.imu.config.state.mode := by
  have key : ∀ r, bno055_get_offsets hal w = r → r.1 = ESP_OK →
      r.2.imu.config.state.mode = w.imu.config.state.mode := by
    intro r hr h
    unfold bno055_get_offsets at hr
    lift_lets at hr
    extract_lets pg temp_mode sm md rd s0 w1 rs at hr
    have hpg : temp_mode = w.imu.config.state.mode := by
      show pg.2.imu.config.state.mode = _
      rw [show pg.2.imu = _ from page0_frame hal w]
    split_ifs at hr with h1 h2 h3 h4 <;> subst hr
    · exact absurd h h1
    · exact absurd h h2
    · exact absurd h h3
    · exact absurd h h4
    · rw [← hpg]
      exact (set_operation_mode_ok hal w1 temp_mode (not_not.mp h4)).1
  exact key _ rfl h

/-- After a successful `bno055_set_offsets` the cached mode is the one on entry. -/
theorem set_offsets_ok_mode {F : Type} [FloatOps F] (hal : Hal) (w : World F)
    (h : (bno055_set_offsets hal w).1 = ESP_OK) :
    (bno055_set_offsets hal w).2.imu.config.state.mode = w.imu.config.state.mode := by
  have key : ∀ r, bno055_set_offsets hal w = r → r.1 = ESP_OK →
      r.2.imu.config.state.mode = w.imu.config.state.mode := by
    intro r hr h
    unfold bno055_set_offsets at hr
    lift_lets at hr
    extract_lets pg temp_mode sm md wr rs at hr
    have hpg : temp_mode = w.imu.config.state.mode := by
      show pg.2.imu.config.state.mode = _
      rw [show pg.2.imu = _ from page0_frame hal w]
    split_ifs at hr with h1 h2 h3 h4 <;> subst hr
    · exact absurd h h1
    · exact absurd h h2
    · exact absurd h h3
    · exact absurd h h4
    · rw [← hpg]
      exact (set_operation_mode_ok hal wr.2 temp_mode (not_not.mp h4)).1
  exact key _ rfl h

/-- After a successful `bno055_remap_axis` the cached mode is the one on entry. -/
theorem remap_axis_ok_mode {F : Type} (hal : Hal) (w : World F) (axes_config : bno055_axes_t)
    (h : (bno055_remap_axis hal w axes_config).1 = ESP_OK) :
    (bno055_remap_axis hal w axes_config).2.imu.config.state.mode
      = w.imu.config.state.mode := by
  have key : ∀ r, bno055_remap_axis hal w axes_config = r → r.1 = ESP_OK →
      r.2.imu.config.state.mode = w.imu.config.state.mode := by
    intro r hr h
    unfold bno055_remap_axis at hr
    lift_lets at hr
    extract_lets pg temp_mode sm md t1 w1 t2 w2 rs at hr
    have hpg : temp_mode = w.imu.config.state.mode := by
      show pg.2.imu.config.state.mode = _
      rw [show pg.2.imu = _ from page0_frame hal w]
    split_ifs at hr with h0 h0' h1 h2 h3 h4 h5 <;> subst hr
    · simp at h
    · simp at h
    · exact absurd h h1
    · exact absurd h h2
    · exact absurd h h3
    · exact absurd h h4
    · exact absurd h h5
    · rw [← hpg]
      exact (set_operation_mode_ok hal w2 temp_mode (not_not.mp h5)).1
  exact key _ rfl h

/-- The byte count of the first `switch` of `bno055_get_readings`: 1, 8 or 6 for the eight sensor
kinds, the `default` branch for every other value. -/
theorem reg_count_of_kind (sensor : Nat) :
    (sensor_kind sensor → reg_count_of sensor
      = some (if sensor = TEMPERATURE then 1 else if sensor = QUATERNION then 8 else 6)) ∧
    (¬ sensor_kind sensor → reg_count_of sensor = none) := by
  unfold sensor_kind reg_count_of
  simp only [ACCELEROMETER, MAGNETOMETER, GYROSCOPE, EULER_ANGLE, QUATERNION,
    LINEAR_ACCELERATION, GRAVITY, TEMPERATURE]
  constructor
  · intro h
    rcases h with h | h | h | h | h | h | h | h <;> subst h <;> decide
  · intro h
    split_ifs <;> first | rfl | (exfalso; omega)

/-- The three outcomes of `bno055_get_readings` for a sensor with byte count `n`: failed page
switch, failed read, decoded read. -/
theorem get_readings_eq {F : Type} [FloatOps F] (hal : Hal) (w : World F) (sensor n : Nat)
    (hn : reg_count_of sensor = some n) :
    bno055_get_readings hal w sensor =
      if w.imu.config.state.page ≠ 0 ∧ hal.transmit w.log [PAGE_ID, 0] ≠ ESP_OK then
        (hal.transmit w.log [PAGE_ID, 0], ⟨w.imu, w.log ++ [Event.transmit [PAGE_ID, 0]]⟩)
      else if (hal.transmit_receive (log_on_page0 w) sensor n).1 ≠ ESP_OK then
        ((hal.transmit_receive (log_on_page0 w) sensor n).1,
          ⟨imu_on_page0 w, log_on_page0 w ++ [Event.transmit_receive sensor n]⟩)
      else
        (ESP_OK, ⟨process_sensor_data (imu_on_page0 w) sensor (read_bytes hal w sensor n),
          log_on_page0 w ++ [Event.transmit_receive sensor n]⟩) := by
  unfold bno055_get_readings
  rw [hn]
  by_cases hp : w.imu.config.state.page = 0
  · by_cases hr : (hal.transmit_receive w.log sensor n).1 = 0
    · simp [hp, hr, i2c_master_transmit_receive, log_on_page0, imu_on_page0, read_bytes]
    · simp [hp, hr, i2c_master_transmit_receive, log_on_page0, imu_on_page0, read_bytes]
  · by_cases hq : hal.transmit w.log [7, 0] = 0
    · by_cases hr : (hal.transmit_receive (w.log ++ [Event.transmit [7, 0]]) sensor n).1 = 0
      · simp [hp, hq, hr, bno055_set_page, i2c_master_transmit, i2c_master_transmit_receive,
          log_on_page0, imu_on_page0, read_bytes]
      · simp [hp, hq, hr, bno055_set_page, i2c_master_transmit, i2c_master_transmit_receive,
          log_on_page0, imu_on_page0, read_bytes]
    · simp [hp, hq, bno055_set_page, i2c_master_transmit, i2c_master_transmit_receive,
        log_on_page0, imu_on_page0, read_bytes]

/-- On page 0, `bno055_get_readings` for a sensor with byte count `n` issues exactly the read of
`n` bytes at the sensor address. -/
theorem get_readings_log {F : Type} [FloatOps F] (hal : Hal) (w : World F) (sensor n : Nat)
    (hn : reg_count_of sensor = some n) (hpage : w.imu.config.state.page = 0) :
    (bno055_get_readings hal w sensor).2.log = w.log ++ [Event.transmit_receive sensor n] := by
  rw [get_readings_eq hal w sensor n hn]
  simp only [hpage, log_on_page0]
  split_ifs <;> simp_all

/-- The page switch does not touch the live readings. -/
theorem live_readings_on_page0 {F : Type} (w : World F) :
    live_readings (imu_on_page0 w) = live_readings w.imu := by
  unfold imu_on_page0
  split_ifs <;> rfl

/-- The page switch does not touch the scale factors. -/
theorem sensor_scale_on_page0 {F : Type} (w : World F) :
    (imu_on_page0 w).config.sensor_scale = w.imu.config.sensor_scale := by
  unfold imu_on_page0
  split_ifs <;> rfl

/-- The loop of `bno055_set_offsets` never touches the device record. -/
theorem write_offsets_imu {F : Type} (hal : Hal) (w : World F) (addr : Nat) (bs : List Nat) :
    (write_offsets hal w addr bs).2.imu = w.imu := by
  induction bs generalizing w addr with
  | nil => rfl
  | cons b rest ih =>
    unfold write_offsets
    simp only []
    split_ifs
    · rfl
    · rw [ih]
      rfl

/-- When the platform accepts every write of the loop, the loop returns `ESP_OK` and has
issued exactly `write_offsets_events`. -/
theorem write_offsets_accepts {F : Type} (hal : Hal) (w : World F) (addr : Nat) (bs : List Nat)
    (h : hal.accepts w.log (write_offsets_events addr bs) = true) :
    write_offsets hal w addr bs = (ESP_OK, ⟨w.imu, w.log ++ write_offsets_events addr bs⟩) := by
  induction bs generalizing w addr with
  | nil => simp [write_offsets, write_offsets_events]
  | cons b rest ih =>
    simp only [write_offsets_events, Hal.accepts, Hal.status, Bool.and_eq_true,
      decide_eq_true_eq] at h
    unfold write_offsets
    simp only [i2c_master_transmit, h.1, ne_eq, not_true_eq_false, if_false]
    rw [ih _ _ h.2]
    simp [write_offsets_events]

/-- When the platform accepts the first `j` writes of the loop and refuses the next one, the
loop returns the status of that write and has issued nothing after it. -/
theorem write_offsets_refused {F : Type} (hal : Hal) (w : World F) (addr : Nat) (bs : List Nat)
    (j : Nat) (e : Event) (hj : (write_offsets_events addr bs)[j]? = some e)
    (hacc : hal.accepts w.log ((write_offsets_events addr bs).take j) = true)
    (hfail : hal.status (w.log ++ (write_offsets_events addr bs).take j) e ≠ ESP_OK) :
    write_offsets hal w addr bs
      = (hal.status (w.log ++ (write_offsets_events addr bs).take j) e,
         ⟨w.imu, w.log ++ (write_offsets_events addr bs).take (j + 1)⟩) := by
  induction bs generalizing w addr j with
  | nil => simp [write_offsets_events] at hj
  | cons b rest ih =>
    cases j with
    | zero =>
      simp only [write_offsets_events, List.getElem?_cons_zero, Option.some.injEq] at hj
      subst hj
      simp only [List.take_zero, List.append_nil, Hal.status] at hfail ⊢
      have hfail0 : ¬ hal.transmit w.log [(addr + 1) % 256, b] = 0 := hfail
      unfold write_offsets
      simp [i2c_master_transmit, hfail0, write_offsets_events]
    | succ k =>
      simp only [write_offsets_events, List.getElem?_cons_succ] at hj
      simp only [write_offsets_events, List.take_succ_cons, Hal.accepts, Hal.status,
        Bool.and_eq_true, decide_eq_true_eq] at hacc
      simp only [write_offsets_events, List.take_succ_cons] at hfail ⊢
      unfold write_offsets
      simp only [i2c_master_transmit, hacc.1, ne_eq, not_true_eq_false, if_false]
      have := ih ⟨w.imu, w.log ++ [Event.transmit [(addr + 1) % 256, b]]⟩ ((addr + 1) % 256) k
        hj hacc.2 (by simpa using hfail)
      rw [this]
      simp

/-- The loop of `bno055_set_offsets` over the converted offsets, started below `0x55`, issues
the writes `offset_writes`. -/
theorem write_offsets_events_convert {F : Type} [FloatOps F] (imu : bno055_t F) :
    write_offsets_events (ACC_OFFSET_X_LSB - 1) (convert_offsets imu) = offset_writes imu := by
  rfl

/-- A mode switch to the cached mode returns `ESP_OK` and leaves the world as it is. -/
theorem set_operation_mode_same {F : Type} (hal : Hal) (w : World F) (m : Nat)
    (hm : w.imu.config.state.mode = m) (hle : m ≤ 12) :
    bno055_set_operation_mode hal w m = (ESP_OK, w) := by
  have ht : ¬ 12 < m := by omega
  simp [bno055_set_operation_mode, ht, hm]

/-- In `CONFIG_MODE` on page 0, `bno055_set_offsets` is its write loop: no page switch, no
mode switch before it and none after it. -/
theorem set_offsets_config {F : Type} [FloatOps F] (hal : Hal) (w : World F)
    (hmode : w.imu.config.state.mode = CONFIG_MODE) (hpage : w.imu.config.state.page = 0) :
    bno055_set_offsets hal w
      = write_offsets hal w (ACC_OFFSET_X_LSB - 1) (convert_offsets w.imu) := by
  have hm : (write_offsets hal w (ACC_OFFSET_X_LSB - 1)
      (convert_offsets w.imu)).2.imu.config.state.mode = CONFIG_MODE := by
    rw [write_offsets_imu]
    exact hmode
  unfold bno055_set_offsets
  simp only [hpage, hmode, ne_eq, not_true_eq_false, if_false]
  rw [set_operation_mode_same hal _ CONFIG_MODE hm (by decide)]
  by_cases h : (write_offsets hal w (ACC_OFFSET_X_LSB - 1) (convert_offsets w.imu)).1 = ESP_OK
  · simp only [h, not_true_eq_false, if_false]
    exact Prod.ext h.symm rfl
  · simp only [h, not_false_eq_true, if_true]

/-- The platform `okHal` accepts every sequence of requests. -/
theorem okHal_accepts (rc : List Nat) (pre es : List Event) :
    (okHal rc).accepts pre es = true := by
  induction es generalizing pre with
  | nil => rfl
  | cons e rest ih =>
    simp only [Hal.accepts, Bool.and_eq_true, decide_eq_true_eq]
    exact ⟨by cases e <;> rfl, ih _⟩

/-- Over exact arithmetic, `f_to_i16` of a value and a scale whose product is the integer
`n` in the 16-bit range is `n`. -/
theorem f_to_i16_rat (v s : ℚ) (n : Int) (h : v * s = n) (hlo : -32768 ≤ n)
    (hhi : n ≤ 32767) : f_to_i16 v s = n := by
  unfold f_to_i16
  have : FloatOps.lrintf (FloatOps.mul v s) = n := by
    show roundHalfEven (v * s) = n
    rw [h]
    simp [roundHalfEven]
  rw [this]
  exact (clamp_i16_spec n).2.2.2.2 hlo hhi

theorem offsets_world_writes :
    offset_writes offsets_world.imu
      = [Event.transmit [0x55, 0x00], Event.transmit [0x56, 0x00],
         Event.transmit [0x57, 0x00], Event.transmit [0x58, 0x00],
         Event.transmit [0x59, 0x00], Event.transmit [0x5A, 0x00],
         Event.transmit [0x5B, 0x80], Event.transmit [0x5C, 0x3E],
         Event.transmit [0x5D, 0x00], Event.transmit [0x5E, 0x00],
         Event.transmit [0x5F, 0x00], Event.transmit [0x60, 0x00],
         Event.transmit [0x61, 0x00], Event.transmit [0x62, 0x00],
         Event.transmit [0x63, 0x00], Event.transmit [0x64, 0x00],
         Event.transmit [0x65, 0x00], Event.transmit [0x66, 0x00]] := by
  have h0 : ∀ s : ℚ, f_to_i16 (0 : ℚ) s = 0 := fun s =>
    f_to_i16_rat 0 s 0 (by simp) (by decide) (by decide)
  have h1 : f_to_i16 (1000 : ℚ) (16 : ℚ) = 16000 :=
    f_to_i16_rat 1000 16 16000 (by norm_num) (by decide) (by decide)
  have e0 : i16_to_u8 0 = (0, 0) := by decide
  have e1 : i16_to_u8 16000 = (0x80, 0x3E) := by decide
  simp [offset_writes, offset_writes_from, offset_fields, offsets_world, zero_imu, scale_table,
    FloatOps.ofRat, h0, h1, e0, e1]

/-- Every write of `offset_writes` is a write of one byte to a register in `0x55 .. 0x66`. -/
theorem offset_writes_accesses {F : Type} [FloatOps F] (imu : bno055_t F) :
    ∀ e ∈ offset_writes imu, ∀ reg, e.accesses reg = true → 0x55 ≤ reg ∧ reg ≤ 0x66 := by
  simp only [offset_writes, offset_writes_from, offset_fields, ACC_OFFSET_X_LSB,
    List.mem_cons, List.mem_nil_iff, or_false]
  intro e he reg hreg
  rcases he with h | h | h | h | h | h | h | h | h | h | h | h | h | h | h | h | h | h <;>
    subst h <;>
    simp only [Event.accesses, List.length_cons, List.length_nil, decide_eq_true_eq] at hreg <;>
    omega

/-- A log continues itself with no request added. -/
theorem log_grows_refl (Q : Event → Prop) (l : List Event) : log_grows Q l l :=
  ⟨[], by simp, by simp⟩

/-- Continuations of a log compose. -/
theorem log_grows_trans {Q : Event → Prop} {a b c : List Event} (h1 : log_grows Q a b)
    (h2 : log_grows Q b c) : log_grows Q a c := by
  obtain ⟨n1, e1, p1⟩ := h1
  obtain ⟨n2, e2, p2⟩ := h2
  refine ⟨n1 ++ n2, by rw [e2, e1, List.append_assoc], fun e he => ?_⟩
  rcases List.mem_append.mp he with h | h
  · exact p1 e h
  · exact p2 e h

/-- A continuation whose requests satisfy `Q` is one whose requests satisfy any weaker `R`. -/
theorem log_grows_mono {Q R : Event → Prop} {a b : List Event} (hQR : ∀ e, Q e → R e)
    (h : log_grows Q a b) : log_grows R a b := by
  obtain ⟨n, e, p⟩ := h
  exact ⟨n, e, fun x hx => hQR x (p x hx)⟩

/-- Adding one request that satisfies `Q` continues the log. -/
theorem log_grows_snoc {Q : Event → Prop} (l : List Event) (e : Event) (h : Q e) :
    log_grows Q l (l ++ [e]) :=
  ⟨[e], rfl, fun x hx => by
    rw [List.mem_singleton] at hx
    subst hx
    exact h⟩

/-- A request within `P` is within any weaker `R`. -/
theorem within_mono {P R : Nat → Prop} (hPR : ∀ r, P r → R r) (e : Event)
    (h : e.within P) : e.within R :=
  fun reg hreg => hPR reg (h reg hreg)

/-- A delay accesses no register. -/
theorem within_delay (P : Nat → Prop) (ms : Nat) : (Event.delay ms).within P :=
  fun reg h => by simp [Event.accesses] at h

/-- A GPIO call accesses no register. -/
theorem within_gpio_set_level (P : Nat → Prop) (pin : Int) (level : Nat) :
    (Event.gpio_set_level pin level).within P :=
  fun reg h => by simp [Event.accesses] at h

/-- A write of one byte accesses the register it is addressed to. -/
theorem within_transmit {P : Nat → Prop} (reg b : Nat) (h : P reg) :
    (Event.transmit [reg, b]).within P :=
  fun r hr => by
    simp only [Event.accesses, List.length_cons, List.length_nil, decide_eq_true_eq] at hr
    have : r = reg := by omega
    rw [this]
    exact h

/-- A read of one byte accesses the register it is addressed to. -/
theorem within_receive {P : Nat → Prop} (reg : Nat) (h : P reg) :
    (Event.transmit_receive reg 1).within P :=
  fun r hr => by
    simp only [Event.accesses, decide_eq_true_eq] at hr
    have : r = reg := by omega
    rw [this]
    exact h

/-- The requests of `bno055_set_page` access only `PAGE_ID`. -/
theorem set_page_grows {F : Type} (hal : Hal) (w : World F) (p : Nat) :
    log_grows (Event.within (fun r => r = PAGE_ID)) w.log (bno055_set_page hal w p).2.log := by
  have h : log_grows (Event.within (fun r => r = PAGE_ID)) w.log
      (i2c_master_transmit hal w [PAGE_ID, p]).2.log :=
    log_grows_snoc _ _ (within_transmit PAGE_ID p rfl)
  by_cases hp : 1 < p
  · simp only [bno055_set_page, gt_iff_lt, hp, if_true]
    exact log_grows_refl _ _
  · by_cases hq : (i2c_master_transmit hal w [PAGE_ID, p]).1 = ESP_OK
    · simp only [bno055_set_page, gt_iff_lt, hp, if_false, hq, ne_eq, not_true_eq_false]
      exact h
    · simp only [bno055_set_page, gt_iff_lt, hp, if_false, hq, ne_eq, not_false_eq_true,
        if_true]
      exact h

/-- The requests of the page switch at the head of a function access only `PAGE_ID`. -/
theorem page0_grows {F : Type} (hal : Hal) (w : World F) :
    log_grows (Event.within (fun r => r = PAGE_ID)) w.log
      (if w.imu.config.state.page ≠ 0 then bno055_set_page hal w 0 else (ESP_OK, w)).2.log := by
  split_ifs
  · exact set_page_grows hal w 0
  · exact log_grows_refl _ _

/-- The requests of `bno055_set_operation_mode` access only `PAGE_ID` and `OPR_MODE`. -/
theorem set_operation_mode_grows {F : Type} (hal : Hal) (w : World F) (m : Nat) :
    log_grows (Event.within (fun r => r = PAGE_ID ∨ r = OPR_MODE)) w.log
      (bno055_set_operation_mode hal w m).2.log := by
  have key : ∀ r, bno055_set_operation_mode hal w m = r →
      log_grows (Event.within (fun r => r = PAGE_ID ∨ r = OPR_MODE)) w.log r.2.log := by
    intro r hr
    unfold bno055_set_operation_mode at hr
    lift_lets at hr
    extract_lets pg rd rc tx w1 at hr
    have hpg : log_grows (Event.within (fun r => r = PAGE_ID ∨ r = OPR_MODE)) w.log pg.2.log :=
      log_grows_mono (within_mono (fun _ h => Or.inl h)) (page0_grows hal w)
    have hrd : log_grows (Event.within (fun r => r = PAGE_ID ∨ r = OPR_MODE)) w.log
        rd.2.2.log :=
      log_grows_trans hpg (log_grows_snoc _ _ (within_receive OPR_MODE (Or.inr rfl)))
    have htx : log_grows (Event.within (fun r => r = PAGE_ID ∨ r = OPR_MODE)) w.log tx.2.log :=
      log_grows_trans hrd (log_grows_snoc _ _ (within_transmit OPR_MODE rc (Or.inr rfl)))
    split_ifs at hr <;> subst hr
    · exact log_grows_refl _ _
    · exact log_grows_refl _ _
    · exact hpg
    · exact hrd
    · exact htx
    · exact log_grows_trans htx (log_grows_snoc _ _ (within_delay _ 30))
  exact key _ rfl

/-- When the requested units are the cached ones, every request of `bno055_set_units`
accesses only `PAGE_ID` or `OPR_MODE`. -/
theorem set_units_same_grows {F : Type} [FloatOps F] (hal : Hal) (w : World F) (u : Nat)
    (hu : w.imu.config.state.units = u) :
    log_grows (Event.within (fun r => r = PAGE_ID ∨ r = OPR_MODE)) w.log
      (bno055_set_units hal w u).2.log := by
  have key : ∀ r, bno055_set_units hal w u = r →
      log_grows (Event.within (fun r => r = PAGE_ID ∨ r = OPR_MODE)) w.log r.2.log := by
    intro r hr
    unfold bno055_set_units at hr
    lift_lets at hr
    extract_lets temp_mode md pg rd rc tx un s0 s1 s2 w1 s3 s4 s5 w2 rs at hr
    have hmd : log_grows (Event.within (fun r => r = PAGE_ID ∨ r = OPR_MODE)) w.log md.2.log := by
      by_cases hc : temp_mode ≠ CONFIG_MODE
      · rw [show md = bno055_set_operation_mode hal w CONFIG_MODE from if_pos hc]
        exact set_operation_mode_grows hal w CONFIG_MODE
      · rw [show md = (ESP_OK, w) from if_neg hc]
        exact log_grows_refl _ _
    have hpg : log_grows (Event.within (fun r => r = PAGE_ID ∨ r = OPR_MODE)) w.log pg.2.log :=
      log_grows_trans hmd
        (log_grows_mono (within_mono (fun _ h => Or.inl h)) (page0_grows hal md.2))
    have hmdu : md.2.imu.config.state.units = u := by
      by_cases hc : temp_mode ≠ CONFIG_MODE
      · rw [show md = bno055_set_operation_mode hal w CONFIG_MODE from if_pos hc,
          set_operation_mode_frame]
        exact hu
      · rw [show md = (ESP_OK, w) from if_neg hc]
        exact hu
    have hpgu : pg.2.imu.config.state.units = u := by
      show (if md.2.imu.config.state.page ≠ 0 then bno055_set_page hal md.2 0
        else (ESP_OK, md.2)).2.imu.config.state.units = u
      rw [page0_frame]
      exact hmdu
    have hun : un = (ESP_OK, pg.2) := if_pos hpgu
    have hrs : log_grows (Event.within (fun r => r = PAGE_ID ∨ r = OPR_MODE)) w.log rs.2.log := by
      refine log_grows_trans ?_ (set_operation_mode_grows hal w2 temp_mode)
      show log_grows _ w.log un.2.log
      rw [hun]
      exact hpg
    split_ifs at hr <;> subst hr
    · exact log_grows_refl _ _
    · exact hmd
    · exact hpg
    · show log_grows _ w.log un.2.log
      rw [hun]
      exact hpg
    · exact hrs
    · exact hrs
  exact key _ rfl

set_option maxRecDepth 1000000 in
/-- On a byte `b` and a mode `t ≤ 12`, `(b & 0xF0) | t` is a byte whose low four bits are `t`
and whose high four bits are those of `b`. -/
theorem mode_bits : ∀ b < 256, ∀ t < 13,
    ((b &&& 0xF0) ||| t) % 256 = (b &&& 0xF0) ||| t ∧ ((b &&& 0xF0) ||| t) % 16 = t
      ∧ ((b &&& 0xF0) ||| t) / 16 = b / 16 := by
  decide

/-- For a legal axis code, `code >> 2` is 1 for a negative direction and 0 otherwise, and
`code & 3` is the axis number. -/
theorem axis_bits (a : Nat) (ha : legal_axis a) :
    a >>> 2 = (if axis_negative a then 1 else 0) ∧ a &&& 3 = a % 4 ∧ a % 4 < 3 := by
  rcases ha with h | h | h | h | h | h <;> subst h <;> decide

/-- Every request of `bno055_remap_axis` is a `remap_axis_event`. -/
theorem remap_axis_grows {F : Type} (hal : Hal) (w : World F) (a : bno055_axes_t) :
    log_grows (remap_axis_event a) w.log (bno055_remap_axis hal w a).2.log := by
  have key : ∀ r, bno055_remap_axis hal w a = r →
      log_grows (remap_axis_event a) w.log r.2.log := by
    intro r hr
    unfold bno055_remap_axis at hr
    lift_lets at hr
    extract_lets pg temp_mode sm md t1 w1 t2 w2 rs at hr
    have hpg : log_grows (remap_axis_event a) w.log pg.2.log :=
      log_grows_mono (fun e h => Or.inl (within_mono (fun _ h => Or.inl h) e h))
        (page0_grows hal w)
    have hsm : log_grows (remap_axis_event a) w.log sm.2.log :=
      log_grows_trans hpg (log_grows_mono (fun e h => Or.inl h)
      (set_operation_mode_grows hal pg.2 CONFIG_MODE))
    have hmd : log_grows (remap_axis_event a) w.log md.2.log := by
      by_cases hc : temp_mode ≠ CONFIG_MODE
      · by_cases hs : sm.1 ≠ ESP_OK
        · rw [show md = (sm.1, sm.2) from (if_pos hc).trans (if_pos hs)]
          exact hsm
        · rw [show md = (ESP_OK, vTaskDelay sm.2 25) from (if_pos hc).trans (if_neg hs)]
          exact log_grows_trans hsm (log_grows_snoc _ _ (Or.inl (within_delay _ 25)))
      · rw [show md = (ESP_OK, pg.2) from if_neg hc]
        exact hpg
    have ht1 : log_grows (remap_axis_event a) w.log t1.2.log :=
      log_grows_trans hmd (log_grows_snoc _ _ (Or.inr (Or.inl rfl)))
    have hw1 : log_grows (remap_axis_event a) w.log w1.log :=
      log_grows_trans ht1 (log_grows_snoc _ _ (Or.inl (within_delay _ 10)))
    have ht2 : log_grows (remap_axis_event a) w.log t2.2.log :=
      log_grows_trans hw1 (log_grows_snoc _ _ (Or.inr (Or.inr rfl)))
    have hw2 : log_grows (remap_axis_event a) w.log w2.log :=
      log_grows_trans ht2 (log_grows_snoc _ _ (Or.inl (within_delay _ 10)))
    have hrs : log_grows (remap_axis_event a) w.log rs.2.log :=
      log_grows_trans hw2 (log_grows_mono (fun e h => Or.inl h)
        (set_operation_mode_grows hal w2 temp_mode))
    split_ifs at hr <;> subst hr
    · exact log_grows_refl _ _
    · exact log_grows_refl _ _
    · exact hpg
    · exact hmd
    · exact ht1
    · exact ht2
    · exact hrs
    · exact log_grows_trans hrs (log_grows_snoc _ _ (Or.inl (within_delay _ 20)))
  exact key _ rfl

/-- For legal axis codes the map byte and the sign byte are bytes. -/
theorem axis_bytes_lt (a : bno055_axes_t) (hx : legal_axis a.x) (hy : legal_axis a.y)
    (hz : legal_axis a.z) :
    ((((a.z &&& 0x03) <<< 4) ||| ((a.y &&& 0x03) <<< 2)) ||| (a.x &&& 0x03)) % 256
        = (((a.z &&& 0x03) <<< 4) ||| ((a.y &&& 0x03) <<< 2)) ||| (a.x &&& 0x03) ∧
    (((a.x >>> 2) ||| (a.y >>> 2)) ||| (a.z >>> 2)) % 256
        = ((a.x >>> 2) ||| (a.y >>> 2)) ||| (a.z >>> 2) := by
  rcases a with ⟨x, y, z⟩
  simp only [] at hx hy hz
  rcases hx with h | h | h | h | h | h <;> subst h <;>
    rcases hy with h | h | h | h | h | h <;> subst h <;>
    rcases hz with h | h | h | h | h | h <;> subst h <;> decide

/-- When the requests that trigger the reset are accepted, `bno055_reset_chip` continues
with the resynchronisation block. -/
theorem reset_chip_triggered {F : Type} (hal : Hal) (w : World F)
    (hmeth : w.imu.config.reset.method = RESET_SW ∨ w.imu.config.reset.method = RESET_HW)
    (htrig : hal.accepts w.log (reset_events w) = true) :
    bno055_reset_chip hal w
      = get_values hal ⟨imu_before_resync w, w.log ++ reset_events w⟩ := by
  rcases hmeth with hm | hm
  · simp only [RESET_SW] at hm
    by_cases hp : w.imu.config.state.page = 0
    · simp only [reset_events, hm, hp, RESET_SW, ne_eq, not_true_eq_false, if_true, if_false,
        List.nil_append, Hal.accepts, Hal.status, Bool.and_eq_true, decide_eq_true_eq,
        SYS_TRIGGER, ESP_OK] at htrig
      simp [bno055_reset_chip, hm, hp, htrig.1, i2c_master_transmit, vTaskDelay,
        imu_before_resync, imu_on_page0, reset_events]
    · simp only [reset_events, hm, hp, RESET_SW, ne_eq, not_false_eq_true, if_true,
        List.cons_append, List.nil_append, Hal.accepts, Hal.status, Bool.and_eq_true,
        decide_eq_true_eq, SYS_TRIGGER, PAGE_ID, ESP_OK] at htrig
      simp [bno055_reset_chip, bno055_set_page, hm, hp, htrig.1, htrig.2.1,
        i2c_master_transmit, vTaskDelay, imu_before_resync, imu_on_page0, reset_events]
  · simp only [RESET_HW] at hm
    simp only [reset_events, hm, RESET_SW, one_ne_zero, if_false, Hal.accepts, Hal.status,
      Bool.and_eq_true, decide_eq_true_eq, ESP_OK, List.append_assoc, List.cons_append,
      List.nil_append] at htrig
    simp [bno055_reset_chip, hm, htrig.1, htrig.2.2.1, gpio_call, vTaskDelay,
      imu_before_resync, reset_events]

/-- When the platform accepts the first `k` resynchronisation reads and refuses the next
one, the block returns the status of that read, the log ends with it, the cached fields of
that read and of the later reads are untouched, and nothing outside the cached state is
touched. -/
theorem get_values_refused {F : Type} (hal : Hal) (w : World F) (k : Nat) (e : Event)
    (hk : resync_reads[k]? = some e)
    (hacc : hal.accepts w.log (resync_reads.take k) = true)
    (hfail : hal.status (w.log ++ resync_reads.take k) e ≠ ESP_OK) :
    (get_values hal w).1 = hal.status (w.log ++ resync_reads.take k) e ∧
    (get_values hal w).2.log = w.log ++ resync_reads.take (k + 1) ∧
    (k = 0 → (get_values hal w).2.imu.config.state.external_crystal
      = w.imu.config.state.external_crystal) ∧
    (k ≤ 1 → (get_values hal w).2.imu.config.state.mode = w.imu.config.state.mode) ∧
    (k ≤ 2 → (get_values hal w).2.imu.config.state.page = w.imu.config.state.page) ∧
    (get_values hal w).2.imu.config.state.units = w.imu.config.state.units ∧
    (get_values hal w).2.imu
      = { w.imu with config.state := (get_values hal w).2.imu.config.state } := by
  have hk4 : k < 4 := by
    by_contra hge
    have : resync_reads.length ≤ k := by
      simp only [resync_reads, List.length_cons, List.length_nil]
      omega
    rw [List.getElem?_eq_none this] at hk
    exact absurd hk (by simp)
  interval_cases k <;>
    simp only [resync_reads, List.getElem?_cons_zero, List.getElem?_cons_succ,
      Option.some.injEq] at hk <;>
    subst hk <;>
    simp only [resync_reads, List.take_zero, List.take_succ_cons, List.take_nil,
      List.append_nil, Hal.accepts, Hal.status, Bool.and_eq_true, decide_eq_true_eq,
      Bool.and_true, SYS_TRIGGER, OPR_MODE, PAGE_ID, UNIT_SEL, ESP_OK, List.append_assoc,
      List.cons_append, List.nil_append, and_true] at hacc hfail <;>
    simp [get_values, i2c_master_transmit_receive, resync_reads, hacc, hfail, Hal.status]

/-- The two exits of a mode switch to a mode `m ≤ 12` other than the cached one: on success
the cached mode is `m`, the cached page is 0 and the log ends with the write-back and the
30 ms delay; on an error the cached mode is untouched and the log ends with the refused bus
transaction. -/
theorem set_operation_mode_exit {F : Type} (hal : Hal) (w : World F) (m : Nat)
    (hm : w.imu.config.state.mode ≠ m) (hle : m ≤ 12) :
    ((bno055_set_operation_mode hal w m).1 = ESP_OK →
      (bno055_set_operation_mode hal w m).2.imu.config.state.mode = m ∧
      (bno055_set_operation_mode hal w m).2.imu.config.state.page = 0 ∧
      ∃ pre b, (bno055_set_operation_mode hal w m).2.log
        = pre ++ [Event.transmit [OPR_MODE, b], Event.delay 30] ∧ b % 16 = m) ∧
    ((bno055_set_operation_mode hal w m).1 ≠ ESP_OK →
      (bno055_set_operation_mode hal w m).2.imu.config.state.mode = w.imu.config.state.mode ∧
      ∃ pre e, (bno055_set_operation_mode hal w m).2.log = pre ++ [e] ∧ e.isBus = true ∧
        hal.status pre e = (bno055_set_operation_mode hal w m).1) := by
  have ht : ¬ 12 < m := by omega
  have hbits : ∀ b, b < 256 → (((b &&& 240) ||| m) % 256) % 16 = m := fun b hb => by
    have := mode_bits b hb m (by omega)
    rw [this.1]
    exact this.2.1
  by_cases hp : w.imu.config.state.page = 0
  · by_cases hr : (hal.transmit_receive w.log 61 1).1 = 0
    · by_cases hw : hal.transmit (w.log ++ [Event.transmit_receive 61 1])
          [61, ((byte (hal.transmit_receive w.log 61 1).2 0 &&& 240) ||| m) % 256] = 0
      · refine ⟨fun _ => ⟨?_, ?_, w.log ++ [Event.transmit_receive 61 1],
          ((byte (hal.transmit_receive w.log 61 1).2 0 &&& 240) ||| m) % 256, ?_,
          hbits _ (byte_lt _ _)⟩, fun h => absurd ?_ h⟩ <;>
        simp [bno055_set_operation_mode, ht, hm, hp, hr, hw, i2c_master_transmit,
          i2c_master_transmit_receive, vTaskDelay]
      · refine ⟨fun h => absurd h ?_, fun _ => ⟨?_, w.log ++ [Event.transmit_receive 61 1],
          Event.transmit [61, ((byte (hal.transmit_receive w.log 61 1).2 0 &&& 240) ||| m)
            % 256], ?_, rfl, ?_⟩⟩ <;>
        simp [bno055_set_operation_mode, ht, hm, hp, hr, hw, i2c_master_transmit,
          i2c_master_transmit_receive, vTaskDelay, Hal.status]
    · refine ⟨fun h => absurd h ?_, fun _ => ⟨?_, w.log, Event.transmit_receive 61 1, ?_, rfl,
        ?_⟩⟩ <;>
      simp [bno055_set_operation_mode, ht, hm, hp, hr, i2c_master_transmit,
        i2c_master_transmit_receive, vTaskDelay, Hal.status]
  · by_cases hq : hal.transmit w.log [7, 0] = 0
    · by_cases hr : (hal.transmit_receive (w.log ++ [Event.transmit [7, 0]]) 61 1).1 = 0
      · by_cases hw : hal.transmit
            (w.log ++ [Event.transmit [7, 0], Event.transmit_receive 61 1])
            [61, ((byte (hal.transmit_receive (w.log ++ [Event.transmit [7, 0]]) 61 1).2 0
              &&& 240) ||| m) % 256] = 0
        · refine ⟨fun _ => ⟨?_, ?_,
            w.log ++ [Event.transmit [7, 0], Event.transmit_receive 61 1],
            ((byte (hal.transmit_receive (w.log ++ [Event.transmit [7, 0]]) 61 1).2 0
              &&& 240) ||| m) % 256, ?_, hbits _ (byte_lt _ _)⟩, fun h => absurd ?_ h⟩ <;>
          simp [bno055_set_operation_mode, bno055_set_page, ht, hm, hp, hq, hr, hw,
            i2c_master_transmit, i2c_master_transmit_receive, vTaskDelay]
        · refine ⟨fun h => absurd h ?_, fun _ => ⟨?_,
            w.log ++ [Event.transmit [7, 0], Event.transmit_receive 61 1],
            Event.transmit [61,
              ((byte (hal.transmit_receive (w.log ++ [Event.transmit [7, 0]]) 61 1).2 0
                &&& 240) ||| m) % 256], ?_, rfl, ?_⟩⟩ <;>
          simp [bno055_set_operation_mode, bno055_set_page, ht, hm, hp, hq, hr, hw,
            i2c_master_transmit, i2c_master_transmit_receive, vTaskDelay, Hal.status]
      · refine ⟨fun h => absurd h ?_, fun _ => ⟨?_, w.log ++ [Event.transmit [7, 0]],
          Event.transmit_receive 61 1, ?_, rfl, ?_⟩⟩ <;>
        simp [bno055_set_operation_mode, bno055_set_page, ht, hm, hp, hq, hr,
          i2c_master_transmit, i2c_master_transmit_receive, vTaskDelay, Hal.status]
    · refine ⟨fun h => absurd h ?_, fun _ => ⟨?_, w.log, Event.transmit [7, 0], ?_, rfl, ?_⟩⟩ <;>
      simp [bno055_set_operation_mode, bno055_set_page, ht, hm, hp, hq,
        i2c_master_transmit, i2c_master_transmit_receive, vTaskDelay, Hal.status]

/-- For a target other than the cached mode, the page switch followed by the mode switch is
the mode switch alone: when the mode switch succeeds, so did the page switch. -/
theorem forced_config_split {F : Type} (hal : Hal) (w : World F) (m : Nat)
    (hm : w.imu.config.state.mode ≠ m)
    (hforced : (bno055_set_operation_mode hal w m).1 = ESP_OK) :
    (if w.imu.config.state.page ≠ 0 then bno055_set_page hal w 0 else (ESP_OK, w)).1 = ESP_OK ∧
    bno055_set_operation_mode hal
        (if w.imu.config.state.page ≠ 0 then bno055_set_page hal w 0 else (ESP_OK, w)).2 m
      = bno055_set_operation_mode hal w m := by
  by_cases ht : 12 < m
  · simp [bno055_set_operation_mode, ht] at hforced
  · by_cases hp : w.imu.config.state.page = 0
    · simp [hp]
    · by_cases hq : hal.transmit w.log [7, 0] = 0
      · simp [bno055_set_operation_mode, bno055_set_page, ht, hm, hp, hq, i2c_master_transmit,
          i2c_master_transmit_receive, vTaskDelay]
      · simp [bno055_set_operation_mode, bno055_set_page, ht, hm, hp, hq, i2c_master_transmit]
          at hforced

/-- When the loop of `bno055_set_offsets` returns an error, its log ends with the refused
write. -/
theorem write_offsets_err {F : Type} (hal : Hal) (w : World F) (addr : Nat) (bs : List Nat)
    (h : (write_offsets hal w addr bs).1 ≠ ESP_OK) :
    ∃ pre e, (write_offsets hal w addr bs).2.log = pre ++ [e] ∧ e.isBus = true ∧
      hal.status pre e = (write_offsets hal w addr bs).1 := by
  induction bs generalizing w addr with
  | nil => simp [write_offsets] at h
  | cons b rest ih =>
    unfold write_offsets at h ⊢
    simp only [] at h ⊢
    split_ifs at h ⊢ with h1
    · exact ⟨w.log, Event.transmit [(addr + 1) % 256, b], rfl, rfl, rfl⟩
    · exact ih _ _ h

/-- The closing mode switch of a scoped operation, entered in `CONFIG_MODE` with the prior
mode `p`, restores `p` or aborts. -/
theorem restore_exit {F : Type} (hal : Hal) (w : World F) (p : Nat)
    (hcfg : w.imu.config.state.mode = CONFIG_MODE) (hp : p ≠ CONFIG_MODE) (hle : p ≤ 12) :
    restores_or_aborts hal p (bno055_set_operation_mode hal w p).1
      (bno055_set_operation_mode hal w p).2 := by
  have hm : w.imu.config.state.mode ≠ p := by
    rw [hcfg]
    exact fun h => hp h.symm
  obtain ⟨hok, herr⟩ := set_operation_mode_exit hal w p hm hle
  refine ⟨fun h => ?_, fun h => ?_⟩
  · obtain ⟨h1, -, pre, b, h3, h4⟩ := hok h
    exact ⟨h1, pre, b, [Event.delay 30], by rw [h3], h4, by simp [Event.isBus]⟩
  · obtain ⟨h1, h2⟩ := herr h
    exact ⟨by rw [h1, hcfg], h2⟩

/-- A return right after a refused bus transaction, with the cached mode `CONFIG_MODE`. -/
theorem abort_exit {F : Type} (hal : Hal) (p : Nat) (s : esp_err_t) (r : World F)
    (pre : List Event) (e : Event) (hs : s ≠ ESP_OK)
    (hcfg : r.imu.config.state.mode = CONFIG_MODE) (hlog : r.log = pre ++ [e])
    (hbus : e.isBus = true) (hst : hal.status pre e = s) :
    restores_or_aborts hal p s r :=
  ⟨fun h => absurd h hs, fun _ => ⟨hcfg, pre, e, hlog, hbus, hst⟩⟩

/-- The exits of `bno055_get_offsets` once it has forced `CONFIG_MODE` from another mode. -/
theorem get_offsets_exit {F : Type} [FloatOps F] (hal : Hal) (w : World F)
    (hp : w.imu.config.state.mode ≠ CONFIG_MODE) (hle : w.imu.config.state.mode ≤ 12)
    (hforced : (bno055_set_operation_mode hal w CONFIG_MODE).1 = ESP_OK) :
    restores_or_aborts hal w.imu.config.state.mode (bno055_get_offsets hal w).1
      (bno055_get_offsets hal w).2 := by
  have key : ∀ r, bno055_get_offsets hal w = r →
      restores_or_aborts hal w.imu.config.state.mode r.1 r.2 := by
    intro r hr
    unfold bno055_get_offsets at hr
    lift_lets at hr
    extract_lets pg temp_mode sm md rd s0 w1 rs at hr
    obtain ⟨hpg1, hsplit⟩ := forced_config_split hal w CONFIG_MODE hp hforced
    have htm : temp_mode = w.imu.config.state.mode := by
      show pg.2.imu.config.state.mode = _
      rw [show pg.2.imu = _ from page0_frame hal w]
    have hsm1 : sm.1 = ESP_OK := by
      show (bno055_set_operation_mode hal pg.2 CONFIG_MODE).1 = _
      rw [hsplit]
      exact hforced
    have hsmc : sm.2.imu.config.state.mode = CONFIG_MODE :=
      (set_operation_mode_ok hal pg.2 CONFIG_MODE hsm1).1
    have hmd : md = (ESP_OK, vTaskDelay sm.2 25) :=
      (if_pos (by rw [htm]; exact hp)).trans (if_neg (not_not.mpr hsm1))
    have hmdc : md.2.imu.config.state.mode = CONFIG_MODE := by
      rw [hmd]
      exact hsmc
    have hrs : restores_or_aborts hal w.imu.config.state.mode rs.1 rs.2 := by
      rw [← htm]
      exact restore_exit hal w1 temp_mode hmdc (by rw [htm]; exact hp) (by rw [htm]; exact hle)
    split_ifs at hr with h1 h2 h3 h4 <;> subst hr
    · exact absurd hpg1 h1
    · rw [hmd] at h2
      exact absurd rfl h2
    · exact abort_exit hal _ _ _ md.2.log (Event.transmit_receive ACC_OFFSET_X_LSB 22) h3
        hmdc rfl rfl rfl
    · exact hrs
    · have h4' : rs.1 = ESP_OK := not_not.mp h4
      have := hrs
      rw [h4'] at this
      exact this
  exact key _ rfl

/-- The exits of `bno055_set_offsets` once it has forced `CONFIG_MODE` from another mode. -/
theorem set_offsets_exit {F : Type} [FloatOps F] (hal : Hal) (w : World F)
    (hp : w.imu.config.state.mode ≠ CONFIG_MODE) (hle : w.imu.config.state.mode ≤ 12)
    (hforced : (bno055_set_operation_mode hal w CONFIG_MODE).1 = ESP_OK) :
    restores_or_aborts hal w.imu.config.state.mode (bno055_set_offsets hal w).1
      (bno055_set_offsets hal w).2 := by
  have key : ∀ r, bno055_set_offsets hal w = r →
      restores_or_aborts hal w.imu.config.state.mode r.1 r.2 := by
    intro r hr
    unfold bno055_set_offsets at hr
    lift_lets at hr
    extract_lets pg temp_mode sm md wr rs at hr
    obtain ⟨hpg1, hsplit⟩ := forced_config_split hal w CONFIG_MODE hp hforced
    have htm : temp_mode = w.imu.config.state.mode := by
      show pg.2.imu.config.state.mode = _
      rw [show pg.2.imu = _ from page0_frame hal w]
    have hsm1 : sm.1 = ESP_OK := by
      show (bno055_set_operation_mode hal pg.2 CONFIG_MODE).1 = _
      rw [hsplit]
      exact hforced
    have hsmc : sm.2.imu.config.state.mode = CONFIG_MODE :=
      (set_operation_mode_ok hal pg.2 CONFIG_MODE hsm1).1
    have hmd : md = (ESP_OK, vTaskDelay sm.2 25) :=
      (if_pos (by rw [htm]; exact hp)).trans (if_neg (not_not.mpr hsm1))
    have hmdc : md.2.imu.config.state.mode = CONFIG_MODE := by
      rw [hmd]
      exact hsmc
    have hwrc : wr.2.imu.config.state.mode = CONFIG_MODE := by
      show (write_offsets hal md.2 _ _).2.imu.config.state.mode = _
      rw [write_offsets_imu]
      exact hmdc
    have hrs : restores_or_aborts hal w.imu.config.state.mode rs.1 rs.2 := by
      rw [← htm]
      exact restore_exit hal wr.2 temp_mode hwrc (by rw [htm]; exact hp)
        (by rw [htm]; exact hle)
    split_ifs at hr with h1 h2 h3 h4 <;> subst hr
    · exact absurd hpg1 h1
    · rw [hmd] at h2
      exact absurd rfl h2
    · obtain ⟨pre, e, hlog, hbus, hst⟩ := write_offsets_err hal md.2 _ _ h3
      exact abort_exit hal _ _ _ pre e h3 hwrc hlog hbus hst
    · exact hrs
    · have h4' : rs.1 = ESP_OK := not_not.mp h4
      have := hrs
      rw [h4'] at this
      exact this
  exact key _ rfl

/-- The exits of `bno055_remap_axis` for legal, pairwise distinct axis codes once it has
forced `CONFIG_MODE` from another mode. -/
theorem remap_axis_exit {F : Type} (hal : Hal) (w : World F) (a : bno055_axes_t)
    (hx : legal_axis a.x) (hy : legal_axis a.y) (hz : legal_axis a.z)
    (hxy : a.x ≠ a.y) (hxz : a.x ≠ a.z) (hyz : a.y ≠ a.z)
    (hp : w.imu.config.state.mode ≠ CONFIG_MODE) (hle : w.imu.config.state.mode ≤ 12)
    (hforced : (bno055_set_operation_mode hal w CONFIG_MODE).1 = ESP_OK) :
    restores_or_aborts hal w.imu.config.state.mode (bno055_remap_axis hal w a).1
      (bno055_remap_axis hal w a).2 := by
  have hguard : ¬ ((a.x < 0 ∨ a.x > 6 ∨ a.x = 3) ∨ (a.y < 0 ∨ a.y > 6 ∨ a.y = 3)
      ∨ (a.z < 0 ∨ a.z > 6 ∨ a.z = 3)) := by
    unfold legal_axis at hx hy hz
    simp only [POSITIVE_X, POSITIVE_Y, POSITIVE_Z, NEGATIVE_X, NEGATIVE_Y, NEGATIVE_Z]
      at hx hy hz
    omega
  have hdup : ¬ (a.x = a.y ∨ a.x = a.z ∨ a.y = a.z) := by
    rintro (h | h | h)
    · exact hxy h
    · exact hxz h
    · exact hyz h
  have key : ∀ r, bno055_remap_axis hal w a = r →
      restores_or_aborts hal w.imu.config.state.mode r.1 r.2 := by
    intro r hr
    unfold bno055_remap_axis at hr
    lift_lets at hr
    extract_lets pg temp_mode sm md t1 w1 t2 w2 rs at hr
    obtain ⟨hpg1, hsplit⟩ := forced_config_split hal w CONFIG_MODE hp hforced
    have htm : temp_mode = w.imu.config.state.mode := by
      show pg.2.imu.config.state.mode = _
      rw [show pg.2.imu = _ from page0_frame hal w]
    have hsm1 : sm.1 = ESP_OK := by
      show (bno055_set_operation_mode hal pg.2 CONFIG_MODE).1 = _
      rw [hsplit]
      exact hforced
    have hsmc : sm.2.imu.config.state.mode = CONFIG_MODE :=
      (set_operation_mode_ok hal pg.2 CONFIG_MODE hsm1).1
    have hmd : md = (ESP_OK, vTaskDelay sm.2 25) :=
      (if_pos (by rw [htm]; exact hp)).trans (if_neg (not_not.mpr hsm1))
    have hmdc : md.2.imu.config.state.mode = CONFIG_MODE := by
      rw [hmd]
      exact hsmc
    have hrs : restores_or_aborts hal w.imu.config.state.mode rs.1 rs.2 := by
      rw [← htm]
      exact restore_exit hal w2 temp_mode hmdc (by rw [htm]; exact hp) (by rw [htm]; exact hle)
    split_ifs at hr with h1 h2 h3 h4 h5 <;> subst hr
    · exact absurd hpg1 h1
    · rw [hmd] at h2
      exact absurd rfl h2
    · exact abort_exit hal _ _ _ md.2.log _ h3 hmdc rfl rfl rfl
    · exact abort_exit hal _ _ _ w1.log _ h4 hmdc rfl rfl rfl
    · exact hrs
    · have h5' : rs.1 = ESP_OK := not_not.mp h5
      obtain ⟨hmode, pre, b, tail, hlog, hb, htail⟩ := hrs.1 h5'
      refine ⟨fun _ => ⟨hmode, pre, b, tail ++ [Event.delay 20], ?_, hb, ?_⟩,
        fun h => absurd rfl h⟩
      · show rs.2.log ++ [Event.delay 20] = _
        rw [hlog]
        simp
      · intro e he
        rcases List.mem_append.mp he with h | h
        · exact htail e h
        · rw [List.mem_singleton] at h
          rw [h]
          rfl
  exact key _ rfl

/-- The exits of `bno055_set_units` for a units byte with no bits outside `0x97` once it has
forced `CONFIG_MODE` from another mode. -/
theorem set_units_exit {F : Type} [FloatOps F] (hal : Hal) (w : World F) (u : Nat)
    (hv : valid_units u)
    (hp : w.imu.config.state.mode ≠ CONFIG_MODE) (hle : w.imu.config.state.mode ≤ 12)
    (hforced : (bno055_set_operation_mode hal w CONFIG_MODE).1 = ESP_OK) :
    restores_or_aborts hal w.imu.config.state.mode (bno055_set_units hal w u).1
      (bno055_set_units hal w u).2 := by
  have h68 : ¬ (u &&& 0x68 ≠ 0) := not_not.mpr (((units_bits u hv.1).1).mp hv.2)
  have key : ∀ r, bno055_set_units hal w u = r →
      restores_or_aborts hal w.imu.config.state.mode r.1 r.2 := by
    intro r hr
    unfold bno055_set_units at hr
    lift_lets at hr
    extract_lets temp_mode md pg rd rc tx un s0 s1 s2 w1 s3 s4 s5 w2 rs at hr
    have hmd : md = bno055_set_operation_mode hal w CONFIG_MODE := if_pos hp
    have hexit := (set_operation_mode_exit hal w CONFIG_MODE hp (by decide)).1 hforced
    have hmdc : md.2.imu.config.state.mode = CONFIG_MODE := by
      rw [hmd]
      exact hexit.1
    have hmdp : md.2.imu.config.state.page = 0 := by
      rw [hmd]
      exact hexit.2.1
    have hpg : pg = (ESP_OK, md.2) := if_neg (not_not.mpr hmdp)
    have hpgc : pg.2.imu.config.state.mode = CONFIG_MODE := by
      rw [hpg]
      exact hmdc
    have hun : (un.1 ≠ ESP_OK → restores_or_aborts hal w.imu.config.state.mode un.1 un.2)
        ∧ un.2.imu.config.state.mode = CONFIG_MODE := by
      by_cases hu : pg.2.imu.config.state.units = u
      · rw [show un = (ESP_OK, pg.2) from if_pos hu]
        exact ⟨fun h => absurd rfl h, hpgc⟩
      · by_cases hrd : rd.1 ≠ ESP_OK
        · rw [show un = (rd.1, rd.2.2) from (if_neg hu).trans (if_pos hrd)]
          exact ⟨fun h => abort_exit hal _ _ _ pg.2.log (Event.transmit_receive UNIT_SEL 1) h
            hpgc rfl rfl rfl, hpgc⟩
        · by_cases htx : tx.1 ≠ ESP_OK
          · rw [show un = (tx.1, tx.2) from ((if_neg hu).trans (if_neg hrd)).trans (if_pos htx)]
            exact ⟨fun h => abort_exit hal _ _ _ rd.2.2.log (Event.transmit [UNIT_SEL, rc]) h
              hpgc rfl rfl rfl, hpgc⟩
          · rw [show un = (ESP_OK, tx.2) from
              ((if_neg hu).trans (if_neg hrd)).trans (if_neg htx)]
            exact ⟨fun h => absurd rfl h, hpgc⟩
    have hrs : restores_or_aborts hal w.imu.config.state.mode rs.1 rs.2 :=
      restore_exit hal w2 temp_mode hun.2 hp hle
    split_ifs at hr with h2 h3 h4 h5 <;> subst hr
    · rw [hmd] at h2
      exact absurd hforced h2
    · rw [hpg] at h3
      exact absurd rfl h3
    · exact hun.1 h4
    · exact hrs
    · have h5' : rs.1 = ESP_OK := not_not.mp h5
      have := hrs
      rw [h5'] at this
      exact this
  exact key _ rfl

/-- A world keeps its own page. -/
theorem page_stays_refl {F : Type} (w : World F) : page_stays w w := Or.inl rfl

/-- Keeping the page or resetting it to 0 composes. -/
theorem page_stays_trans {F : Type} {a b c : World F} (h1 : page_stays a b)
    (h2 : page_stays b c) : page_stays a c := by
  unfold page_stays at *
  omega

/-- Only the cached page of the record matters for `page_stays`. -/
theorem page_stays_congr {F : Type} {a b c : World F} (h1 : page_stays a b)
    (h2 : c.imu.config.state.page = b.imu.config.state.page) : page_stays a c := by
  unfold page_stays at *
  omega

/-- The page switch at the head of a function keeps the page or sets it to 0. -/
theorem page0_stays {F : Type} (hal : Hal) (w : World F) :
    page_stays w
      (if w.imu.config.state.page ≠ 0 then bno055_set_page hal w 0 else (ESP_OK, w)).2 := by
  by_cases hp : w.imu.config.state.page = 0
  · simp only [hp, ne_eq, not_true_eq_false, if_false]
    exact page_stays_refl w
  · simp only [hp, ne_eq, not_false_eq_true, if_true]
    by_cases hq : hal.transmit w.log [7, 0] = 0
    · exact Or.inr (by simp [bno055_set_page, hq, i2c_master_transmit])
    · exact Or.inl (by simp [bno055_set_page, hq, i2c_master_transmit])

/-- `bno055_set_operation_mode` keeps the cached page or sets it to 0. -/
theorem set_operation_mode_stays {F : Type} (hal : Hal) (w : World F) (m : Nat) :
    page_stays w (bno055_set_operation_mode hal w m).2 := by
  have key : ∀ r, bno055_set_operation_mode hal w m = r → page_stays w r.2 := by
    intro r hr
    unfold bno055_set_operation_mode at hr
    lift_lets at hr
    extract_lets pg rd rc tx w1 at hr
    have hpg : page_stays w pg.2 := page0_stays hal w
    split_ifs at hr <;> subst hr
    · exact page_stays_refl w
    · exact page_stays_refl w
    · exact hpg
    · exact page_stays_congr hpg rfl
    · exact page_stays_congr hpg rfl
    · exact page_stays_congr hpg rfl
  exact key _ rfl

/-- `bno055_set_external_crystal_use` keeps the cached page or sets it to 0. -/
theorem set_external_crystal_use_stays {F : Type} (hal : Hal) (w : World F) (state : Bool) :
    page_stays w (bno055_set_external_crystal_use hal w state).2 := by
  have key : ∀ r, bno055_set_external_crystal_use hal w state = r → page_stays w r.2 := by
    intro r hr
    unfold bno055_set_external_crystal_use at hr
    lift_lets at hr
    extract_lets pg rd rc tx w1 at hr
    have hpg : page_stays w pg.2 := page0_stays hal w
    split_ifs at hr <;> subst hr
    · exact page_stays_refl w
    · exact hpg
    · exact page_stays_congr hpg rfl
    · exact page_stays_congr hpg rfl
    · exact page_stays_congr hpg rfl
  exact key _ rfl

/-- `bno055_set_units` keeps the cached page or sets it to 0. -/
theorem set_units_stays {F : Type} [FloatOps F] (hal : Hal) (w : World F) (u : Nat) :
    page_stays w (bno055_set_units hal w u).2 := by
  have key : ∀ r, bno055_set_units hal w u = r → page_stays w r.2 := by
    intro r hr
    unfold bno055_set_units at hr
    lift_lets at hr
    extract_lets temp_mode md pg rd rc tx un s0 s1 s2 w1 s3 s4 s5 w2 rs at hr
    have hmd : page_stays w md.2 := by
      by_cases hc : temp_mode ≠ CONFIG_MODE
      · rw [show md = bno055_set_operation_mode hal w CONFIG_MODE from if_pos hc]
        exact set_operation_mode_stays hal w CONFIG_MODE
      · rw [show md = (ESP_OK, w) from if_neg hc]
        exact page_stays_refl w
    have hpg : page_stays w pg.2 := page_stays_trans hmd (page0_stays hal md.2)
    have hun : page_stays w un.2 := by
      by_cases hu : pg.2.imu.config.state.units = u
      · rw [show un = (ESP_OK, pg.2) from if_pos hu]
        exact hpg
      · by_cases hrd : rd.1 ≠ ESP_OK
        · rw [show un = (rd.1, rd.2.2) from (if_neg hu).trans (if_pos hrd)]
          exact page_stays_congr hpg rfl
        · by_cases htx : tx.1 ≠ ESP_OK
          · rw [show un = (tx.1, tx.2) from ((if_neg hu).trans (if_neg hrd)).trans (if_pos htx)]
            exact page_stays_congr hpg rfl
          · rw [show un = (ESP_OK, tx.2) from
              ((if_neg hu).trans (if_neg hrd)).trans (if_neg htx)]
            exact page_stays_congr hpg rfl
    have hrs : page_stays w rs.2 :=
      page_stays_trans (page_stays_congr hun rfl) (set_operation_mode_stays hal w2 temp_mode)
    split_ifs at hr <;> subst hr
    · exact page_stays_refl w
    · exact hmd
    · exact hpg
    · exact hun
    · exact hrs
    · exact hrs
  exact key _ rfl

/-- `bno055_get_calibration_status` keeps the cached page or sets it to 0. -/
theorem get_calibration_status_stays {F : Type} (hal : Hal) (w : World F) :
    page_stays w (bno055_get_calibration_status hal w).2 := by
  have key : ∀ r, bno055_get_calibration_status hal w = r → page_stays w r.2 := by
    intro r hr
    unfold bno055_get_calibration_status at hr
    lift_lets at hr
    extract_lets pg rd rc cal w1 at hr
    have hpg : page_stays w pg.2 := page0_stays hal w
    split_ifs at hr <;> subst hr
    · exact hpg
    · exact page_stays_congr hpg rfl
    · exact page_stays_congr hpg rfl
  exact key _ rfl

/-- Decoding a reading does not touch the configuration part of the record. -/
theorem process_sensor_data_config {F : Type} [FloatOps F] (imu : bno055_t F) (sensor : Nat)
    (rc : List Nat) : (process_sensor_data imu sensor rc).config = imu.config := by
  unfold process_sensor_data
  simp only []
  split_ifs <;> rfl

/-- `bno055_get_readings` keeps the cached page or sets it to 0. -/
theorem get_readings_stays {F : Type} [FloatOps F] (hal : Hal) (w : World F) (sensor : Nat) :
    page_stays w (bno055_get_readings hal w sensor).2 := by
  have h0 : (imu_on_page0 w).config.state.page = w.imu.config.state.page
      ∨ (imu_on_page0 w).config.state.page = 0 := by
    unfold imu_on_page0
    split_ifs
    · exact Or.inr rfl
    · exact Or.inl rfl
  cases hn : reg_count_of sensor with
  | none =>
    unfold bno055_get_readings
    rw [hn]
    exact page_stays_refl w
  | some n =>
    rw [get_readings_eq hal w sensor n hn]
    split_ifs
    · exact page_stays_refl w
    · exact h0
    · show (process_sensor_data (imu_on_page0 w) sensor _).config.state.page = _ ∨ _
      rw [process_sensor_data_config]
      exact h0

/-- `bno055_get_offsets` keeps the cached page or sets it to 0. -/
theorem get_offsets_stays {F : Type} [FloatOps F] (hal : Hal) (w : World F) :
    page_stays w (bno055_get_offsets hal w).2 := by
  have key : ∀ r, bno055_get_offsets hal w = r → page_stays w r.2 := by
    intro r hr
    unfold bno055_get_offsets at hr
    lift_lets at hr
    extract_lets pg temp_mode sm md rd s0 w1 rs at hr
    have hpg : page_stays w pg.2 := page0_stays hal w
    have hsm : page_stays w sm.2 :=
      page_stays_trans hpg (set_operation_mode_stays hal pg.2 CONFIG_MODE)
    have hmd : page_stays w md.2 := by
      by_cases hc : temp_mode ≠ CONFIG_MODE
      · by_cases hs : sm.1 ≠ ESP_OK
        · rw [show md = (sm.1, sm.2) from (if_pos hc).trans (if_pos hs)]
          exact hsm
        · rw [show md = (ESP_OK, vTaskDelay sm.2 25) from (if_pos hc).trans (if_neg hs)]
          exact page_stays_congr hsm rfl
      · rw [show md = (ESP_OK, pg.2) from if_neg hc]
        exact hpg
    have hrs : page_stays w rs.2 :=
      page_stays_trans (page_stays_congr hmd rfl) (set_operation_mode_stays hal w1 temp_mode)
    split_ifs at hr <;> subst hr
    · exact hpg
    · exact hmd
    · exact page_stays_congr hmd rfl
    · exact hrs
    · exact hrs
  exact key _ rfl

/-- `bno055_set_offsets` keeps the cached page or sets it to 0. -/
theorem set_offsets_stays {F : Type} [FloatOps F] (hal : Hal) (w : World F) :
    page_stays w (bno055_set_offsets hal w).2 := by
  have key : ∀ r, bno055_set_offsets hal w = r → page_stays w r.2 := by
    intro r hr
    unfold bno055_set_offsets at hr
    lift_lets at hr
    extract_lets pg temp_mode sm md wr rs at hr
    have hpg : page_stays w pg.2 := page0_stays hal w
    have hsm : page_stays w sm.2 :=
      page_stays_trans hpg (set_operation_mode_stays hal pg.2 CONFIG_MODE)
    have hmd : page_stays w md.2 := by
      by_cases hc : temp_mode ≠ CONFIG_MODE
      · by_cases hs : sm.1 ≠ ESP_OK
        · rw [show md = (sm.1, sm.2) from (if_pos hc).trans (if_pos hs)]
          exact hsm
        · rw [show md = (ESP_OK, vTaskDelay sm.2 25) from (if_pos hc).trans (if_neg hs)]
          exact page_stays_congr hsm rfl
      · rw [show md = (ESP_OK, pg.2) from if_neg hc]
        exact hpg
    have hwr : page_stays w wr.2 :=
      page_stays_congr hmd (by
        show (write_offsets hal md.2 _ _).2.imu.config.state.page = _
        rw [write_offsets_imu])
    have hrs : page_stays w rs.2 :=
      page_stays_trans hwr (set_operation_mode_stays hal wr.2 temp_mode)
    split_ifs at hr <;> subst hr
    · exact hpg
    · exact hmd
    · exact hwr
    · exact hrs
    · exact hrs
  exact key _ rfl

/-- `bno055_remap_axis` keeps the cached page or sets it to 0. -/
theorem remap_axis_stays {F : Type} (hal : Hal) (w : World F) (a : bno055_axes_t) :
    page_stays w (bno055_remap_axis hal w a).2 := by
  have key : ∀ r, bno055_remap_axis hal w a = r → page_stays w r.2 := by
    intro r hr
    unfold bno055_remap_axis at hr
    lift_lets at hr
    extract_lets pg temp_mode sm md t1 w1 t2 w2 rs at hr
    have hpg : page_stays w pg.2 := page0_stays hal w
    have hsm : page_stays w sm.2 :=
      page_stays_trans hpg (set_operation_mode_stays hal pg.2 CONFIG_MODE)
    have hmd : page_stays w md.2 := by
      by_cases hc : temp_mode ≠ CONFIG_MODE
      · by_cases hs : sm.1 ≠ ESP_OK
        · rw [show md = (sm.1, sm.2) from (if_pos hc).trans (if_pos hs)]
          exact hsm
        · rw [show md = (ESP_OK, vTaskDelay sm.2 25) from (if_pos hc).trans (if_neg hs)]
          exact page_stays_congr hsm rfl
      · rw [show md = (ESP_OK, pg.2) from if_neg hc]
        exact hpg
    have hrs : page_stays w rs.2 :=
      page_stays_trans (page_stays_congr hmd rfl) (set_operation_mode_stays hal w2 temp_mode)
    split_ifs at hr <;> subst hr
    · exact page_stays_refl w
    · exact page_stays_refl w
    · exact hpg
    · exact hmd
    · exact page_stays_congr hmd rfl
    · exact page_stays_congr hmd rfl
    · exact hrs
    · exact page_stays_congr hrs rfl
  exact key _ rfl

/-- `bno055_configure` keeps the cached page or sets it to 0. -/
theorem configure_stays {F : Type} [FloatOps F] (hal : Hal) (w : World F) (m u : Nat) :
    page_stays w (bno055_configure hal w m u).2 := by
  have key : ∀ r, bno055_configure hal w m u = r → page_stays w r.2 := by
    intro r hr
    unfold bno055_configure at hr
    lift_lets at hr
    extract_lets md xt un fin at hr
    have hmd : page_stays w md.2 := by
      by_cases hc : w.imu.config.state.mode ≠ CONFIG_MODE
      · rw [show md = bno055_set_operation_mode hal w CONFIG_MODE from if_pos hc]
        exact set_operation_mode_stays hal w CONFIG_MODE
      · rw [show md = (ESP_OK, w) from if_neg hc]
        exact page_stays_refl w
    have hxt : page_stays w xt.2 := by
      by_cases hc : md.2.imu.config.state.external_crystal ≠ true
      · rw [show xt = bno055_set_external_crystal_use hal md.2 true from if_pos hc]
        exact page_stays_trans hmd (set_external_crystal_use_stays hal md.2 true)
      · rw [show xt = (ESP_OK, md.2) from if_neg hc]
        exact hmd
    have hun : page_stays w un.2 := by
      by_cases hc : xt.2.imu.config.state.units ≠ u
      · rw [show un = bno055_set_units hal xt.2 u from if_pos hc]
        exact page_stays_trans hxt (set_units_stays hal xt.2 u)
      · rw [show un = (ESP_OK, xt.2) from if_neg hc]
        exact hxt
    have hfin : page_stays w fin.2 :=
      page_stays_trans hun (set_operation_mode_stays hal un.2 m)
    split_ifs at hr <;> subst hr
    · exact page_stays_refl w
    · exact page_stays_refl w
    · exact hmd
    · exact hxt
    · exact hun
    · exact hfin
    · exact hfin
  exact key _ rfl

/-- `bno055_set_page` with a page `p ≤ 1` leaves a cached page that is `p` or the one on
entry; with a page above 1 it changes nothing. -/
theorem set_page_page {F : Type} (hal : Hal) (w : World F) (p : Nat) :
    (bno055_set_page hal w p).2.imu.config.state.page = w.imu.config.state.page
      ∨ ((bno055_set_page hal w p).2.imu.config.state.page = p ∧ p ≤ 1) := by
  by_cases hp : 1 < p
  · exact Or.inl (by simp [bno055_set_page, hp])
  · by_cases hq : hal.transmit w.log [7, p] = 0
    · exact Or.inr ⟨by simp [bno055_set_page, hp, hq, i2c_master_transmit], by omega⟩
    · exact Or.inl (by simp [bno055_set_page, hp, hq, i2c_master_transmit])

/-- The function `bno055_initialize` keeps the cached page or sets it to 0. -/
theorem initialize_stays {F : Type} [FloatOps F] (hal : Hal) (w : World F) :
    page_stays w ( bno055_initialize hal w).2 := by
  have key : ∀ r, bno055_initialize hal w = r → page_stays w r.2 := by
    intro r hr
    unfold bno055_initialize at hr
    lift_lets at hr
    extract_lets pg rd w1 i1 i2 i3 g1 g2 g3 rst md m1 m2 m3 m4 w2 un at hr
    have hpg : page_stays w pg.2 := by
      rcases set_page_page hal w 0 with h | h
      · exact Or.inl h
      · exact Or.inr h.1
    have hw1 : page_stays w w1 := page_stays_congr hpg rfl
    have hrst : page_stays w rst.2 := by
      by_cases c1 : w1.imu.config.reset.method = RESET_SW
      · rw [show rst = _ from if_pos c1]
        exact page_stays_congr hw1 rfl
      · by_cases c2 : w1.imu.config.reset.method = RESET_HW
        · by_cases d1 : g1.1 ≠ ESP_OK
          · rw [show rst = (g1.1, g1.2) from ((if_neg c1).trans (if_pos c2)).trans (if_pos d1)]
            exact page_stays_congr hw1 rfl
          · by_cases d2 : g2.1 ≠ ESP_OK
            · rw [show rst = (g2.1, g2.2) from
                (((if_neg c1).trans (if_pos c2)).trans (if_neg d1)).trans (if_pos d2)]
              exact page_stays_congr hw1 rfl
            · by_cases d3 : g3.1 ≠ ESP_OK
              · rw [show rst = (g3.1, g3.2) from
                  ((((if_neg c1).trans (if_pos c2)).trans (if_neg d1)).trans
                    (if_neg d2)).trans (if_pos d3)]
                exact page_stays_congr hw1 rfl
              · rw [show rst = (ESP_OK, g3.2) from
                  ((((if_neg c1).trans (if_pos c2)).trans (if_neg d1)).trans
                    (if_neg d2)).trans (if_neg d3)]
                exact page_stays_congr hw1 rfl
        · rw [show rst = (ESP_ERR_INVALID_ARG, w1) from (if_neg c1).trans (if_neg c2)]
          exact hw1
    have hmd : page_stays w md.2 := by
      by_cases hc : rst.2.imu.config.state.mode ≠ CONFIG_MODE
      · rw [show md = bno055_set_operation_mode hal rst.2 CONFIG_MODE from if_pos hc]
        exact page_stays_trans hrst (set_operation_mode_stays hal rst.2 CONFIG_MODE)
      · rw [show md = (ESP_OK, rst.2) from if_neg hc]
        exact hrst
    have hun : page_stays w un.2 :=
      page_stays_trans (page_stays_congr hmd rfl) (set_units_stays hal w2 _)
    split_ifs at hr <;> subst hr
    · exact page_stays_refl w
    · exact hpg
    · exact hw1
    · exact hw1
    · exact hrst
    · exact hmd
    · exact hun
    · exact hun
  exact key _ rfl

/-- Every operation of the driver other than `bno055_reset_chip` and
`bno055_start_self_test` returns with a cached page in `{0, 1}` when it was entered with
one. -/
theorem page_in_range {F : Type} [FloatOps F] (hal : Hal) (w : World F)
    (h : w.imu.config.state.page ≤ 1) :
    (∀ p, (bno055_set_page hal w p).2.imu.config.state.page ≤ 1) ∧
    (∀ m, (bno055_set_operation_mode hal w m).2.imu.config.state.page ≤ 1) ∧
    ( bno055_initialize hal w).2.imu.config.state.page ≤ 1 ∧
    (∀ m u, (bno055_configure hal w m u).2.imu.config.state.page ≤ 1) ∧
    (bno055_get_calibration_status hal w).2.imu.config.state.page ≤ 1 ∧
    (∀ s, (bno055_get_readings hal w s).2.imu.config.state.page ≤ 1) ∧
    (bno055_get_offsets hal w).2.imu.config.state.page ≤ 1 ∧
    (bno055_set_offsets hal w).2.imu.config.state.page ≤ 1 ∧
    (∀ a, (bno055_remap_axis hal w a).2.imu.config.state.page ≤ 1) := by
  have hs : ∀ r : World F, page_stays w r → r.imu.config.state.page ≤ 1 := by
    intro r hr
    unfold page_stays at hr
    omega
  refine ⟨fun p => ?_, fun m => hs _ (set_operation_mode_stays hal w m),
    hs _ (initialize_stays hal w), fun m u => hs _ (configure_stays hal w m u),
    hs _ (get_calibration_status_stays hal w), fun s => hs _ (get_readings_stays hal w s),
    hs _ (get_offsets_stays hal w), hs _ (set_offsets_stays hal w),
    fun a => hs _ (remap_axis_stays hal w a)⟩
  rcases set_page_page hal w p with h1 | h1
  · omega
  · omega

/-- The model with two zeros satisfies `FloatOps.DivExact`, and in it the quotient of zero
by a negative integer is not the float zero. -/
theorem divExact_signedZero :
    FloatOps.DivExact (ℚ × Bool) ∧
    FloatOps.div (FloatOps.ofInt 0 : ℚ × Bool) (FloatOps.ofInt (-1))
      ≠ (FloatOps.ofInt 0 : ℚ × Bool) := by
  constructor
  · intro a b q hb hab _ _
    have hb' : (0 : ℚ) < (b : ℚ) := by exact_mod_cast hb
    show (((a : ℤ) : ℚ) / ((b : ℤ) : ℚ), xor (decide (((a : ℤ) : ℚ) < 0))
      (decide (((b : ℤ) : ℚ) < 0))) = (((q : ℤ) : ℚ), decide (((q : ℤ) : ℚ) < 0))
    have h1 : ((a : ℤ) : ℚ) / ((b : ℤ) : ℚ) = (q : ℚ) := by
      rw [hab]
      push_cast
      field_simp
    have h2 : ¬ ((b : ℤ) : ℚ) < 0 := not_lt.mpr hb'.le
    have h3 : (((a : ℤ) : ℚ) < 0) ↔ (((q : ℤ) : ℚ) < 0) := by
      rw [← h1]
      constructor
      · intro h
        exact div_neg_of_neg_of_pos h hb'
      · intro h
        by_contra hn
        exact absurd h (not_lt.mpr (div_nonneg (not_lt.mp hn) hb'.le))
    rw [h1]
    simp [h2, h3]
  · show ((((0 : ℤ) : ℚ)) / (((-1 : ℤ)) : ℚ), xor (decide ((((0 : ℤ)) : ℚ) < 0))
      (decide ((((-1 : ℤ)) : ℚ) < 0))) ≠ ((((0 : ℤ)) : ℚ), decide ((((0 : ℤ)) : ℚ) < 0))
    simp

/-- The resynchronisation block leaves the cached page as it was or stores the byte read
from `PAGE_ID`. -/
theorem get_values_page {F : Type} (hal : Hal) (w : World F) :
    (get_values hal w).2.imu.config.state.page = w.imu.config.state.page
      ∨ ∃ pre, (get_values hal w).2.imu.config.state.page
          = byte (hal.transmit_receive pre PAGE_ID 1).2 0 := by
  by_cases h1 : (hal.transmit_receive w.log 63 1).1 = 0
  · by_cases h2 : (hal.transmit_receive (w.log ++ [Event.transmit_receive 63 1]) 61 1).1 = 0
    · by_cases h3 : (hal.transmit_receive
          (w.log ++ [Event.transmit_receive 63 1, Event.transmit_receive 61 1]) 7 1).1 = 0
      · by_cases h4 : (hal.transmit_receive
            (w.log ++ [Event.transmit_receive 63 1, Event.transmit_receive 61 1,
              Event.transmit_receive 7 1]) 59 1).1 = 0
        · exact Or.inr ⟨w.log ++ [Event.transmit_receive 63 1, Event.transmit_receive 61 1],
            by simp [get_values, i2c_master_transmit_receive, h1, h2, h3, h4]⟩
        · exact Or.inr ⟨w.log ++ [Event.transmit_receive 63 1, Event.transmit_receive 61 1],
            by simp [get_values, i2c_master_transmit_receive, h1, h2, h3, h4]⟩
      · exact Or.inl (by simp [get_values, i2c_master_transmit_receive, h1, h2, h3])
    · exact Or.inl (by simp [get_values, i2c_master_transmit_receive, h1, h2])
  · exact Or.inl (by simp [get_values, i2c_master_transmit_receive, h1])

/-- After a successful resynchronisation block the cached page is the byte read from
`PAGE_ID`. -/
theorem get_values_ok_page {F : Type} (hal : Hal) (w : World F)
    (h : (get_values hal w).1 = ESP_OK) :
    ∃ pre, (get_values hal w).2.imu.config.state.page
      = byte (hal.transmit_receive pre PAGE_ID 1).2 0 := by
  by_cases h1 : (hal.transmit_receive w.log 63 1).1 = 0
  · by_cases h2 : (hal.transmit_receive (w.log ++ [Event.transmit_receive 63 1]) 61 1).1 = 0
    · by_cases h3 : (hal.transmit_receive
          (w.log ++ [Event.transmit_receive 63 1, Event.transmit_receive 61 1]) 7 1).1 = 0
      · by_cases h4 : (hal.transmit_receive
            (w.log ++ [Event.transmit_receive 63 1, Event.transmit_receive 61 1,
              Event.transmit_receive 7 1]) 59 1).1 = 0
        · exact ⟨w.log ++ [Event.transmit_receive 63 1, Event.transmit_receive 61 1],
            by simp [get_values, i2c_master_transmit_receive, h1, h2, h3, h4]⟩
        · simp [get_values, i2c_master_transmit_receive, h1, h2, h3, h4] at h
      · simp [get_values, i2c_master_transmit_receive, h1, h2, h3] at h
    · simp [get_values, i2c_master_transmit_receive, h1, h2] at h
  · simp [get_values, i2c_master_transmit_receive, h1] at h

/-- On every return of `bno055_reset_chip` the cached page is the one on entry, 0, or the
byte read from `PAGE_ID`; on `ESP_OK` it is the byte read from `PAGE_ID`. -/
theorem reset_chip_page {F : Type} (hal : Hal) (w : World F) :
    ((bno055_reset_chip hal w).2.imu.config.state.page = w.imu.config.state.page
      ∨ (bno055_reset_chip hal w).2.imu.config.state.page = 0
      ∨ ∃ pre, (bno055_reset_chip hal w).2.imu.config.state.page
          = byte (hal.transmit_receive pre PAGE_ID 1).2 0) ∧
    ((bno055_reset_chip hal w).1 = ESP_OK →
      ∃ pre, (bno055_reset_chip hal w).2.imu.config.state.page
        = byte (hal.transmit_receive pre PAGE_ID 1).2 0) := by
  have key : ∀ r, bno055_reset_chip hal w = r →
      (r.2.imu.config.state.page = w.imu.config.state.page
        ∨ r.2.imu.config.state.page = 0
        ∨ ∃ pre, r.2.imu.config.state.page = byte (hal.transmit_receive pre PAGE_ID 1).2 0) ∧
      (r.1 = ESP_OK →
        ∃ pre, r.2.imu.config.state.page = byte (hal.transmit_receive pre PAGE_ID 1).2 0) := by
    intro r hr
    unfold bno055_reset_chip at hr
    lift_lets at hr
    extract_lets pg tx g1 w1 g2 rst at hr
    have hpg : page_stays w pg.2 := page0_stays hal w
    have hrst : page_stays w rst.2 := by
      by_cases c1 : w.imu.config.reset.method = RESET_SW
      · by_cases d1 : pg.1 ≠ ESP_OK
        · rw [show rst = (pg.1, pg.2) from (if_pos c1).trans (if_pos d1)]
          exact hpg
        · by_cases d2 : tx.1 ≠ ESP_OK
          · rw [show rst = (tx.1, tx.2) from ((if_pos c1).trans (if_neg d1)).trans (if_pos d2)]
            exact page_stays_congr hpg rfl
          · rw [show rst = (ESP_OK, tx.2) from
              ((if_pos c1).trans (if_neg d1)).trans (if_neg d2)]
            exact page_stays_congr hpg rfl
      · by_cases c2 : w.imu.config.reset.method = RESET_HW
        · by_cases d1 : g1.1 ≠ ESP_OK
          · rw [show rst = (g1.1, g1.2) from ((if_neg c1).trans (if_pos c2)).trans (if_pos d1)]
            exact Or.inl rfl
          · by_cases d2 : g2.1 ≠ ESP_OK
            · rw [show rst = (g2.1, g2.2) from
                (((if_neg c1).trans (if_pos c2)).trans (if_neg d1)).trans (if_pos d2)]
              exact Or.inl rfl
            · rw [show rst = (ESP_OK, g2.2) from
                (((if_neg c1).trans (if_pos c2)).trans (if_neg d1)).trans (if_neg d2)]
              exact Or.inl rfl
        · rw [show rst = (ESP_ERR_INVALID_ARG, w) from (if_neg c1).trans (if_neg c2)]
          exact page_stays_refl w
    split_ifs at hr with h1 <;> subst hr
    · refine ⟨?_, fun h => absurd h h1⟩
      rcases hrst with h | h
      · exact Or.inl h
      · exact Or.inr (Or.inl h)
    · refine ⟨?_, fun h => get_values_ok_page hal _ h⟩
      rcases get_values_page hal (vTaskDelay rst.2 650) with h | h
      · rcases hrst with h' | h'
        · exact Or.inl (h.trans h')
        · exact Or.inr (Or.inl (h.trans h'))
      · exact Or.inr (Or.inr h)
  exact key _ rfl

/-- On every return of `bno055_start_self_test` the cached page is the one on entry, 0, or
the byte read from `PAGE_ID`; on `ESP_OK` it is the byte read from `PAGE_ID`. -/
theorem start_self_test_page {F : Type} (hal : Hal) (w : World F) :
    ((bno055_start_self_test hal w).2.imu.config.state.page = w.imu.config.state.page
      ∨ (bno055_start_self_test hal w).2.imu.config.state.page = 0
      ∨ ∃ pre, (bno055_start_self_test hal w).2.imu.config.state.page
          = byte (hal.transmit_receive pre PAGE_ID 1).2 0) ∧
    ((bno055_start_self_test hal w).1 = ESP_OK →
      ∃ pre, (bno055_start_self_test hal w).2.imu.config.state.page
        = byte (hal.transmit_receive pre PAGE_ID 1).2 0) := by
  have key : ∀ r, bno055_start_self_test hal w = r →
      (r.2.imu.config.state.page = w.imu.config.state.page
        ∨ r.2.imu.config.state.page = 0
        ∨ ∃ pre, r.2.imu.config.state.page = byte (hal.transmit_receive pre PAGE_ID 1).2 0) ∧
      (r.1 = ESP_OK →
        ∃ pre, r.2.imu.config.state.page = byte (hal.transmit_receive pre PAGE_ID 1).2 0) := by
    intro r hr
    unfold bno055_start_self_test at hr
    lift_lets at hr
    extract_lets pg rd tx w1 st at hr
    have hpg : page_stays w pg.2 := page0_stays hal w
    have hst : page_stays w st.2.2 := page_stays_congr hpg rfl
    have hstay : ∀ r : World F, page_stays w r →
        r.imu.config.state.page = w.imu.config.state.page ∨ r.imu.config.state.page = 0
          ∨ ∃ pre, r.imu.config.state.page = byte (hal.transmit_receive pre PAGE_ID 1).2 0 := by
      intro r hr
      rcases hr with h | h
      · exact Or.inl h
      · exact Or.inr (Or.inl h)
    split_ifs at hr with h1 h2 h3 h4 h5 <;> subst hr
    · exact ⟨hstay _ hpg, fun h => absurd h h1⟩
    · exact ⟨hstay _ (page_stays_congr hpg rfl), fun h => absurd h h2⟩
    · exact ⟨hstay _ (page_stays_congr hpg rfl), fun h => absurd h h3⟩
    · exact ⟨hstay _ hst, fun h => absurd h h4⟩
    · have hne : ESP_ERR_INVALID_STATE ≠ ESP_OK := by decide
      exact ⟨hstay _ hst, fun h => absurd h hne⟩
    · refine ⟨?_, fun h => get_values_ok_page hal _ h⟩
      rcases get_values_page hal st.2.2 with h | h
      · rcases hst with h' | h'
        · exact Or.inl (h.trans h')
        · exact Or.inr (Or.inl (h.trans h'))
      · exact Or.inr (Or.inr h)
  exact key _ rfl

/-! ## C1 -/

/-- C1: for every 16-bit signed integer `n`, splitting it with `i16_to_u8` and recombining
the produced `msb` and `lsb` with `u8_to_i16` gives `n` again. -/
theorem u8_to_i16_of_i16_to_u8 (n : Int) (hlo : -32768 ≤ n) (hhi : n ≤ 32767) :
    u8_to_i16 (i16_to_u8 n).2 (i16_to_u8 n).1 = n := by
  unfold u8_to_i16 i16_to_u8 int16_cast uint16_cast
  simp only []
  rw [shl8_or_eq _ _ (Nat.mod_lt _ (by norm_num)), and_0xFF_eq, Nat.shiftRight_eq_div_pow]
  omega

/-- Witness of C1 at `n = -2` (bytes `0xFE`, `0xFF`). -/
theorem u8_to_i16_of_i16_to_u8_witness :
    i16_to_u8 (-2) = (0xFE, 0xFF) ∧ u8_to_i16 (i16_to_u8 (-2)).2 (i16_to_u8 (-2)).1 = -2 :=
  ⟨by decide, u8_to_i16_of_i16_to_u8 (-2) (by decide) (by decide)⟩

/-! ## C2 -/

/-- C3: `u8_to_f msb lsb scale` is the two's-complement reading of the 16-bit pattern
`(msb << 8) | lsb`, converted to `float` and divided by `scale`; when the page switch (if
needed) and the 6-byte read succeed, `bno055_get_readings` for `ACCELEROMETER` returns
`ESP_OK` and decodes X from bytes 0 (LSB) and 1 (MSB), Y from bytes 2 and 3, Z from bytes 4
and 5 with the cached accelerometer scale; for `LSB = 0xE8`, `MSB = 0x03` the raw value is
1000 and, with scale `100.0` and a division that is exact on small integers with a positive
divisor (`FloatOps.DivExact`), X is `10.0`. -/
theorem u8_to_f_decode {F : Type} [FloatOps F] :
    (∀ (msb lsb : Nat) (scale : F), msb < 256 → lsb < 256 →
      u8_to_f msb lsb scale
        = FloatOps.div (FloatOps.ofInt (twos_complement16 (256 * msb + lsb))) scale) ∧
    (∀ (hal : Hal) (w : World F) (rc : List Nat),
      (w.imu.config.state.page ≠ 0 → hal.transmit w.log [PAGE_ID, 0] = ESP_OK) →
      hal.transmit_receive (log_on_page0 w) ACCELEROMETER 6 = (ESP_OK, rc) →
      (bno055_get_readings hal w ACCELEROMETER).1 = ESP_OK ∧
      (bno055_get_readings hal w ACCELEROMETER).2.imu.raw_acceleration.x
        = FloatOps.div (FloatOps.ofInt (twos_complement16 (256 * byte rc 1 + byte rc 0)))
            w.imu.config.sensor_scale.accelerometer ∧
      (bno055_get_readings hal w ACCELEROMETER).2.imu.raw_acceleration.y
        = FloatOps.div (FloatOps.ofInt (twos_complement16 (256 * byte rc 3 + byte rc 2)))
            w.imu.config.sensor_scale.accelerometer ∧
      (bno055_get_readings hal w ACCELEROMETER).2.imu.raw_acceleration.z
        = FloatOps.div (FloatOps.ofInt (twos_complement16 (256 * byte rc 5 + byte rc 4)))
            w.imu.config.sensor_scale.accelerometer ∧
      (byte rc 0 = 0xE8 → byte rc 1 = 0x03 →
        w.imu.config.sensor_scale.accelerometer = FloatOps.ofInt 100 →
        FloatOps.DivExact F →
        (bno055_get_readings hal w ACCELEROMETER).2.imu.raw_acceleration.x
          = FloatOps.ofInt 10)) ∧
    (u8_to_i16 0x03 0xE8 = 1000 ∧
      (FloatOps.DivExact F →
        u8_to_f 0x03 0xE8 (FloatOps.ofInt 100 : F) = FloatOps.ofInt 10)) := by
  have hex : FloatOps.DivExact F →
      u8_to_f 0x03 0xE8 (FloatOps.ofInt 100 : F) = FloatOps.ofInt 10 := by
    intro hd
    have e : u8_to_i16 0x03 0xE8 = 1000 := by decide
    unfold u8_to_f
    rw [e]
    exact hd 1000 100 10 (by decide) (by decide) (by decide) (by decide)
  have hreg : reg_count_of 8 = some 6 := by decide
  refine ⟨fun msb lsb scale hm hl => ?_, fun hal w rc hpage hread => ?_, by decide, hex⟩
  · unfold u8_to_f
    rw [u8_to_i16_eq msb lsb hm hl]
  · have key : bno055_get_readings hal w ACCELEROMETER
        = (ESP_OK, ⟨process_sensor_data
              (if w.imu.config.state.page ≠ 0 then
                { w.imu with config.state.page := 0 } else w.imu) ACCELEROMETER rc,
            log_on_page0 w ++ [Event.transmit_receive ACCELEROMETER 6]⟩) := by
      by_cases hp : w.imu.config.state.page = 0
      · simp [log_on_page0, hp] at hread
        simp [bno055_get_readings, hreg, hp, hread, i2c_master_transmit_receive, log_on_page0]
      · have hq : hal.transmit w.log [7, 0] = 0 := by simpa using hpage hp
        simp [log_on_page0, hp] at hread
        simp [bno055_get_readings, hreg, bno055_set_page, hp, hq, hread, i2c_master_transmit,
          i2c_master_transmit_receive, log_on_page0]
    have hx : (bno055_get_readings hal w ACCELEROMETER).2.imu.raw_acceleration.x
        = u8_to_f (byte rc 1) (byte rc 0) w.imu.config.sensor_scale.accelerometer := by
      rw [key]
      by_cases hp : w.imu.config.state.page = 0 <;> simp [process_sensor_data, hp]
    have hy : (bno055_get_readings hal w ACCELEROMETER).2.imu.raw_acceleration.y
        = u8_to_f (byte rc 3) (byte rc 2) w.imu.config.sensor_scale.accelerometer := by
      rw [key]
      by_cases hp : w.imu.config.state.page = 0 <;> simp [process_sensor_data, hp]
    have hz : (bno055_get_readings hal w ACCELEROMETER).2.imu.raw_acceleration.z
        = u8_to_f (byte rc 5) (byte rc 4) w.imu.config.sensor_scale.accelerometer := by
      rw [key]
      by_cases hp : w.imu.config.state.page = 0 <;> simp [process_sensor_data, hp]
    refine ⟨by rw [key], ?_, ?_, ?_, ?_⟩
    · rw [hx]; unfold u8_to_f; rw [u8_to_i16_eq _ _ (byte_lt rc 1) (byte_lt rc 0)]
    · rw [hy]; unfold u8_to_f; rw [u8_to_i16_eq _ _ (byte_lt rc 3) (byte_lt rc 2)]
    · rw [hz]; unfold u8_to_f; rw [u8_to_i16_eq _ _ (byte_lt rc 5) (byte_lt rc 4)]
    · intro h0 h1 hs hd
      rw [hx, h0, h1, hs]
      exact hex hd

/-- Witness of C3: over exact arithmetic, from page 1, the response
`E8 03 18 FC 00 00` with scale `100.0` gives X = `10.0`; in the model with two zeros the
bytes `E8 03` with scale `100.0` decode to `10.0` as well. -/
theorem u8_to_f_decode_witness :
    ((bno055_get_readings (okHal [0xE8, 0x03, 0x18, 0xFC, 0x00, 0x00]) (accel_world 1)
        ACCELEROMETER).1 = ESP_OK ∧
     (bno055_get_readings (okHal [0xE8, 0x03, 0x18, 0xFC, 0x00, 0x00]) (accel_world 1)
        ACCELEROMETER).2.imu.raw_acceleration.x = (10 : ℚ)) ∧
    u8_to_f 0x03 0xE8 (FloatOps.ofInt 100 : ℚ × Bool) = FloatOps.ofInt 10 := by
  have h := (u8_to_f_decode (F := ℚ)).2.1 (okHal [0xE8, 0x03, 0x18, 0xFC, 0x00, 0x00])
    (accel_world 1) [0xE8, 0x03, 0x18, 0xFC, 0x00, 0x00] (fun _ => rfl) rfl
  refine ⟨⟨h.1, ?_⟩, (u8_to_f_decode (F := ℚ × Bool)).2.2.2 divExact_signedZero.1⟩
  have hx := h.2.2.2.2 (by decide) (by decide)
    (by simp [accel_world, FloatOps.ofInt, FloatOps.ofRat]) divExact_rat
  rw [hx]
  simp [FloatOps.ofInt, FloatOps.ofRat]

/-! ## C4 -/

/-- C4: when the page switch (if one is needed) and the read of `CALIB_STAT` succeed and the
read returns the byte `b`, `bno055_get_calibration_status` returns `ESP_OK` and stores
`sys` = bits 7..6 of `b`, `gyro` = bits 5..4, `xl` = bits 3..2, `mag` = bits 1..0, and
`is_calibrated` is true exactly when the four fields are all 3, that is exactly when
`b = 0xFF`; each field is at most 3. -/
theorem get_calibration_status_decode {F : Type} (hal : Hal) (w : World F) (rc : List Nat)
    (hpage : w.imu.config.state.page ≠ 0 → hal.transmit w.log [PAGE_ID, 0] = ESP_OK)
    (hread : hal.transmit_receive (log_on_page0 w) CALIB_STAT 1 = (ESP_OK, rc)) :
    (bno055_get_calibration_status hal w).1 = ESP_OK ∧
    (bno055_get_calibration_status hal w).2.imu.config.calibration.sys = byte rc 0 / 64 ∧
    (bno055_get_calibration_status hal w).2.imu.config.calibration.gyro
      = byte rc 0 / 16 % 4 ∧
    (bno055_get_calibration_status hal w).2.imu.config.calibration.xl = byte rc 0 / 4 % 4 ∧
    (bno055_get_calibration_status hal w).2.imu.config.calibration.mag = byte rc 0 % 4 ∧
    ((bno055_get_calibration_status hal w).2.imu.config.is_calibrated = true ↔
      ((bno055_get_calibration_status hal w).2.imu.config.calibration.sys = 3 ∧
       (bno055_get_calibration_status hal w).2.imu.config.calibration.gyro = 3 ∧
       (bno055_get_calibration_status hal w).2.imu.config.calibration.xl = 3 ∧
       (bno055_get_calibration_status hal w).2.imu.config.calibration.mag = 3)) ∧
    ((bno055_get_calibration_status hal w).2.imu.config.is_calibrated = true ↔
      byte rc 0 = 0xFF) ∧
    ((bno055_get_calibration_status hal w).2.imu.config.calibration.sys ≤ 3 ∧
     (bno055_get_calibration_status hal w).2.imu.config.calibration.gyro ≤ 3 ∧
     (bno055_get_calibration_status hal w).2.imu.config.calibration.xl ≤ 3 ∧
     (bno055_get_calibration_status hal w).2.imu.config.calibration.mag ≤ 3) := by
  obtain ⟨e1, e2, e3, e4⟩ := calib_bits (byte rc 0) (byte_lt rc 0)
  have hb := byte_lt rc 0
  by_cases hp : w.imu.config.state.page = 0
  · simp [log_on_page0, hp] at hread
    simp [bno055_get_calibration_status, hp, i2c_master_transmit_receive, hread,
      Nat.shiftRight_eq_div_pow]
    omega
  · have hq : hal.transmit w.log [7, 0] = 0 := by simpa using hpage hp
    simp [log_on_page0, hp] at hread
    simp [bno055_get_calibration_status, bno055_set_page, hp, hq, i2c_master_transmit,
      i2c_master_transmit_receive, hread, Nat.shiftRight_eq_div_pow]
    omega

/-- Witness of C4: for the byte `0xFF` all four fields are 3 and `is_calibrated` is true; for
the byte `0x00` all four fields are 0 and `is_calibrated` is false. -/
theorem get_calibration_status_decode_witness :
    ((bno055_get_calibration_status (okHal [0xFF]) (sample_world NDOF_MODE 1)).1 = ESP_OK ∧
     (bno055_get_calibration_status (okHal [0xFF])
        (sample_world NDOF_MODE 1)).2.imu.config.calibration = ⟨3, 3, 3, 3⟩ ∧
     (bno055_get_calibration_status (okHal [0xFF])
        (sample_world NDOF_MODE 1)).2.imu.config.is_calibrated = true) ∧
    ((bno055_get_calibration_status (okHal [0x00]) (sample_world NDOF_MODE 1)).1 = ESP_OK ∧
     (bno055_get_calibration_status (okHal [0x00])
        (sample_world NDOF_MODE 1)).2.imu.config.calibration = ⟨0, 0, 0, 0⟩ ∧
     (bno055_get_calibration_status (okHal [0x00])
        (sample_world NDOF_MODE 1)).2.imu.config.is_calibrated = false) :=
  ⟨⟨(get_calibration_status_decode (okHal [0xFF]) (sample_world NDOF_MODE 1) [0xFF]
        (fun _ => rfl) rfl).1,
    by decide,
    (get_calibration_status_decode (okHal [0xFF]) (sample_world NDOF_MODE 1) [0xFF]
        (fun _ => rfl) rfl).2.2.2.2.2.2.1.mpr (by decide)⟩,
   ⟨(get_calibration_status_decode (okHal [0x00]) (sample_world NDOF_MODE 1) [0x00]
        (fun _ => rfl) rfl).1,
    by decide,
    by decide⟩⟩

/-! ## C5 -/

/-- C5: when the target equals the cached mode and that mode is one of the 13 operation
modes, `bno055_set_operation_mode` returns `ESP_OK` and leaves the world (device record
and request log, hence no bus transaction and no delay) unchanged. -/
theorem set_operation_mode_same_mode {F : Type} (hal : Hal) (w : World F)
    (hmode : w.imu.config.state.mode ≤ NDOF_MODE) :
    bno055_set_operation_mode hal w w.imu.config.state.mode = (ESP_OK, w) := by
  have h : ¬ (w.imu.config.state.mode > 12) := by simpa using hmode
  simp [bno055_set_operation_mode, h]

/-- Witness of C5: cached mode `NDOF_MODE` on page 1, on a bus that would fail. -/
theorem set_operation_mode_same_mode_witness :
    (sample_world NDOF_MODE 1).imu.config.state.mode ≤ NDOF_MODE ∧
    bno055_set_operation_mode (failingHal (-1)) (sample_world NDOF_MODE 1) NDOF_MODE
      = (ESP_OK, sample_world NDOF_MODE 1) :=
  ⟨by decide, set_operation_mode_same_mode (failingHal (-1)) (sample_world NDOF_MODE 1)
    (by decide)⟩

/-! ## C6 -/

/-- C6: when the cached mode is not `CONFIG_MODE`, `bno055_set_external_crystal_use` returns
`ESP_ERR_INVALID_STATE` for either requested setting and leaves the world (device record,
including `external_crystal`, and request log) unchanged. -/
theorem set_external_crystal_use_not_config {F : Type} (hal : Hal) (w : World F) (state : Bool)
    (hmode : w.imu.config.state.mode ≠ CONFIG_MODE) :
    bno055_set_external_crystal_use hal w state = (ESP_ERR_INVALID_STATE, w) := by
  have h : ¬ (w.imu.config.state.mode = 0) := by simpa using hmode
  simp [bno055_set_external_crystal_use, h]

/-- Witness of C6: cached mode `NDOF_MODE`, request to enable the crystal. -/
theorem set_external_crystal_use_not_config_witness :
    (sample_world NDOF_MODE 0).imu.config.state.mode ≠ CONFIG_MODE ∧
    bno055_set_external_crystal_use (okHal []) (sample_world NDOF_MODE 0) true
      = (ESP_ERR_INVALID_STATE, sample_world NDOF_MODE 0) :=
  ⟨by decide, set_external_crystal_use_not_config (okHal []) (sample_world NDOF_MODE 0) true
    (by decide)⟩

/-! ## C7 -/

/-- C7: when some axis code is not one of the six legal codes, or two of the three axes carry
the same code, `bno055_remap_axis` returns `ESP_ERR_INVALID_ARG` and leaves the world
(device record and request log) unchanged. -/
theorem remap_axis_rejects {F : Type} (hal : Hal) (w : World F) (axes_config : bno055_axes_t)
    (hbad : (¬ legal_axis axes_config.x ∨ ¬ legal_axis axes_config.y
        ∨ ¬ legal_axis axes_config.z)
      ∨ (axes_config.x = axes_config.y ∨ axes_config.x = axes_config.z
        ∨ axes_config.y = axes_config.z)) :
    bno055_remap_axis hal w axes_config = (ESP_ERR_INVALID_ARG, w) := by
  unfold bno055_remap_axis
  simp only [legal_axis, POSITIVE_X, POSITIVE_Y, POSITIVE_Z, NEGATIVE_X, NEGATIVE_Y,
    NEGATIVE_Z] at hbad
  by_cases h1 : (axes_config.x < 0x00 ∨ axes_config.x > 0x06 ∨ axes_config.x = 0x03)
      ∨ (axes_config.y < 0x00 ∨ axes_config.y > 0x06 ∨ axes_config.y = 0x03)
      ∨ (axes_config.z < 0x00 ∨ axes_config.z > 0x06 ∨ axes_config.z = 0x03)
  · rw [if_pos h1]
  · have h2 : axes_config.x = axes_config.y ∨ axes_config.x = axes_config.z
        ∨ axes_config.y = axes_config.z := by omega
    rw [if_neg h1, if_pos h2]

/-- Witness of C7: the configuration `(POSITIVE_X, POSITIVE_X, POSITIVE_Z)`. -/
theorem remap_axis_rejects_witness :
    bno055_remap_axis (okHal []) (sample_world NDOF_MODE 1)
        ⟨POSITIVE_X, POSITIVE_X, POSITIVE_Z⟩
      = (ESP_ERR_INVALID_ARG, sample_world NDOF_MODE 1) :=
  remap_axis_rejects (okHal []) (sample_world NDOF_MODE 1) ⟨POSITIVE_X, POSITIVE_X, POSITIVE_Z⟩
    (Or.inr (Or.inl rfl))

/-! ## C8 -/

/-- C8 (the code departs from the claim): the configuration
`(POSITIVE_X, NEGATIVE_X, POSITIVE_Z)` names the physical X axis twice, yet
`bno055_remap_axis` accepts it: in `CONFIG_MODE` on page 0, with every request succeeding,
it writes `[AXIS_MAP_CONFIG, 0x20]` and `[AXIS_MAP_SIGN, 0x01]` and returns `ESP_OK`. -/
theorem remap_axis_accepts_same_physical_axis :
    bno055_remap_axis (okHal []) (sample_world CONFIG_MODE 0)
        ⟨POSITIVE_X, NEGATIVE_X, POSITIVE_Z⟩
      = (ESP_OK, { sample_world CONFIG_MODE 0 with
          log := [Event.transmit [AXIS_MAP_CONFIG, 0x20], Event.delay 10,
                  Event.transmit [AXIS_MAP_SIGN, 0x01], Event.delay 10, Event.delay 20] }) := by
  decide

/-! ## C9 -/

/-- C9: `bno055_set_page` rejects a page above 1 with `ESP_ERR_INVALID_ARG` and an unchanged
world; for page 0 or 1 it issues exactly one request, the 2-byte write `[0x07, page]`,
whatever the cached page is; if that write succeeds it returns `ESP_OK` and the only change
of the device record is `state.page = page`; if the write fails it returns the status of the
write and the device record is unchanged. -/
theorem set_page_contract {F : Type} (hal : Hal) (w : World F) (page : Nat) :
    (1 < page → bno055_set_page hal w page = (ESP_ERR_INVALID_ARG, w)) ∧
    (page ≤ 1 →
      (bno055_set_page hal w page).2.log = w.log ++ [Event.transmit [0x07, page]] ∧
      (hal.transmit w.log [0x07, page] = ESP_OK →
        (bno055_set_page hal w page).1 = ESP_OK ∧
        (bno055_set_page hal w page).2.imu = { w.imu with config.state.page := page }) ∧
      (hal.transmit w.log [0x07, page] ≠ ESP_OK →
        (bno055_set_page hal w page).1 = hal.transmit w.log [0x07, page] ∧
        (bno055_set_page hal w page).2.imu = w.imu)) := by
  refine ⟨fun h => ?_, fun h => ?_⟩
  · simp [bno055_set_page, h]
  · have h1 : ¬ (1 < page) := by omega
    by_cases hok : hal.transmit w.log [7, page] = 0
    · simp [bno055_set_page, i2c_master_transmit, h1, hok]
    · simp [bno055_set_page, i2c_master_transmit, h1, hok]

/-- Witness of C9: page 2 is rejected; page 1 is written although page 1 is already cached;
a failing write of page 0 returns its status and keeps the cached page 1. -/
theorem set_page_contract_witness :
    bno055_set_page (okHal []) (sample_world 0 1) 2
      = (ESP_ERR_INVALID_ARG, sample_world 0 1) ∧
    ((bno055_set_page (okHal []) (sample_world 0 1) 1).2.log = [Event.transmit [0x07, 1]] ∧
     (bno055_set_page (okHal []) (sample_world 0 1) 1).1 = ESP_OK) ∧
    ((bno055_set_page (failingHal (-1)) (sample_world 0 1) 0).1 = -1 ∧
     (bno055_set_page (failingHal (-1)) (sample_world 0 1) 0).2.imu.config.state.page = 1) :=
  ⟨(set_page_contract (okHal []) (sample_world 0 1) 2).1 (by decide),
   ⟨((set_page_contract (okHal []) (sample_world 0 1) 1).2 (by decide)).1,
    (((set_page_contract (okHal []) (sample_world 0 1) 1).2 (by decide)).2.1 rfl).1⟩,
   ⟨(((set_page_contract (failingHal (-1)) (sample_world 0 1) 0).2 (by decide)).2.2
      (by decide)).1,
    congrArg (fun i => i.config.state.page)
      (((set_page_contract (failingHal (-1)) (sample_world 0 1) 0).2 (by decide)).2.2
        (by decide)).2⟩⟩

/-! ## C10 -/

/-- C10: when `bno055_set_operation_mode` returns an error, the cached mode is the one on
entry, and either the target is above 12, the status is `ESP_ERR_INVALID_ARG` and the world
is unchanged, or the target is in range, every request before the last one was answered
`ESP_OK`, and the last request in the log is a bus transaction (the page write, the
`OPR_MODE` read or the `OPR_MODE` write-back) whose status, as answered by the platform, is
the returned code: nothing is requested after the failing transaction. -/
theorem set_operation_mode_error {F : Type} (hal : Hal) (w : World F) (target : Nat)
    (herr : (bno055_set_operation_mode hal w target).1 ≠ ESP_OK) :
    (bno055_set_operation_mode hal w target).2.imu.config.state.mode
        = w.imu.config.state.mode ∧
    ((12 < target ∧ bno055_set_operation_mode hal w target = (ESP_ERR_INVALID_ARG, w)) ∨
     (target ≤ 12 ∧ ∃ mid e,
        (bno055_set_operation_mode hal w target).2.log = (w.log ++ mid) ++ [e] ∧
        hal.accepts w.log mid = true ∧
        e.isBus = true ∧
        hal.status (w.log ++ mid) e = (bno055_set_operation_mode hal w target).1 ∧
        (e = Event.transmit [PAGE_ID, 0] ∨ e = Event.transmit_receive OPR_MODE 1
          ∨ ∃ c, e = Event.transmit [OPR_MODE, c]))) := by
  by_cases ht : 12 < target
  · simp [bno055_set_operation_mode, ht]
  · by_cases hm : w.imu.config.state.mode = target
    · simp [bno055_set_operation_mode, ht, hm] at herr
    · by_cases hp : w.imu.config.state.page = 0
      · by_cases hr : (hal.transmit_receive w.log 61 1).1 = 0
        · by_cases hw : hal.transmit (w.log ++ [Event.transmit_receive 61 1])
              [61, ((byte (hal.transmit_receive w.log 61 1).2 0 &&& 240) ||| target) % 256] = 0
          · simp [bno055_set_operation_mode, ht, hm, hp, hr, hw, i2c_master_transmit,
              i2c_master_transmit_receive, vTaskDelay] at herr
          · refine ⟨?_, Or.inr ⟨by omega, [Event.transmit_receive 61 1], Event.transmit [61,
              ((byte (hal.transmit_receive w.log 61 1).2 0 &&& 240) ||| target) % 256], ?_⟩⟩ <;>
            simp [bno055_set_operation_mode, ht, hm, hp, hr, hw, i2c_master_transmit,
              i2c_master_transmit_receive, vTaskDelay, Hal.status, Hal.accepts, Event.isBus]
        · refine ⟨?_, Or.inr ⟨by omega, [], Event.transmit_receive 61 1, ?_⟩⟩ <;>
          simp [bno055_set_operation_mode, ht, hm, hp, hr, i2c_master_transmit,
              i2c_master_transmit_receive, vTaskDelay, Hal.status, Hal.accepts, Event.isBus]
      · by_cases hq : hal.transmit w.log [7, 0] = 0
        · by_cases hr : (hal.transmit_receive (w.log ++ [Event.transmit [7, 0]]) 61 1).1 = 0
          · by_cases hw : hal.transmit
                (w.log ++ [Event.transmit [7, 0], Event.transmit_receive 61 1])
                [61, ((byte (hal.transmit_receive (w.log ++ [Event.transmit [7, 0]]) 61 1).2 0
                  &&& 240) ||| target) % 256] = 0
            · simp [bno055_set_operation_mode, bno055_set_page, ht, hm, hp, hq, hr, hw,
                i2c_master_transmit, i2c_master_transmit_receive, vTaskDelay] at herr
            · refine ⟨?_, Or.inr ⟨by omega,
                [Event.transmit [7, 0], Event.transmit_receive 61 1], Event.transmit [61,
                ((byte (hal.transmit_receive (w.log ++ [Event.transmit [7, 0]]) 61 1).2 0
                  &&& 240) ||| target) % 256], ?_⟩⟩ <;>
              simp [bno055_set_operation_mode, bno055_set_page, ht, hm, hp, hq, hr, hw,
                i2c_master_transmit, i2c_master_transmit_receive, vTaskDelay, Hal.status,
                Hal.accepts, Event.isBus]
          · refine ⟨?_, Or.inr ⟨by omega, [Event.transmit [7, 0]],
              Event.transmit_receive 61 1, ?_⟩⟩ <;>
            simp [bno055_set_operation_mode, bno055_set_page, ht, hm, hp, hq, hr,
              i2c_master_transmit, i2c_master_transmit_receive, vTaskDelay, Hal.status,
              Hal.accepts, Event.isBus]
        · refine ⟨?_, Or.inr ⟨by omega, [], Event.transmit [7, 0], ?_⟩⟩ <;>
          simp [bno055_set_operation_mode, bno055_set_page, ht, hm, hp, hq,
            i2c_master_transmit, i2c_master_transmit_receive, vTaskDelay, Hal.status,
            Hal.accepts, Event.isBus]

/-- Witness of C10: from page 1 the page write fails with status `-1`. -/
theorem set_operation_mode_error_witness :
    (bno055_set_operation_mode (failingHal (-1)) (sample_world NDOF_MODE 1) CONFIG_MODE).1
        ≠ ESP_OK ∧
    (bno055_set_operation_mode (failingHal (-1)) (sample_world NDOF_MODE 1)
        CONFIG_MODE).2.imu.config.state.mode = NDOF_MODE :=
  ⟨by decide,
   (set_operation_mode_error (failingHal (-1)) (sample_world NDOF_MODE 1) CONFIG_MODE
      (by decide)).1⟩

/-! ## C11 -/

/-- C11: for a units byte `u` with no bits outside `0x97`, after a successful
`bno055_set_units` the cached units equal `u` and the six scale factors are those of the
fixed table `scale_table u`; a units byte with a bit outside `0x97` is rejected with
`ESP_ERR_INVALID_ARG` and the world (device record and request log) is unchanged. -/
theorem set_units_scale_table {F : Type} [FloatOps F] (hal : Hal) (w : World F) (u : Nat) :
    (valid_units u → (bno055_set_units hal w u).1 = ESP_OK →
      (bno055_set_units hal w u).2.imu.config.state.units = u ∧
      (bno055_set_units hal w u).2.imu.config.sensor_scale = scale_table u) ∧
    (u < 256 → ¬ valid_units u → bno055_set_units hal w u = (ESP_ERR_INVALID_ARG, w)) := by
  refine ⟨fun hv h => ?_, fun hu hv => ?_⟩
  · have key : ∀ r, bno055_set_units hal w u = r → r.1 = ESP_OK →
        r.2.imu.config.state.units = u ∧ r.2.imu.config.sensor_scale = scale_table u := by
      intro r hr h
      unfold bno055_set_units at hr
      lift_lets at hr
      extract_lets temp_mode md pg rd rc tx un s0 s1 s2 w1 s3 s4 s5 w2 rs at hr
      split_ifs at hr with h1 h2 h3 h4 h5 <;> subst hr
      · simp at h
      · exact absurd h h2
      · exact absurd h h3
      · exact absurd h h4
      · exact absurd h h5
      · have e := set_operation_mode_frame hal w2 temp_mode
        constructor
        · show rs.2.imu.config.state.units = u
          rw [show rs.2.imu = _ from e]
        · show rs.2.imu.config.sensor_scale = _
          rw [show rs.2.imu = _ from e]
          exact set_scaling_factors_eq _ u hv.1
    exact key _ rfl h
  · have h68 : u &&& 0x68 ≠ 0 := fun h0 => hv ⟨hu, ((units_bits u hu).1).mpr h0⟩
    unfold bno055_set_units
    rw [if_pos h68]

/-- Witness of C11: from `NDOF_MODE` on page 1 with every request succeeding, the units byte
`0x03` (mg, rad/s) is accepted and stored with its table; the byte `0x08` is rejected. -/
theorem set_units_scale_table_witness :
    (valid_units 0x03 ∧
     (bno055_set_units (okHal [0x00]) (sample_world NDOF_MODE 1) 0x03).1 = ESP_OK) ∧
    ((bno055_set_units (okHal [0x00]) (sample_world NDOF_MODE 1) 0x03).2.imu.config.state.units
        = 0x03 ∧
     (bno055_set_units (okHal [0x00]) (sample_world NDOF_MODE 1) 0x03).2.imu.config.sensor_scale
        = scale_table 0x03) ∧
    bno055_set_units (okHal [0x00]) (sample_world NDOF_MODE 1) 0x08
      = (ESP_ERR_INVALID_ARG, sample_world NDOF_MODE 1) :=
  ⟨⟨by decide, by decide⟩,
   (set_units_scale_table (okHal [0x00]) (sample_world NDOF_MODE 1) 0x03).1 (by decide)
     (by decide),
   (set_units_scale_table (okHal [0x00]) (sample_world NDOF_MODE 1) 0x08).2 (by decide)
     (by decide)⟩

/-! ## C12 -/

/-- C12 (the code departs from the claim): a software reset from a record whose scale factors
match its cached units `0x01` (mg), on a chip that reports `UNIT_SEL = 0x80`, returns
`ESP_OK` with cached units `0x80` and the accelerometer scale still `1.0`, where the table
for `0x80` has `100.0`: the units changed and the scale factors were not recomputed. -/
theorem reset_chip_stale_scale :
    coupled_world.imu.config.sensor_scale
      = scale_table coupled_world.imu.config.state.units ∧
    (bno055_reset_chip (registerHal (register_file 0x00 0x00 0x00 0x80 0x0F))
      coupled_world).1 = ESP_OK ∧
    (bno055_reset_chip (registerHal (register_file 0x00 0x00 0x00 0x80 0x0F))
      coupled_world).2.imu.config.state.units = 0x80 ∧
    (bno055_reset_chip (registerHal (register_file 0x00 0x00 0x00 0x80 0x0F))
      coupled_world).2.imu.config.sensor_scale.accelerometer = 1 ∧
    (scale_table 0x80 : scale_t ℚ).accelerometer = 100 ∧
    (bno055_reset_chip (registerHal (register_file 0x00 0x00 0x00 0x80 0x0F))
      coupled_world).2.imu.config.sensor_scale
      ≠ scale_table (bno055_reset_chip (registerHal (register_file 0x00 0x00 0x00 0x80 0x0F))
          coupled_world).2.imu.config.state.units := by
  have hu : (bno055_reset_chip (registerHal (register_file 0x00 0x00 0x00 0x80 0x0F))
      coupled_world).2.imu.config.state.units = 0x80 := by decide
  have hs : (bno055_reset_chip (registerHal (register_file 0x00 0x00 0x00 0x80 0x0F))
      coupled_world).2.imu.config.sensor_scale = scale_table ACC_MG := by rfl
  have h1 : (scale_table ACC_MG : scale_t ℚ).accelerometer = 1 := by
    simp [scale_table, FloatOps.ofRat]
  have h100 : (scale_table 0x80 : scale_t ℚ).accelerometer = 100 := by
    simp [scale_table, FloatOps.ofRat]
  refine ⟨rfl, by decide, hu, by rw [hs, h1], h100, fun h => ?_⟩
  rw [hu, hs] at h
  have := congrArg scale_t.accelerometer h
  rw [h1, h100] at this
  norm_num at this

/-! ## C13 -/

/-- C13: whenever `bno055_set_units`, `bno055_get_offsets`, `bno055_set_offsets` or
`bno055_remap_axis` returns `ESP_OK`, the cached mode on return is the cached mode on
entry, for every platform, device record and argument. -/
theorem scoped_config_restores_mode {F : Type} [FloatOps F] (hal : Hal) (w : World F) :
    (∀ u, (bno055_set_units hal w u).1 = ESP_OK →
      (bno055_set_units hal w u).2.imu.config.state.mode = w.imu.config.state.mode) ∧
    ((bno055_get_offsets hal w).1 = ESP_OK →
      (bno055_get_offsets hal w).2.imu.config.state.mode = w.imu.config.state.mode) ∧
    ((bno055_set_offsets hal w).1 = ESP_OK →
      (bno055_set_offsets hal w).2.imu.config.state.mode = w.imu.config.state.mode) ∧
    (∀ axes_config, (bno055_remap_axis hal w axes_config).1 = ESP_OK →
      (bno055_remap_axis hal w axes_config).2.imu.config.state.mode
        = w.imu.config.state.mode) :=
  ⟨fun u h => set_units_ok_mode hal w u h, get_offsets_ok_mode hal w,
   set_offsets_ok_mode hal w, fun a h => remap_axis_ok_mode hal w a h⟩

/-- Witness of C13: from `NDOF_MODE` on page 1 with every request succeeding, each of the four
operations returns `ESP_OK` and the cached mode is `NDOF_MODE` again. -/
theorem scoped_config_restores_mode_witness :
    ((bno055_set_units (okHal [0x00]) (sample_world NDOF_MODE 1) 0x03).1 = ESP_OK ∧
     (bno055_set_units (okHal [0x00]) (sample_world NDOF_MODE 1) 0x03).2.imu.config.state.mode
       = NDOF_MODE) ∧
    ((bno055_get_offsets (okHal [0x00]) (sample_world NDOF_MODE 1)).1 = ESP_OK ∧
     (bno055_get_offsets (okHal [0x00]) (sample_world NDOF_MODE 1)).2.imu.config.state.mode
       = NDOF_MODE) ∧
    ((bno055_set_offsets (okHal [0x00]) (sample_world NDOF_MODE 1)).1 = ESP_OK ∧
     (bno055_set_offsets (okHal [0x00]) (sample_world NDOF_MODE 1)).2.imu.config.state.mode
       = NDOF_MODE) ∧
    ((bno055_remap_axis (okHal [0x00]) (sample_world NDOF_MODE 1)
        ⟨POSITIVE_Y, POSITIVE_X, NEGATIVE_Z⟩).1 = ESP_OK ∧
     (bno055_remap_axis (okHal [0x00]) (sample_world NDOF_MODE 1)
        ⟨POSITIVE_Y, POSITIVE_X, NEGATIVE_Z⟩).2.imu.config.state.mode = NDOF_MODE) :=
  ⟨⟨by decide,
    (scoped_config_restores_mode (okHal [0x00]) (sample_world NDOF_MODE 1)).1 0x03
      (by decide)⟩,
   ⟨by decide,
    (scoped_config_restores_mode (okHal [0x00]) (sample_world NDOF_MODE 1)).2.1 (by decide)⟩,
   ⟨by decide,
    (scoped_config_restores_mode (okHal [0x00]) (sample_world NDOF_MODE 1)).2.2.1
      (by decide)⟩,
   ⟨by decide,
    (scoped_config_restores_mode (okHal [0x00]) (sample_world NDOF_MODE 1)).2.2.2
      ⟨POSITIVE_Y, POSITIVE_X, NEGATIVE_Z⟩ (by decide)⟩⟩

/-! ## C14 -/

/-- C14: from `CONFIG_MODE` on page 0, for a mode `m ≤ 12` and a units byte `u` with no bits
outside `0x97`, when every bus transaction succeeds `bno055_configure` returns `ESP_OK`, its
request log is exactly `configure_log` (the `SYS_TRIGGER` read-modify-write and 650 ms delay
unless the crystal is cached as set, then the `UNIT_SEL` read-modify-write unless `u` is
cached, then the `OPR_MODE` read-modify-write and 30 ms delay unless `m` is `CONFIG_MODE`),
and the cached mode, units and crystal flag are `m`, `u` and true; a mode above 12 or a
units byte with a bit outside `0x97` is rejected with `ESP_ERR_INVALID_ARG` and the world
unchanged. -/
theorem configure_sequence {F : Type} [FloatOps F] (hal : Hal) (w : World F) (m u : Nat) :
    (w.imu.config.state.mode = CONFIG_MODE → w.imu.config.state.page = 0 →
      m ≤ NDOF_MODE → valid_units u →
      (∀ pre buf, hal.transmit pre buf = ESP_OK) →
      (∀ pre reg n, (hal.transmit_receive pre reg n).1 = ESP_OK) →
      (bno055_configure hal w m u).1 = ESP_OK ∧
      (bno055_configure hal w m u).2.log = configure_log hal w m u ∧
      (bno055_configure hal w m u).2.imu.config.state.mode = m ∧
      (bno055_configure hal w m u).2.imu.config.state.units = u ∧
      (bno055_configure hal w m u).2.imu.config.state.external_crystal = true) ∧
    (NDOF_MODE < m ∨ (u < 256 ∧ ¬ valid_units u) →
      bno055_configure hal w m u = (ESP_ERR_INVALID_ARG, w)) := by
  refine ⟨fun hmode hpage hm hu hT hR => ?_, fun hbad => ?_⟩
  · have hm' : ¬ 12 < m := by simpa using hm
    have h68 : u &&& 104 = 0 := ((units_bits u hu.1).1).mp hu.2
    simp only [CONFIG_MODE] at hmode
    simp only [ESP_OK] at hT hR
    have hsym : (0 = m) = (m = 0) := propext eq_comm
    rcases hx : w.imu.config.state.external_crystal with _ | _ <;>
    by_cases hun : w.imu.config.state.units = u <;>
    by_cases hm0 : m = 0 <;>
    simp [bno055_configure, bno055_set_operation_mode, bno055_set_external_crystal_use,
      bno055_set_units, i2c_master_transmit, i2c_master_transmit_receive, vTaskDelay,
      configure_log, rmw_events, hmode, hpage, hm', h68, hT, hR, hx, hun, hsym, hm0]
  · have hcond : (m < 0 ∨ m > 12) ∨ u &&& 104 ≠ 0 := by
      rcases hbad with h | ⟨hu, hv⟩
      · exact Or.inl (Or.inr (by simpa using h))
      · exact Or.inr (fun h0 => hv ⟨hu, ((units_bits u hu).1).mpr h0⟩)
    unfold bno055_configure
    rcases hcond with h | h
    · rw [if_pos h]
    · by_cases h1 : m < 0 ∨ m > 12
      · rw [if_pos h1]
      · rw [if_neg h1, if_pos h]

/-- Witness of C14: `bno055_configure(NDOF_MODE, 0x03)` from the zero-initialised record, with
every request succeeding and every read returning `0x00`; mode 13 is rejected. -/
theorem configure_sequence_witness :
    (bno055_configure (okHal [0x00]) (sample_world CONFIG_MODE 0) NDOF_MODE 0x03).1 = ESP_OK ∧
    (bno055_configure (okHal [0x00]) (sample_world CONFIG_MODE 0) NDOF_MODE 0x03).2.log
      = [Event.transmit_receive SYS_TRIGGER 1, Event.transmit [SYS_TRIGGER, 0x80],
         Event.delay 650,
         Event.transmit_receive UNIT_SEL 1, Event.transmit [UNIT_SEL, 0x03],
         Event.transmit_receive OPR_MODE 1, Event.transmit [OPR_MODE, 0x0C],
         Event.delay 30] ∧
    (bno055_configure (okHal [0x00]) (sample_world CONFIG_MODE 0) NDOF_MODE
      0x03).2.imu.config.state = ⟨NDOF_MODE, 0x03, 0, true⟩ ∧
    bno055_configure (okHal [0x00]) (sample_world CONFIG_MODE 0) 13 0x03
      = (ESP_ERR_INVALID_ARG, sample_world CONFIG_MODE 0) :=
  ⟨((configure_sequence (okHal [0x00]) (sample_world CONFIG_MODE 0) NDOF_MODE 0x03).1 rfl rfl
      (by decide) (by decide) (fun _ _ => rfl) (fun _ _ _ => rfl)).1,
   ((configure_sequence (okHal [0x00]) (sample_world CONFIG_MODE 0) NDOF_MODE 0x03).1 rfl rfl
      (by decide) (by decide) (fun _ _ => rfl) (fun _ _ _ => rfl)).2.1,
   by decide,
   (configure_sequence (okHal [0x00]) (sample_world CONFIG_MODE 0) 13 0x03).2
     (Or.inl (by decide))⟩

/-! ## C15 -/

/-- C15: with a valid reset method, a successful page-0 write and a chip-ID read that returns
a byte other than `0xA0`, `bno055_initialize` returns `ESP_ERR_INVALID_MAC`, its log ends
with the chip-ID read, and the device record differs from the one on entry only in the
cached page (so mode, units, crystal flag and scale factors are as on entry); with a reset
method that is neither `RESET_SW` nor `RESET_HW` it returns `ESP_ERR_INVALID_ARG` and the
world is unchanged. -/
theorem initialize_chip_id_mismatch {F : Type} [FloatOps F] (hal : Hal) (w : World F) :
    (∀ rc : List Nat,
      (w.imu.config.reset.method = RESET_SW ∨ w.imu.config.reset.method = RESET_HW) →
      hal.transmit w.log [PAGE_ID, 0] = ESP_OK →
      hal.transmit_receive (w.log ++ [Event.transmit [PAGE_ID, 0]]) CHIP_ID 1 = (ESP_OK, rc) →
      byte rc 0 ≠ 0xA0 →
      ( bno055_initialize hal w).1 = ESP_ERR_INVALID_MAC ∧
      ( bno055_initialize hal w).2.log
        = w.log ++ [Event.transmit [PAGE_ID, 0], Event.transmit_receive CHIP_ID 1] ∧
      ( bno055_initialize hal w).2.imu = { w.imu with config.state.page := 0 } ∧
      ( bno055_initialize hal w).2.imu.config.state.mode = w.imu.config.state.mode ∧
      ( bno055_initialize hal w).2.imu.config.state.units = w.imu.config.state.units ∧
      ( bno055_initialize hal w).2.imu.config.state.external_crystal
        = w.imu.config.state.external_crystal ∧
      ( bno055_initialize hal w).2.imu.config.sensor_scale = w.imu.config.sensor_scale) ∧
    (w.imu.config.reset.method ≠ RESET_SW → w.imu.config.reset.method ≠ RESET_HW →
      bno055_initialize hal w = (ESP_ERR_INVALID_ARG, w)) := by
  refine ⟨fun rc hmeth hq hread hc => ?_, fun h1 h2 => ?_⟩
  · simp only [PAGE_ID, ESP_OK, CHIP_ID] at hq hread
    simp only [RESET_SW, RESET_HW] at hmeth
    have hmeth' : ¬ (¬ w.imu.config.reset.method = 0 ∧ ¬ w.imu.config.reset.method = 1) := by
      omega
    simp [ bno055_initialize, bno055_set_page, i2c_master_transmit, i2c_master_transmit_receive,
      hmeth', hq, hread, hc]
  · unfold bno055_initialize
    rw [if_pos ⟨h1, h2⟩]

/-- Witness of C15: the chip ID `0xA1` is refused after the page write and one read; the reset
method 2 is refused without any request. -/
theorem initialize_chip_id_mismatch_witness :
    (( bno055_initialize (okHal [0xA1]) (reset_world RESET_SW)).1 = ESP_ERR_INVALID_MAC ∧
     ( bno055_initialize (okHal [0xA1]) (reset_world RESET_SW)).2.log
       = [Event.transmit [PAGE_ID, 0], Event.transmit_receive CHIP_ID 1]) ∧
    bno055_initialize (okHal [0xA0]) (reset_world 2)
      = (ESP_ERR_INVALID_ARG, reset_world 2) :=
  ⟨⟨((initialize_chip_id_mismatch (okHal [0xA1]) (reset_world RESET_SW)).1 [0xA1]
        (Or.inl rfl) rfl rfl (by decide)).1,
    ((initialize_chip_id_mismatch (okHal [0xA1]) (reset_world RESET_SW)).1 [0xA1]
        (Or.inl rfl) rfl rfl (by decide)).2.1⟩,
   (initialize_chip_id_mismatch (okHal [0xA0]) (reset_world 2)).2 (by decide) (by decide)⟩

/-! ## C16 -/

/-- C16: with cached page 0, `bno055_get_readings` issues exactly one request, a read at the
address of the sensor kind (`0x08`, `0x0E`, `0x14`, `0x1A`, `0x20`, `0x28`, `0x2E`, `0x34`)
of 6 bytes for the 3-axis kinds, 8 bytes for the quaternion and 1 byte for the temperature,
whether or not the read succeeds; for a value that is not one of the eight kinds it returns
`ESP_ERR_INVALID_ARG` and the world is unchanged. -/
theorem get_readings_one_read {F : Type} [FloatOps F] (hal : Hal) (w : World F)
    (hpage : w.imu.config.state.page = 0) :
    ((bno055_get_readings hal w ACCELEROMETER).2.log
        = w.log ++ [Event.transmit_receive 0x08 6] ∧
     (bno055_get_readings hal w MAGNETOMETER).2.log
        = w.log ++ [Event.transmit_receive 0x0E 6] ∧
     (bno055_get_readings hal w GYROSCOPE).2.log
        = w.log ++ [Event.transmit_receive 0x14 6] ∧
     (bno055_get_readings hal w EULER_ANGLE).2.log
        = w.log ++ [Event.transmit_receive 0x1A 6] ∧
     (bno055_get_readings hal w QUATERNION).2.log
        = w.log ++ [Event.transmit_receive 0x20 8] ∧
     (bno055_get_readings hal w LINEAR_ACCELERATION).2.log
        = w.log ++ [Event.transmit_receive 0x28 6] ∧
     (bno055_get_readings hal w GRAVITY).2.log
        = w.log ++ [Event.transmit_receive 0x2E 6] ∧
     (bno055_get_readings hal w TEMPERATURE).2.log
        = w.log ++ [Event.transmit_receive 0x34 1]) ∧
    (∀ sensor, ¬ sensor_kind sensor →
      bno055_get_readings hal w sensor = (ESP_ERR_INVALID_ARG, w)) := by
  refine ⟨⟨?_, ?_, ?_, ?_, ?_, ?_, ?_, ?_⟩, fun sensor hs => ?_⟩
  · exact get_readings_log hal w ACCELEROMETER 6 (by decide) hpage
  · exact get_readings_log hal w MAGNETOMETER 6 (by decide) hpage
  · exact get_readings_log hal w GYROSCOPE 6 (by decide) hpage
  · exact get_readings_log hal w EULER_ANGLE 6 (by decide) hpage
  · exact get_readings_log hal w QUATERNION 8 (by decide) hpage
  · exact get_readings_log hal w LINEAR_ACCELERATION 6 (by decide) hpage
  · exact get_readings_log hal w GRAVITY 6 (by decide) hpage
  · exact get_readings_log hal w TEMPERATURE 1 (by decide) hpage
  · unfold bno055_get_readings
    rw [(reg_count_of_kind sensor).2 hs]

/-- Witness of C16: the quaternion read is requested even on a failing bus; the register
address `0x35` is not a sensor kind and is rejected. -/
theorem get_readings_one_read_witness :
    (sample_world NDOF_MODE 0).imu.config.state.page = 0 ∧
    (bno055_get_readings (failingHal (-1)) (sample_world NDOF_MODE 0) QUATERNION).2.log
      = [Event.transmit_receive 0x20 8] ∧
    bno055_get_readings (okHal []) (sample_world NDOF_MODE 0) CALIB_STAT
      = (ESP_ERR_INVALID_ARG, sample_world NDOF_MODE 0) :=
  ⟨rfl,
   (get_readings_one_read (failingHal (-1)) (sample_world NDOF_MODE 0) rfl).1.2.2.2.2.1,
   (get_readings_one_read (okHal []) (sample_world NDOF_MODE 0) rfl).2 CALIB_STAT
     (by decide)⟩

/-! ## C17 -/

/-- C17: on every error return of `bno055_get_readings` the eight live-reading records are
those on entry; on success the sensor is one of the eight kinds, the record of that kind is
replaced as a whole by the values decoded from the response bytes with the cached scale
factor of its domain, and the seven other records are those on entry. -/
theorem get_readings_atomic {F : Type} [FloatOps F] (hal : Hal) (w : World F) (sensor : Nat) :
    ((bno055_get_readings hal w sensor).1 ≠ ESP_OK →
      live_readings (bno055_get_readings hal w sensor).2.imu = live_readings w.imu) ∧
    ((bno055_get_readings hal w sensor).1 = ESP_OK →
      sensor_kind sensor ∧
      (sensor = ACCELEROMETER →
        live_readings (bno055_get_readings hal w sensor).2.imu
          = { live_readings w.imu with
              raw_acceleration := decode_vec3 (read_bytes hal w 0x08 6)
                w.imu.config.sensor_scale.accelerometer }) ∧
      (sensor = MAGNETOMETER →
        live_readings (bno055_get_readings hal w sensor).2.imu
          = { live_readings w.imu with
              magnetometer := decode_vec3 (read_bytes hal w 0x0E 6)
                w.imu.config.sensor_scale.magnetometer }) ∧
      (sensor = GYROSCOPE →
        live_readings (bno055_get_readings hal w sensor).2.imu
          = { live_readings w.imu with
              gyroscope := decode_vec3 (read_bytes hal w 0x14 6)
                w.imu.config.sensor_scale.gyroscope }) ∧
      (sensor = EULER_ANGLE →
        live_readings (bno055_get_readings hal w sensor).2.imu
          = { live_readings w.imu with
              euler_angle :=
                { yaw := u8_to_f (byte (read_bytes hal w 0x1A 6) 1)
                    (byte (read_bytes hal w 0x1A 6) 0) w.imu.config.sensor_scale.euler_angle,
                  roll := u8_to_f (byte (read_bytes hal w 0x1A 6) 3)
                    (byte (read_bytes hal w 0x1A 6) 2) w.imu.config.sensor_scale.euler_angle,
                  pitch := u8_to_f (byte (read_bytes hal w 0x1A 6) 5)
                    (byte (read_bytes hal w 0x1A 6) 4)
                    w.imu.config.sensor_scale.euler_angle } }) ∧
      (sensor = QUATERNION →
        live_readings (bno055_get_readings hal w sensor).2.imu
          = { live_readings w.imu with
              quaternion :=
                { w := u8_to_f (byte (read_bytes hal w 0x20 8) 1)
                    (byte (read_bytes hal w 0x20 8) 0) w.imu.config.sensor_scale.quaternion,
                  x := u8_to_f (byte (read_bytes hal w 0x20 8) 3)
                    (byte (read_bytes hal w 0x20 8) 2) w.imu.config.sensor_scale.quaternion,
                  y := u8_to_f (byte (read_bytes hal w 0x20 8) 5)
                    (byte (read_bytes hal w 0x20 8) 4) w.imu.config.sensor_scale.quaternion,
                  z := u8_to_f (byte (read_bytes hal w 0x20 8) 7)
                    (byte (read_bytes hal w 0x20 8) 6)
                    w.imu.config.sensor_scale.quaternion } }) ∧
      (sensor = LINEAR_ACCELERATION →
        live_readings (bno055_get_readings hal w sensor).2.imu
          = { live_readings w.imu with
              linear_acceleration := decode_vec3 (read_bytes hal w 0x28 6)
                w.imu.config.sensor_scale.accelerometer }) ∧
      (sensor = GRAVITY →
        live_readings (bno055_get_readings hal w sensor).2.imu
          = { live_readings w.imu with
              gravity := decode_vec3 (read_bytes hal w 0x2E 6)
                w.imu.config.sensor_scale.accelerometer }) ∧
      (sensor = TEMPERATURE →
        live_readings (bno055_get_readings hal w sensor).2.imu
          = { live_readings w.imu with
              temperature := FloatOps.div
                (FloatOps.ofInt (int8_cast (byte (read_bytes hal w 0x34 1) 0)))
                w.imu.config.sensor_scale.temperature })) := by
  by_cases hs : sensor_kind sensor
  swap
  · have e : bno055_get_readings hal w sensor = (ESP_ERR_INVALID_ARG, w) := by
      unfold bno055_get_readings
      rw [(reg_count_of_kind sensor).2 hs]
    rw [e]
    exact ⟨fun _ => rfl, fun h => by simp at h⟩
  have hL := live_readings_on_page0 w
  have hS := sensor_scale_on_page0 w
  have key : ∀ n, reg_count_of sensor = some n →
      ((bno055_get_readings hal w sensor).1 ≠ ESP_OK →
        live_readings (bno055_get_readings hal w sensor).2.imu = live_readings w.imu) ∧
      ((bno055_get_readings hal w sensor).1 = ESP_OK →
        (bno055_get_readings hal w sensor).2.imu
          = process_sensor_data (imu_on_page0 w) sensor (read_bytes hal w sensor n)) := by
    intro n hn
    rw [get_readings_eq hal w sensor n hn]
    refine ⟨fun herr => ?_, fun hok => ?_⟩
    · split_ifs at herr ⊢ with h1 h2
      · rfl
      · exact hL
      · exact absurd rfl herr
    · split_ifs at hok ⊢ with h1 h2
      · exact absurd hok h1.2
      · exact absurd hok h2
      · rfl
  have hs' := hs
  simp only [live_readings] at hL
  injection hL with hL1 hL2 hL3 hL4 hL5 hL6 hL7 hL8
  unfold sensor_kind at hs'
  have fin : ∀ n, reg_count_of sensor = some n →
      (bno055_get_readings hal w sensor).1 = ESP_OK →
      live_readings (bno055_get_readings hal w sensor).2.imu
        = live_readings (process_sensor_data (imu_on_page0 w) sensor
            (read_bytes hal w sensor n)) :=
    fun n hn hok => by rw [(key n hn).2 hok]
  rcases hs' with h | h | h | h | h | h | h | h <;> subst h
  all_goals
    first
    | refine ⟨(key 6 (by decide)).1, fun hok => ⟨hs, ?_⟩⟩
      rw [fin 6 (by decide) hok]
      simp [process_sensor_data, live_readings, decode_vec3, hL1, hL2, hL3, hL4, hL5, hL6,
        hL7, hL8, hS]
    | refine ⟨(key 8 (by decide)).1, fun hok => ⟨hs, ?_⟩⟩
      rw [fin 8 (by decide) hok]
      simp [process_sensor_data, live_readings, decode_vec3, hL1, hL2, hL3, hL4, hL5, hL6,
        hL7, hL8, hS]
    | refine ⟨(key 1 (by decide)).1, fun hok => ⟨hs, ?_⟩⟩
      rw [fin 1 (by decide) hok]
      simp [process_sensor_data, live_readings, decode_vec3, hL1, hL2, hL3, hL4, hL5, hL6,
        hL7, hL8, hS]

/-- Witness of C17: a failing bus leaves the readings unchanged; a successful gravity read
replaces the gravity record only. -/
theorem get_readings_atomic_witness :
    ((bno055_get_readings (failingHal (-1)) (accel_world 1) GRAVITY).1 ≠ ESP_OK ∧
     live_readings (bno055_get_readings (failingHal (-1)) (accel_world 1) GRAVITY).2.imu
       = live_readings (accel_world 1).imu) ∧
    ((bno055_get_readings (okHal [0xE8, 0x03, 0x18, 0xFC, 0x00, 0x00]) (accel_world 1)
        GRAVITY).1 = ESP_OK ∧
     live_readings (bno055_get_readings (okHal [0xE8, 0x03, 0x18, 0xFC, 0x00, 0x00])
        (accel_world 1) GRAVITY).2.imu
       = { live_readings (accel_world 1).imu with
           gravity := decode_vec3 [0xE8, 0x03, 0x18, 0xFC, 0x00, 0x00] 100 }) :=
  ⟨⟨by decide,
    (get_readings_atomic (failingHal (-1)) (accel_world 1) GRAVITY).1 (by decide)⟩,
   ⟨by decide,
    ((get_readings_atomic (okHal [0xE8, 0x03, 0x18, 0xFC, 0x00, 0x00]) (accel_world 1)
      GRAVITY).2 (by decide)).2.2.2.2.2.2.2.1 rfl⟩⟩

/-! ## C18 -/

/-- C18 (the code departs from the claim): after a successful software reset on a chip that
reports `OPR_MODE = 0x09` (`COMPASS_MODE`), the cached mode is `0x08` (`IMU_MODE`): the
code masks the register with `0x0c`, not with the low four bits; crystal flag, page and
units are taken from the other three reads. -/
theorem reset_chip_mode_mask :
    (bno055_reset_chip (registerHal (register_file 0x80 0x09 0x00 0x00 0x0F))
      (sample_world NDOF_MODE 0)).1 = ESP_OK ∧
    (bno055_reset_chip (registerHal (register_file 0x80 0x09 0x00 0x00 0x0F))
      (sample_world NDOF_MODE 0)).2.imu.config.state = ⟨IMU_MODE, 0x00, 0x00, true⟩ ∧
    (bno055_reset_chip (registerHal (register_file 0x80 0x09 0x00 0x00 0x0F))
      (sample_world NDOF_MODE 0)).2.imu.config.state.mode ≠ 0x09 % 16 := by
  decide

/-! ## C19 -/

/-- C20 (the code departs from the claim): with the result byte `0x0E` the function returns
`ESP_ERR_INVALID_STATE` right after the `ST_RESULT` read; none of `SYS_TRIGGER`, `OPR_MODE`,
`PAGE_ID`, `UNIT_SEL` is read again and the cached state is the one on entry although the
chip reports crystal set, `NDOF_MODE` and units `0x01`. -/
theorem start_self_test_no_resync_on_failure :
    bno055_start_self_test (registerHal (register_file 0x80 0x0C 0x00 0x01 0x0E))
        (sample_world CONFIG_MODE 0)
      = (ESP_ERR_INVALID_STATE, { sample_world CONFIG_MODE 0 with
          log := [Event.transmit_receive SYS_TRIGGER 1, Event.transmit [SYS_TRIGGER, 0x81],
                  Event.delay 200, Event.transmit_receive ST_RESULT 1] }) := by
  decide

/-! ## C21 -/

/-- C21: in `CONFIG_MODE` on page 0, when the platform accepts the 18 writes
`offset_writes` (for the `k`-th of the nine offsets, in the order accelerometer x, y, z,
magnetometer x, y, z, gyroscope x, y, z, the low byte of `f_to_i16 offset scale` at
`0x55 + 2k` and the high byte at `0x55 + 2k + 1`), `bno055_set_offsets` returns `ESP_OK`,
has issued exactly these 18 two-byte writes in this order and nothing else, and leaves the
device record as it was; when the platform accepts the first `j` of them and refuses the
next, the status of that write is returned and the log ends with it. -/
theorem set_offsets_writes {F : Type} [FloatOps F] (hal : Hal) (w : World F)
    (hmode : w.imu.config.state.mode = CONFIG_MODE) (hpage : w.imu.config.state.page = 0) :
    ((offset_writes w.imu).length = 18 ∧
     ∀ k v s, (offset_fields w.imu)[k]? = some (v, s) →
       (offset_writes w.imu)[2 * k]?
         = some (Event.transmit [0x55 + 2 * k, (i16_to_u8 (f_to_i16 v s)).1]) ∧
       (offset_writes w.imu)[2 * k + 1]?
         = some (Event.transmit [0x55 + 2 * k + 1, (i16_to_u8 (f_to_i16 v s)).2])) ∧
    (hal.accepts w.log (offset_writes w.imu) = true →
      bno055_set_offsets hal w = (ESP_OK, ⟨w.imu, w.log ++ offset_writes w.imu⟩)) ∧
    (∀ j e, (offset_writes w.imu)[j]? = some e →
      hal.accepts w.log ((offset_writes w.imu).take j) = true →
      hal.status (w.log ++ (offset_writes w.imu).take j) e ≠ ESP_OK →
      bno055_set_offsets hal w
        = (hal.status (w.log ++ (offset_writes w.imu).take j) e,
           ⟨w.imu, w.log ++ (offset_writes w.imu).take (j + 1)⟩)) := by
  refine ⟨⟨rfl, fun k v s hk => ?_⟩, fun hacc => ?_, fun j e hj hacc hfail => ?_⟩
  · have hk9 : k < 9 := by
      by_contra hge
      have : (offset_fields w.imu).length ≤ k := by
        simp only [offset_fields, List.length_cons, List.length_nil]
        omega
      rw [List.getElem?_eq_none this] at hk
      exact absurd hk (by simp)
    interval_cases k <;>
      simp only [offset_fields, List.getElem?_cons_zero, List.getElem?_cons_succ,
        Option.some.injEq, Prod.mk.injEq] at hk <;>
      obtain ⟨rfl, rfl⟩ := hk <;>
      exact ⟨rfl, rfl⟩
  · rw [set_offsets_config hal w hmode hpage]
    rw [← write_offsets_events_convert] at hacc ⊢
    exact write_offsets_accepts hal w _ _ hacc
  · rw [set_offsets_config hal w hmode hpage]
    rw [← write_offsets_events_convert] at hj hacc hfail ⊢
    exact write_offsets_refused hal w _ _ j e hj hacc hfail

/-- Witness of C21: with every request accepted, the record `offsets_world` (magnetometer x
offset `1000.0`, scale `16.0`, encoded as 16000 = `0x3E80`) is written as 18 writes to
`0x55 .. 0x66`; when the platform refuses the write of `0x3E` to `0x5C`, that status is
returned and the log ends with this eighth write. -/
theorem set_offsets_writes_witness :
    bno055_set_offsets (okHal []) offsets_world
      = (ESP_OK, ⟨offsets_world.imu,
          [Event.transmit [0x55, 0x00], Event.transmit [0x56, 0x00],
           Event.transmit [0x57, 0x00], Event.transmit [0x58, 0x00],
           Event.transmit [0x59, 0x00], Event.transmit [0x5A, 0x00],
           Event.transmit [0x5B, 0x80], Event.transmit [0x5C, 0x3E],
           Event.transmit [0x5D, 0x00], Event.transmit [0x5E, 0x00],
           Event.transmit [0x5F, 0x00], Event.transmit [0x60, 0x00],
           Event.transmit [0x61, 0x00], Event.transmit [0x62, 0x00],
           Event.transmit [0x63, 0x00], Event.transmit [0x64, 0x00],
           Event.transmit [0x65, 0x00], Event.transmit [0x66, 0x00]]⟩) ∧
    bno055_set_offsets
        (refusingHal (fun e => decide (e = Event.transmit [0x5C, 0x3E])) (-1) []) offsets_world
      = (-1, ⟨offsets_world.imu,
          [Event.transmit [0x55, 0x00], Event.transmit [0x56, 0x00],
           Event.transmit [0x57, 0x00], Event.transmit [0x58, 0x00],
           Event.transmit [0x59, 0x00], Event.transmit [0x5A, 0x00],
           Event.transmit [0x5B, 0x80], Event.transmit [0x5C, 0x3E]]⟩) := by
  constructor
  · have h := (set_offsets_writes (okHal []) offsets_world rfl rfl).2.1
      (okHal_accepts _ _ _)
    rw [offsets_world_writes] at h
    exact h
  · have h := (set_offsets_writes
      (refusingHal (fun e => decide (e = Event.transmit [0x5C, 0x3E])) (-1) [])
      offsets_world rfl rfl).2.2 7 (Event.transmit [0x5C, 0x3E])
    rw [offsets_world_writes] at h
    exact h rfl (by decide) (by decide)

/-! ## C22 -/

/-- C22 (the code departs from the claim): with every request accepted and cached radii 1000
and 500, `bno055_set_offsets` returns `ESP_OK` after 18 requests none of which reads or
writes a register in `0x67 .. 0x6A` (`ACC_RADIUS_LSB .. MAG_RADIUS_MSB`), while the read of
`bno055_get_offsets` covers these four registers. -/
theorem set_offsets_skips_radius :
    radius_world.imu.config.offsets.accelerometer_radius = 1000 ∧
    radius_world.imu.config.offsets.magnetometer_radius = 500 ∧
    (bno055_set_offsets (okHal []) radius_world).1 = ESP_OK ∧
    (bno055_set_offsets (okHal []) radius_world).2.log.length = 18 ∧
    (∀ e ∈ (bno055_set_offsets (okHal []) radius_world).2.log,
      ∀ reg, 0x67 ≤ reg → reg ≤ 0x6A → e.accesses reg = false) ∧
    (bno055_get_offsets (okHal []) radius_world).2.log = [Event.transmit_receive 0x55 22] ∧
    (∀ reg, 0x67 ≤ reg → reg ≤ 0x6A → (Event.transmit_receive 0x55 22).accesses reg = true) := by
  have h : bno055_set_offsets (okHal []) radius_world
      = (ESP_OK, ⟨radius_world.imu, offset_writes radius_world.imu⟩) := by
    rw [set_offsets_config (okHal []) radius_world rfl rfl,
      write_offsets_accepts (okHal []) radius_world _ _ (okHal_accepts _ _ _),
      write_offsets_events_convert]
    rfl
  refine ⟨rfl, rfl, by rw [h], by rw [h]; rfl, ?_, by decide, ?_⟩
  · rw [h]
    intro e he reg hlo hhi
    have := offset_writes_accesses radius_world.imu e he reg
    cases hacc : e.accesses reg
    · rfl
    · have := this hacc
      omega
  · intro reg hlo hhi
    simp only [Event.accesses, decide_eq_true_eq]
    omega

/-! ## C23 -/

/-- C23: for a units byte `u` with no bits outside `0x97` that equals the cached units,
no request of `bno055_set_units` reads or writes `UNIT_SEL` (`0x3B`), whatever the platform
answers; when in addition the cached mode is `CONFIG_MODE` and the cached page is 0, the
function returns `ESP_OK` with the log unchanged (no request at all), the only change to the
device record being the scale factors recomputed from the table. -/
theorem set_units_same_units {F : Type} [FloatOps F] (hal : Hal) (w : World F) (u : Nat)
    (hv : valid_units u) (hu : w.imu.config.state.units = u) :
    (∃ new, (bno055_set_units hal w u).2.log = w.log ++ new ∧
      ∀ e ∈ new, e.accesses UNIT_SEL = false) ∧
    (w.imu.config.state.mode = CONFIG_MODE → w.imu.config.state.page = 0 →
      bno055_set_units hal w u
        = (ESP_OK, ⟨{ w.imu with config.sensor_scale := scale_table u }, w.log⟩)) := by
  constructor
  · obtain ⟨new, hnew, hacc⟩ := set_units_same_grows hal w u hu
    refine ⟨new, hnew, fun e he => ?_⟩
    cases h : e.accesses UNIT_SEL
    · rfl
    · have := hacc e he UNIT_SEL h
      simp at this
  · intro hmode hpage
    have h68 : u &&& 104 = 0 := ((units_bits u hv.1).1).mp hv.2
    rcases w with
      ⟨⟨ra, la, g, gy, mg, eu, q, t, ⟨off, sc, rst, ⟨mode, units, page, xt⟩, cal, ic⟩⟩,
        log⟩
    simp only [CONFIG_MODE] at hmode hpage hu
    subst hmode hpage hu
    simp [bno055_set_units, bno055_set_operation_mode, h68,
      set_scaling_factors_eq _ _ hv.1]

/-- Witness of C23: the zero-initialised record (units `0x00`, `CONFIG_MODE`, page 0) asked
for units `0x00` on a platform that refuses every request: the function returns `ESP_OK`
and the log stays empty. -/
theorem set_units_same_units_witness :
    bno055_set_units (failingHal (-1)) (sample_world CONFIG_MODE 0) 0x00
      = (ESP_OK, ⟨{ (sample_world CONFIG_MODE 0).imu with
          config.sensor_scale := scale_table 0x00 }, []⟩) :=
  (set_units_same_units (failingHal (-1)) (sample_world CONFIG_MODE 0) 0x00 (by decide)
    rfl).2 rfl rfl

/-! ## C24 -/

/-- C24, counterexample: on a chip whose `PAGE_ID` register reads `0x02`,
a successful `bno055_reset_chip` and a successful `bno055_start_self_test`, both entered
with cached page 0, return with cached page 2: the resynchronisation block stores the byte
read from `PAGE_ID` as it is. -/
theorem resync_page_out_of_range :
    (sample_world CONFIG_MODE 0).imu.config.state.page = 0 ∧
    (bno055_reset_chip (registerHal (register_file 0x00 0x00 0x02 0x00 0x0F))
      (sample_world CONFIG_MODE 0)).1 = ESP_OK ∧
    (bno055_reset_chip (registerHal (register_file 0x00 0x00 0x02 0x00 0x0F))
      (sample_world CONFIG_MODE 0)).2.imu.config.state.page = 2 ∧
    (bno055_start_self_test (registerHal (register_file 0x00 0x00 0x02 0x00 0x0F))
      (sample_world CONFIG_MODE 0)).1 = ESP_OK ∧
    (bno055_start_self_test (registerHal (register_file 0x00 0x00 0x02 0x00 0x0F))
      (sample_world CONFIG_MODE 0)).2.imu.config.state.page = 2 := by
  decide

/-- C24, amended: entered with a cached page in `{0, 1}`, each of `bno055_set_page`,
`bno055_set_operation_mode`, `bno055_initialize`, `bno055_configure`,
`bno055_get_calibration_status`, `bno055_get_readings`, `bno055_get_offsets`,
`bno055_set_offsets` and `bno055_remap_axis` returns with a cached page in `{0, 1}`,
whatever the platform answers; `bno055_reset_chip` and `bno055_start_self_test` cache the
byte read from `PAGE_ID` (on `ESP_OK` the cached page is that byte), so they return with a
cached page in `{0, 1}` when every byte read from `PAGE_ID` is 0 or 1. -/
theorem cached_page_in_range {F : Type} [FloatOps F] (hal : Hal) (w : World F)
    (h : w.imu.config.state.page ≤ 1) :
    ((∀ p, (bno055_set_page hal w p).2.imu.config.state.page ≤ 1) ∧
     (∀ m, (bno055_set_operation_mode hal w m).2.imu.config.state.page ≤ 1) ∧
     ( bno055_initialize hal w).2.imu.config.state.page ≤ 1 ∧
     (∀ m u, (bno055_configure hal w m u).2.imu.config.state.page ≤ 1) ∧
     (bno055_get_calibration_status hal w).2.imu.config.state.page ≤ 1 ∧
     (∀ s, (bno055_get_readings hal w s).2.imu.config.state.page ≤ 1) ∧
     (bno055_get_offsets hal w).2.imu.config.state.page ≤ 1 ∧
     (bno055_set_offsets hal w).2.imu.config.state.page ≤ 1 ∧
     (∀ a, (bno055_remap_axis hal w a).2.imu.config.state.page ≤ 1)) ∧
    ((∀ pre, byte (hal.transmit_receive pre PAGE_ID 1).2 0 ≤ 1) →
      (bno055_reset_chip hal w).2.imu.config.state.page ≤ 1 ∧
      (bno055_start_self_test hal w).2.imu.config.state.page ≤ 1) ∧
    (((bno055_reset_chip hal w).1 = ESP_OK →
      ∃ pre, (bno055_reset_chip hal w).2.imu.config.state.page
        = byte (hal.transmit_receive pre PAGE_ID 1).2 0) ∧
     ((bno055_start_self_test hal w).1 = ESP_OK →
      ∃ pre, (bno055_start_self_test hal w).2.imu.config.state.page
        = byte (hal.transmit_receive pre PAGE_ID 1).2 0)) := by
  refine ⟨page_in_range hal w h, fun hb => ⟨?_, ?_⟩,
    (reset_chip_page hal w).2, (start_self_test_page hal w).2⟩
  · rcases (reset_chip_page hal w).1 with h1 | h1 | ⟨pre, h1⟩
    · omega
    · omega
    · rw [h1]
      exact hb pre
  · rcases (start_self_test_page hal w).1 with h1 | h1 | ⟨pre, h1⟩
    · omega
    · omega
    · rw [h1]
      exact hb pre

/-- Witness of C24 as amended: on a chip whose `PAGE_ID` register reads `0x01`, a software
reset and a self-test entered with cached page 0 return with cached page 1; on a platform
that refuses every request, `bno055_get_offsets` entered with cached page 1 returns with
cached page 1. -/
theorem cached_page_in_range_witness :
    ((bno055_reset_chip (registerHal (register_file 0x00 0x00 0x01 0x00 0x0F))
        (sample_world CONFIG_MODE 0)).2.imu.config.state.page ≤ 1 ∧
     (bno055_start_self_test (registerHal (register_file 0x00 0x00 0x01 0x00 0x0F))
        (sample_world CONFIG_MODE 0)).2.imu.config.state.page ≤ 1) ∧
    (bno055_reset_chip (registerHal (register_file 0x00 0x00 0x01 0x00 0x0F))
        (sample_world CONFIG_MODE 0)).2.imu.config.state.page = 1 ∧
    (bno055_get_offsets (failingHal (-1))
        (sample_world NDOF_MODE 1)).2.imu.config.state.page ≤ 1 :=
  ⟨(cached_page_in_range (registerHal (register_file 0x00 0x00 0x01 0x00 0x0F))
      (sample_world CONFIG_MODE 0) (by decide)).2.1
      (fun _ => (by decide : byte [0x01] 0 ≤ 1)),
   by decide,
   (cached_page_in_range (failingHal (-1)) (sample_world NDOF_MODE 1)
      (by decide)).1.2.2.2.2.2.2.1⟩

/-! ## C25 -/

/-- C25, counterexample: `bno055_get_offsets` entered in `NDOF_MODE` on page 0 on a platform
that refuses the 22-byte read of the offsets and accepts everything else: the function
forces `CONFIG_MODE`, returns the transport error right after the refused read without any
further write to `OPR_MODE`, and the cached mode on return is `CONFIG_MODE`, not
`NDOF_MODE`. -/
theorem get_offsets_no_restore_on_error :
    (sample_world NDOF_MODE 0).imu.config.state.mode = NDOF_MODE ∧
    (bno055_get_offsets
      (refusingHal (fun e => decide (e = Event.transmit_receive ACC_OFFSET_X_LSB 22)) (-1) [0x0C])
      (sample_world NDOF_MODE 0)).1 = -1 ∧
    (bno055_get_offsets
      (refusingHal (fun e => decide (e = Event.transmit_receive ACC_OFFSET_X_LSB 22)) (-1) [0x0C])
      (sample_world NDOF_MODE 0)).2.log
      = [Event.transmit_receive OPR_MODE 1, Event.transmit [OPR_MODE, 0x00], Event.delay 30,
         Event.delay 25, Event.transmit_receive ACC_OFFSET_X_LSB 22] ∧
    (bno055_get_offsets
      (refusingHal (fun e => decide (e = Event.transmit_receive ACC_OFFSET_X_LSB 22)) (-1) [0x0C])
      (sample_world NDOF_MODE 0)).2.imu.config.state.mode = CONFIG_MODE := by
  decide

/-- C25, amended: for each of `bno055_set_units`, `bno055_get_offsets`,
`bno055_set_offsets` and `bno055_remap_axis` (with valid arguments), entered in a mode
`p ≤ 12` other than `CONFIG_MODE` and once `CONFIG_MODE` has been forced: when the operation
returns `ESP_OK`, the last bus transaction it issued is the write-back of `p` to `OPR_MODE`
and the cached mode is `p`; when it returns an error, the last request it issued is the bus
transaction the platform refused (nothing is issued after a refused transaction, so a
failure in the body is not followed by a write-back) and the cached mode is
`CONFIG_MODE`. -/
theorem scoped_config_exits {F : Type} [FloatOps F] (hal : Hal) (w : World F)
    (hp : w.imu.config.state.mode ≠ CONFIG_MODE) (hle : w.imu.config.state.mode ≤ NDOF_MODE)
    (hforced : (bno055_set_operation_mode hal w CONFIG_MODE).1 = ESP_OK) :
    (∀ u, valid_units u →
      restores_or_aborts hal w.imu.config.state.mode (bno055_set_units hal w u).1
        (bno055_set_units hal w u).2) ∧
    restores_or_aborts hal w.imu.config.state.mode (bno055_get_offsets hal w).1
      (bno055_get_offsets hal w).2 ∧
    restores_or_aborts hal w.imu.config.state.mode (bno055_set_offsets hal w).1
      (bno055_set_offsets hal w).2 ∧
    (∀ a : bno055_axes_t, legal_axis a.x → legal_axis a.y → legal_axis a.z →
      a.x ≠ a.y → a.x ≠ a.z → a.y ≠ a.z →
      restores_or_aborts hal w.imu.config.state.mode (bno055_remap_axis hal w a).1
        (bno055_remap_axis hal w a).2) :=
  ⟨fun u hv => set_units_exit hal w u hv hp hle hforced,
   get_offsets_exit hal w hp hle hforced,
   set_offsets_exit hal w hp hle hforced,
   fun a hx hy hz hxy hxz hyz => remap_axis_exit hal w a hx hy hz hxy hxz hyz hp hle hforced⟩

/-- Witness of C25 as amended: `bno055_get_offsets` entered in `NDOF_MODE` on page 0 returns
with cached mode `CONFIG_MODE` when the offsets read is refused, and with cached mode
`NDOF_MODE` when every request is accepted. -/
theorem scoped_config_exits_witness :
    (bno055_get_offsets
      (refusingHal (fun e => decide (e = Event.transmit_receive ACC_OFFSET_X_LSB 22)) (-1) [0x0C])
      (sample_world NDOF_MODE 0)).2.imu.config.state.mode = CONFIG_MODE ∧
    (bno055_get_offsets (okHal [0x00]) (sample_world NDOF_MODE 0)).2.imu.config.state.mode
      = NDOF_MODE :=
  ⟨((scoped_config_exits
      (refusingHal (fun e => decide (e = Event.transmit_receive ACC_OFFSET_X_LSB 22)) (-1) [0x0C])
      (sample_world NDOF_MODE 0) (by decide) (by decide) (by decide)).2.1.2 (by decide)).1,
   ((scoped_config_exits (okHal [0x00]) (sample_world NDOF_MODE 0) (by decide) (by decide)
      (by decide)).2.1.1 (by decide)).1⟩

/-! ## C26 -/

/-- C26, counterexample: a software reset on a platform that refuses the read of
`OPR_MODE` and returns `0x80` to the read of `SYS_TRIGGER`: the function returns the
transport error right after the refused read, and the cached crystal flag, false on entry,
is true on return. -/
theorem reset_chip_partial_update :
    (bno055_reset_chip
      (refusingHal (fun e => decide (e = Event.transmit_receive OPR_MODE 1)) (-1) [0x80])
      (reset_world RESET_SW)).1 = -1 ∧
    (bno055_reset_chip
      (refusingHal (fun e => decide (e = Event.transmit_receive OPR_MODE 1)) (-1) [0x80])
      (reset_world RESET_SW)).2.log
      = [Event.transmit [SYS_TRIGGER, 0x20], Event.delay 650,
         Event.transmit_receive SYS_TRIGGER 1, Event.transmit_receive OPR_MODE 1] ∧
    (reset_world RESET_SW).imu.config.state.external_crystal = false ∧
    (bno055_reset_chip
      (refusingHal (fun e => decide (e = Event.transmit_receive OPR_MODE 1)) (-1) [0x80])
      (reset_world RESET_SW)).2.imu.config.state.external_crystal = true := by
  decide

/-- C26, amended: when the requests that trigger the reset are accepted, the first `k`
resynchronisation reads are accepted and the next one is refused, `bno055_reset_chip`
returns the status of the refused read and its log ends with that read; the cached fields
refreshed by the refused read and by the reads after it (in the order crystal flag, mode,
page, units) have the value they had before the first resynchronisation read (for the page:
0 on the software path, the value on entry on the hardware path), and nothing outside the
cached state is modified. -/
theorem reset_chip_refused_read {F : Type} (hal : Hal) (w : World F) (k : Nat) (e : Event)
    (hmeth : w.imu.config.reset.method = RESET_SW ∨ w.imu.config.reset.method = RESET_HW)
    (htrig : hal.accepts w.log (reset_events w) = true)
    (hk : resync_reads[k]? = some e)
    (hacc : hal.accepts (w.log ++ reset_events w) (resync_reads.take k) = true)
    (hfail : hal.status (w.log ++ reset_events w ++ resync_reads.take k) e ≠ ESP_OK) :
    (bno055_reset_chip hal w).1
      = hal.status (w.log ++ reset_events w ++ resync_reads.take k) e ∧
    (bno055_reset_chip hal w).2.log
      = w.log ++ reset_events w ++ resync_reads.take (k + 1) ∧
    (k = 0 → (bno055_reset_chip hal w).2.imu.config.state.external_crystal
      = w.imu.config.state.external_crystal) ∧
    (k ≤ 1 → (bno055_reset_chip hal w).2.imu.config.state.mode = w.imu.config.state.mode) ∧
    (k ≤ 2 → (bno055_reset_chip hal w).2.imu.config.state.page
      = if w.imu.config.reset.method = RESET_SW then 0 else w.imu.config.state.page) ∧
    (bno055_reset_chip hal w).2.imu.config.state.units = w.imu.config.state.units ∧
    (bno055_reset_chip hal w).2.imu
      = { w.imu with config.state := (bno055_reset_chip hal w).2.imu.config.state } := by
  have h0 : imu_before_resync w
      = { w.imu with config.state.page :=
            if w.imu.config.reset.method = RESET_SW then 0 else w.imu.config.state.page } := by
    unfold imu_before_resync imu_on_page0
    by_cases hm : w.imu.config.reset.method = RESET_SW
    · by_cases hp : w.imu.config.state.page = 0
      · simp only [hm, hp, if_true, ne_eq, not_true_eq_false, if_false]
        rw [← hp]
      · simp only [hm, hp, if_true, ne_eq, not_false_eq_true]
    · simp only [hm, if_false]
  obtain ⟨g1, g2, g3, g4, g5, g6, g7⟩ :=
    get_values_refused hal ⟨imu_before_resync w, w.log ++ reset_events w⟩ k e hk hacc hfail
  rw [reset_chip_triggered hal w hmeth htrig]
  refine ⟨g1, g2, fun hk0 => ?_, fun hk1 => ?_, fun hk2 => ?_, ?_, ?_⟩
  · rw [g3 hk0, h0]
  · rw [g4 hk1, h0]
  · rw [g5 hk2, h0]
  · rw [g6, h0]
  · rw [g7, h0]

/-- Witness of C26 as amended: a software reset from `NDOF_MODE` on page 1 on a platform
that refuses the read of `OPR_MODE`: the error is returned after that read and the cached
mode is still `NDOF_MODE`. -/
theorem reset_chip_refused_read_witness :
    (bno055_reset_chip
      (refusingHal (fun e => decide (e = Event.transmit_receive OPR_MODE 1)) (-1) [0x80])
      (sample_world NDOF_MODE 1)).1 = -1 ∧
    (bno055_reset_chip
      (refusingHal (fun e => decide (e = Event.transmit_receive OPR_MODE 1)) (-1) [0x80])
      (sample_world NDOF_MODE 1)).2.log
      = [Event.transmit [PAGE_ID, 0], Event.transmit [SYS_TRIGGER, 0x20], Event.delay 650,
         Event.transmit_receive SYS_TRIGGER 1, Event.transmit_receive OPR_MODE 1] ∧
    (bno055_reset_chip
      (refusingHal (fun e => decide (e = Event.transmit_receive OPR_MODE 1)) (-1) [0x80])
      (sample_world NDOF_MODE 1)).2.imu.config.state.mode = NDOF_MODE :=
  ⟨(reset_chip_refused_read
      (refusingHal (fun e => decide (e = Event.transmit_receive OPR_MODE 1)) (-1) [0x80])
      (sample_world NDOF_MODE 1) 1 (Event.transmit_receive OPR_MODE 1) (Or.inl rfl)
      (by decide) rfl (by decide) (by decide)).1,
   (reset_chip_refused_read
      (refusingHal (fun e => decide (e = Event.transmit_receive OPR_MODE 1)) (-1) [0x80])
      (sample_world NDOF_MODE 1) 1 (Event.transmit_receive OPR_MODE 1) (Or.inl rfl)
      (by decide) rfl (by decide) (by decide)).2.1,
   (reset_chip_refused_read
      (refusingHal (fun e => decide (e = Event.transmit_receive OPR_MODE 1)) (-1) [0x80])
      (sample_world NDOF_MODE 1) 1 (Event.transmit_receive OPR_MODE 1) (Or.inl rfl)
      (by decide) rfl (by decide) (by decide)).2.2.2.1 (by decide)⟩

/-! ## C27 -/

/-- C27: for a target mode `target ≤ 12` different from the cached mode, when the page
write (issued if and only if the cached page is not 0), the `OPR_MODE` read and the
write-back succeed, `bno055_set_operation_mode` returns `ESP_OK`; its log is the page write
`[0x07, 0]` if and only if the cached page was not 0, then one read of `OPR_MODE` (`0x3D`),
the write `[0x3D, (old & 0xF0) | target]` and the 30 ms delay; the byte written has `target`
in its low four bits and the high four bits of `old`; on return the cached mode is `target`,
the cached page is 0 and nothing else in the record changed.  Whatever the platform answers,
the cached mode becomes `target` only on the path whose log ends with the write-back and the
30 ms delay. -/
theorem set_operation_mode_sequence {F : Type} (hal : Hal) (w : World F) (target : Nat)
    (ht : target ≤ NDOF_MODE) (hne : w.imu.config.state.mode ≠ target) :
    ((w.imu.config.state.page ≠ 0 → hal.transmit w.log [PAGE_ID, 0] = ESP_OK) →
      (hal.transmit_receive (log_on_page0 w) OPR_MODE 1).1 = ESP_OK →
      hal.transmit (log_on_page0 w ++ [Event.transmit_receive OPR_MODE 1])
        [OPR_MODE, (byte (hal.transmit_receive (log_on_page0 w) OPR_MODE 1).2 0 &&& 0xF0)
          ||| target] = ESP_OK →
      bno055_set_operation_mode hal w target
        = (ESP_OK,
           ⟨{ w.imu with config.state.mode := target, config.state.page := 0 },
            log_on_page0 w
              ++ rmw_events hal (log_on_page0 w) OPR_MODE (fun old => (old &&& 0xF0) ||| target)
              ++ [Event.delay 30]⟩)) ∧
    (∀ old, old < 256 → ((old &&& 0xF0) ||| target) % 16 = target
      ∧ ((old &&& 0xF0) ||| target) / 16 = old / 16) ∧
    ((bno055_set_operation_mode hal w target).2.imu.config.state.mode = target →
      ∃ pre b, (bno055_set_operation_mode hal w target).2.log
        = pre ++ [Event.transmit [OPR_MODE, b], Event.delay 30]) := by
  have ht' : ¬ 12 < target := by simpa using ht
  have ht13 : target < 13 := by omega
  refine ⟨fun hpage hrd hwr => ?_, fun old hold => (mode_bits old hold target ht13).2, ?_⟩
  · have hb := (mode_bits _ (byte_lt (hal.transmit_receive (log_on_page0 w) OPR_MODE 1).2 0)
      target ht13).1
    rcases w with
      ⟨⟨ra, la, g, gy, mg, eu, q, t, ⟨off, sc, rst, ⟨mode, units, page, xt⟩, cal, ic⟩⟩,
        log⟩
    simp only [] at *
    by_cases hp : page = 0
    · simp only [log_on_page0, hp, ne_eq, not_true_eq_false, if_false, OPR_MODE, ESP_OK]
        at hrd hwr hb
      simp [bno055_set_operation_mode, ht', hne, hp, hrd, hwr, hb, i2c_master_transmit,
        i2c_master_transmit_receive, vTaskDelay, log_on_page0, rmw_events]
    · have hq : hal.transmit log [7, 0] = 0 := by simpa using hpage hp
      simp only [log_on_page0, hp, ne_eq, not_false_eq_true, if_true, OPR_MODE, ESP_OK,
        PAGE_ID, List.append_assoc, List.cons_append, List.nil_append] at hrd hwr hb
      simp [bno055_set_operation_mode, bno055_set_page, ht', hne, hp, hq, hrd, hwr, hb,
        i2c_master_transmit, i2c_master_transmit_receive, vTaskDelay, log_on_page0, rmw_events]
  · by_cases hp : w.imu.config.state.page = 0
    · by_cases hr : (hal.transmit_receive w.log 61 1).1 = 0
      · by_cases hw : hal.transmit (w.log ++ [Event.transmit_receive 61 1])
            [61, ((byte (hal.transmit_receive w.log 61 1).2 0 &&& 240) ||| target) % 256] = 0
        · intro _
          exact ⟨w.log ++ [Event.transmit_receive 61 1],
            ((byte (hal.transmit_receive w.log 61 1).2 0 &&& 240) ||| target) % 256, by
            simp [bno055_set_operation_mode, ht', hne, hp, hr, hw, i2c_master_transmit,
              i2c_master_transmit_receive, vTaskDelay]⟩
        · simp [bno055_set_operation_mode, ht', hne, hp, hr, hw, i2c_master_transmit,
            i2c_master_transmit_receive, vTaskDelay]
      · simp [bno055_set_operation_mode, ht', hne, hp, hr, i2c_master_transmit,
            i2c_master_transmit_receive, vTaskDelay]
    · by_cases hq : hal.transmit w.log [7, 0] = 0
      · by_cases hr : (hal.transmit_receive (w.log ++ [Event.transmit [7, 0]]) 61 1).1 = 0
        · by_cases hw : hal.transmit
              (w.log ++ [Event.transmit [7, 0], Event.transmit_receive 61 1])
              [61, ((byte (hal.transmit_receive (w.log ++ [Event.transmit [7, 0]]) 61 1).2 0
                &&& 240) ||| target) % 256] = 0
          · intro _
            exact ⟨w.log ++ [Event.transmit [7, 0], Event.transmit_receive 61 1],
              ((byte (hal.transmit_receive (w.log ++ [Event.transmit [7, 0]]) 61 1).2 0
                &&& 240) ||| target) % 256, by
              simp [bno055_set_operation_mode, bno055_set_page, ht', hne, hp, hq, hr, hw,
                i2c_master_transmit, i2c_master_transmit_receive, vTaskDelay]⟩
          · simp [bno055_set_operation_mode, bno055_set_page, ht', hne, hp, hq, hr, hw,
              i2c_master_transmit, i2c_master_transmit_receive, vTaskDelay]
        · simp [bno055_set_operation_mode, bno055_set_page, ht', hne, hp, hq, hr,
            i2c_master_transmit, i2c_master_transmit_receive, vTaskDelay]
      · simp [bno055_set_operation_mode, bno055_set_page, ht', hne, hp, hq,
          i2c_master_transmit, i2c_master_transmit_receive, vTaskDelay]

/-- Witness of C27: from `CONFIG_MODE` on page 1 with `OPR_MODE` read as `0x35`, the switch
to `NDOF_MODE` issues the page write, the read, the write of `0x3C` and the 30 ms delay. -/
theorem set_operation_mode_sequence_witness :
    bno055_set_operation_mode (okHal [0x35]) (sample_world CONFIG_MODE 1) NDOF_MODE
      = (ESP_OK,
         ⟨{ (sample_world CONFIG_MODE 1).imu with
              config.state.mode := NDOF_MODE, config.state.page := 0 },
          [Event.transmit [PAGE_ID, 0], Event.transmit_receive OPR_MODE 1,
           Event.transmit [OPR_MODE, 0x3C], Event.delay 30]⟩) :=
  (set_operation_mode_sequence (okHal [0x35]) (sample_world CONFIG_MODE 1) NDOF_MODE
    (by decide) (by decide)).1 (fun _ => rfl) rfl rfl

/-! ## C28 -/

/-- C28: for legal, pairwise distinct axis codes, every write to `AXIS_MAP_SIGN` (`0x42`)
that `bno055_remap_axis` issues carries `(x >> 2) | (y >> 2) | (z >> 2)` and every write to
`AXIS_MAP_CONFIG` (`0x41`) carries `((z & 3) << 4) | ((y & 3) << 2) | (x & 3)`, whatever the
platform answers; the sign byte is `0x01` when at least one axis is negative and `0x00`
otherwise; in `CONFIG_MODE` on page 0 with both writes accepted the function returns
`ESP_OK` after exactly the map write, 10 ms, the sign write, 10 ms and the closing 20 ms;
and the configurations `(NEGATIVE_X, POSITIVE_Y, POSITIVE_Z)` and
`(POSITIVE_X, NEGATIVE_Y, POSITIVE_Z)` are both written with the sign byte `0x01`. -/
theorem remap_axis_bytes {F : Type} (hal : Hal) (w : World F) :
    (∀ a : bno055_axes_t, legal_axis a.x → legal_axis a.y → legal_axis a.z →
      a.x ≠ a.y → a.x ≠ a.z → a.y ≠ a.z →
      (∃ new, (bno055_remap_axis hal w a).2.log = w.log ++ new ∧
        ∀ b,
          (Event.transmit [AXIS_MAP_SIGN, b] ∈ new →
            b = ((a.x >>> 2) ||| (a.y >>> 2)) ||| (a.z >>> 2)) ∧
          (Event.transmit [AXIS_MAP_CONFIG, b] ∈ new →
            b = (((a.z &&& 0x03) <<< 4) ||| ((a.y &&& 0x03) <<< 2)) ||| (a.x &&& 0x03))) ∧
      ((a.x >>> 2) ||| (a.y >>> 2)) ||| (a.z >>> 2)
        = (if axis_negative a.x ∨ axis_negative a.y ∨ axis_negative a.z then 0x01 else 0x00) ∧
      (w.imu.config.state.mode = CONFIG_MODE → w.imu.config.state.page = 0 →
        hal.accepts w.log
          [Event.transmit [AXIS_MAP_CONFIG,
             (((a.z &&& 0x03) <<< 4) ||| ((a.y &&& 0x03) <<< 2)) ||| (a.x &&& 0x03)],
           Event.delay 10,
           Event.transmit [AXIS_MAP_SIGN, ((a.x >>> 2) ||| (a.y >>> 2)) ||| (a.z >>> 2)]] = true →
        bno055_remap_axis hal w a
          = (ESP_OK, ⟨w.imu, w.log ++
              [Event.transmit [AXIS_MAP_CONFIG,
                 (((a.z &&& 0x03) <<< 4) ||| ((a.y &&& 0x03) <<< 2)) ||| (a.x &&& 0x03)],
               Event.delay 10,
               Event.transmit [AXIS_MAP_SIGN, ((a.x >>> 2) ||| (a.y >>> 2)) ||| (a.z >>> 2)],
               Event.delay 10, Event.delay 20]⟩))) ∧
    (Event.transmit [AXIS_MAP_SIGN, 0x01] ∈ (bno055_remap_axis (okHal [])
        (sample_world CONFIG_MODE 0) ⟨NEGATIVE_X, POSITIVE_Y, POSITIVE_Z⟩).2.log ∧
     Event.transmit [AXIS_MAP_SIGN, 0x01] ∈ (bno055_remap_axis (okHal [])
        (sample_world CONFIG_MODE 0) ⟨POSITIVE_X, NEGATIVE_Y, POSITIVE_Z⟩).2.log) := by
  refine ⟨fun a hx hy hz hxy hxz hyz => ⟨?_, ?_, fun hmode hpage hacc => ?_⟩,
    by decide, by decide⟩
  · obtain ⟨hc, hs⟩ := axis_bytes_lt a hx hy hz
    obtain ⟨new, hnew, hq⟩ := remap_axis_grows hal w a
    refine ⟨new, hnew, fun b => ⟨fun hb => ?_, fun hb => ?_⟩⟩
    · rcases hq _ hb with h | h | h
      · have := h AXIS_MAP_SIGN (by simp [Event.accesses])
        simp at this
      · simp at h
      · rw [hs] at h
        simpa using h
    · rcases hq _ hb with h | h | h
      · have := h AXIS_MAP_CONFIG (by simp [Event.accesses])
        simp at this
      · rw [hc] at h
        simpa using h
      · simp at h
  · rw [(axis_bits a.x hx).1, (axis_bits a.y hy).1, (axis_bits a.z hz).1]
    by_cases h1 : axis_negative a.x <;> by_cases h2 : axis_negative a.y <;>
      by_cases h3 : axis_negative a.z <;> simp [h1, h2, h3]
  · obtain ⟨hc, hs⟩ := axis_bytes_lt a hx hy hz
    have hguard : ¬ ((a.x < 0 ∨ a.x > 6 ∨ a.x = 3) ∨ (a.y < 0 ∨ a.y > 6 ∨ a.y = 3)
        ∨ (a.z < 0 ∨ a.z > 6 ∨ a.z = 3)) := by
      unfold legal_axis at hx hy hz
      simp only [POSITIVE_X, POSITIVE_Y, POSITIVE_Z, NEGATIVE_X, NEGATIVE_Y, NEGATIVE_Z]
        at hx hy hz
      omega
    have hdup : ¬ (a.x = a.y ∨ a.x = a.z ∨ a.y = a.z) := by
      rintro (h | h | h)
      · exact hxy h
      · exact hxz h
      · exact hyz h
    simp only [Hal.accepts, Hal.status, Bool.and_eq_true, decide_eq_true_eq, Bool.and_true,
      AXIS_MAP_CONFIG, AXIS_MAP_SIGN, ESP_OK, List.append_assoc, List.cons_append,
      List.nil_append] at hacc
    obtain ⟨h1, -, h2⟩ := hacc
    simp only [CONFIG_MODE] at hmode
    unfold bno055_remap_axis
    rw [if_neg hguard, if_neg hdup]
    simp [hmode, hpage, hc, hs, h1, h2, i2c_master_transmit, vTaskDelay,
      bno055_set_operation_mode]

/-- Witness of C28: `(NEGATIVE_X, POSITIVE_Y, POSITIVE_Z)` in `CONFIG_MODE` on page 0 is
written as map byte `0x24` and sign byte `0x01`. -/
theorem remap_axis_bytes_witness :
    bno055_remap_axis (okHal []) (sample_world CONFIG_MODE 0)
        ⟨NEGATIVE_X, POSITIVE_Y, POSITIVE_Z⟩
      = (ESP_OK,
         ⟨(sample_world CONFIG_MODE 0).imu,
          [Event.transmit [AXIS_MAP_CONFIG, 0x24], Event.delay 10,
           Event.transmit [AXIS_MAP_SIGN, 0x01], Event.delay 10, Event.delay 20]⟩) :=
  ((remap_axis_bytes (okHal []) (sample_world CONFIG_MODE 0)).1
    ⟨NEGATIVE_X, POSITIVE_Y, POSITIVE_Z⟩ (by decide) (by decide) (by decide) (by decide)
    (by decide) (by decide)).2.2 rfl rfl (by decide)

/-! ## C29 -/

end BNO055
